import Mathlib

/-!
# rmw_introspect_cpp: backend loader, lifecycle controller and wait-set proxy

A shallow embedding of the delegation core of `rmw_introspect_cpp`:

* `RealRMW` (`src/real_rmw.cpp`, `include/rmw_introspect/real_rmw.hpp`): the table of
  backend entry points resolved with `dlopen` / `dlsym`;
* the process-wide controller `g_real_rmw` / `g_context_count` and the entry points
  `rmw_init`, `rmw_shutdown`, `rmw_context_fini` (`src/rmw_init.cpp`);
* the unwrap helpers (`include/rmw_introspect/forwarding.hpp`) and `rmw_wait`
  (`src/rmw_wait.cpp`).

Pointers are natural numbers with `0` for `nullptr`, or `Option` values when the pointee is
owned by the holder. Everything outside the repository (the dynamic loader, the process
environment, the loaded backend) is a parameter of the operation that consults it. Calls that
leave the interceptor (`dlopen`, `dlclose`, backend entry points, `delete`) are recorded in an
event list returned next to the result. Diagnostic logging (`RCUTILS_LOG_*`,
`RMW_SET_ERROR_MSG`) has no influence on control flow and is left out.
-/

namespace RmwIntrospect

/-! ## Result codes (`rmw/ret_types.h`) -/

/-- The result code type `rmw_ret_t` (an `int32_t`). -/
abbrev rmw_ret_t := Int

def RMW_RET_OK : rmw_ret_t := 0
def RMW_RET_ERROR : rmw_ret_t := 1
def RMW_RET_TIMEOUT : rmw_ret_t := 2
def RMW_RET_UNSUPPORTED : rmw_ret_t := 3
def RMW_RET_INVALID_ARGUMENT : rmw_ret_t := 11
def RMW_RET_INCORRECT_RMW_IMPLEMENTATION : rmw_ret_t := 12

/-- An identity tag: a `const char *` that the code compares by address; `none` is `nullptr`. -/
abbrev Identifier := Option String

/-- The tag of the interceptor, `rmw_introspect_cpp_identifier` (rmw_init.cpp, line 20). -/
def rmw_introspect_cpp_identifier : Identifier := some "rmw_introspect_cpp"

/-- Width of `size_t` on the supported platforms: `g_context_count` lives modulo this. -/
def SIZE_MODULUS : Nat := 2 ^ 64

/-! ## The dynamic loader -/

/-- The dynamic loader seen by `RealRMW`: `dlopen` maps a library file name to a handle
(`0` when the library cannot be opened), `dlsym` maps a handle and a symbol name to an address
(`0` when the symbol is missing). -/
structure DynLoader where
  dlopen : String → Nat
  dlsym : Nat → String → Nat

/-- The part of `rmw_init_options_t` that the interceptor reads or rewrites. -/
structure rmw_init_options_t where
  instance_id : Nat
  implementation_identifier : Identifier
  domain_id : Nat
deriving DecidableEq

/-- A backend-owned context: the `rmw_context_t` allocated by `rmw_init` for the backend. -/
structure real_context_t where
  instance_id : Nat
  implementation_identifier : Identifier
  actual_domain_id : Nat
  impl : Nat
deriving DecidableEq

/-- Value of `rmw_get_zero_initialized_context()` for the backend-owned context. -/
def real_context_t.zero : real_context_t := ⟨0, none, 0, 0⟩

/-- The arguments with which the backend `rmw_wait` is entered: the four native arrays
(`none` for a null collection pointer), the events collection, the native wait set and the
timeout (`none` for a null pointer, else seconds and nanoseconds). -/
structure WaitArgs where
  subscriptions : Option (List Nat)
  guard_conditions : Option (List Nat)
  services : Option (List Nat)
  clients : Option (List Nat)
  events : Option (List Nat)
  wait_set : Nat
  wait_timeout : Option (Nat × Nat)
deriving DecidableEq

/-- Calls that leave the interceptor, in the order they are made. -/
inductive Event where
  | dlopen (lib_name : String)
  | dlclose (lib_handle : Nat)
  | real_init (options : rmw_init_options_t)
  | real_shutdown (ctx : real_context_t)
  | real_context_fini (ctx : real_context_t)
  | real_wait (args : WaitArgs)
  | delete_real_context
  | delete_wrapper
  | export_to_json (path : String)
  | real_call (symbol : String) (natives : List Nat)
  | real_create (symbol : String) (natives : List Nat) (names : List String)
  | real_create_in_context (symbol : String) (ctx : Option real_context_t)
      (names : List String)
  | record_node (name namespace_ : String)
  | record_endpoint (kind node_name node_namespace name type_name : String)
  | delete_handle
  | delete_impl
deriving DecidableEq

/-! ## `RealRMW` -/

/-- The symbols resolved by `RealRMW::load`, in the order of the `load_symbol` calls
(real_rmw.cpp, lines 117-234). Entry `k` is stored into the `k`-th function-pointer member. -/
def symbolTable : List String :=
  ["rmw_get_implementation_identifier", "rmw_get_serialization_format",
   "rmw_init_options_init", "rmw_init_options_copy", "rmw_init_options_fini", "rmw_init",
   "rmw_shutdown", "rmw_context_fini",
   "rmw_create_node", "rmw_destroy_node", "rmw_node_get_graph_guard_condition",
   "rmw_create_publisher", "rmw_destroy_publisher", "rmw_publish",
   "rmw_publish_serialized_message", "rmw_publisher_get_actual_qos",
   "rmw_publisher_count_matched_subscriptions", "rmw_publisher_assert_liveliness",
   "rmw_publisher_wait_for_all_acked",
   "rmw_create_subscription", "rmw_destroy_subscription", "rmw_take", "rmw_take_with_info",
   "rmw_take_serialized_message", "rmw_take_serialized_message_with_info",
   "rmw_subscription_get_actual_qos", "rmw_subscription_count_matched_publishers",
   "rmw_create_service", "rmw_destroy_service", "rmw_take_request", "rmw_send_response",
   "rmw_create_client", "rmw_destroy_client", "rmw_send_request", "rmw_take_response",
   "rmw_create_guard_condition", "rmw_destroy_guard_condition", "rmw_trigger_guard_condition",
   "rmw_create_wait_set", "rmw_destroy_wait_set", "rmw_wait",
   "rmw_get_node_names", "rmw_get_node_names_with_enclaves", "rmw_count_publishers",
   "rmw_count_subscribers", "rmw_get_gid_for_publisher", "rmw_compare_gids_equal",
   "rmw_get_gid_for_client",
   "rmw_serialize", "rmw_deserialize", "rmw_get_serialized_message_size",
   "rmw_get_topic_names_and_types", "rmw_get_service_names_and_types",
   "rmw_get_publisher_names_and_types_by_node", "rmw_get_subscriber_names_and_types_by_node",
   "rmw_get_service_names_and_types_by_node", "rmw_get_client_names_and_types_by_node",
   "rmw_service_request_subscription_get_actual_qos",
   "rmw_service_response_publisher_get_actual_qos",
   "rmw_client_request_publisher_get_actual_qos",
   "rmw_client_response_subscription_get_actual_qos",
   "rmw_publisher_event_init", "rmw_subscription_event_init", "rmw_take_event",
   "rmw_event_fini"]

/-- An instance of class `RealRMW`: the library handle, the implementation name and the
function-pointer members (`fn`, one slot per entry of `symbolTable`, `0` for `nullptr`). -/
structure RealRMW where
  lib_handle_ : Nat
  name_ : String
  fn : List Nat
deriving DecidableEq

namespace RealRMW

/-- The constructor `RealRMW::RealRMW()` (real_rmw.cpp, lines 10-65): everything null. -/
def new : RealRMW := ⟨0, "", List.replicate symbolTable.length 0⟩

/-- The accessor `get_name()`. -/
def get_name (r : RealRMW) : String := r.name_

/-- The accessor `is_loaded()`: `lib_handle_ != nullptr`. -/
def is_loaded (r : RealRMW) : Bool := r.lib_handle_ != 0

/-- Method `RealRMW::unload()` (real_rmw.cpp, lines 254-327): closes the library when one is open,
clears the name and resets every function pointer. -/
def unload (r : RealRMW) : RealRMW × List Event :=
  let ev := if r.lib_handle_ != 0 then [Event.dlclose r.lib_handle_] else []
  (⟨0, "", List.replicate symbolTable.length 0⟩, ev)

/-- Method `RealRMW::load_symbol` (real_rmw.cpp, lines 329-349) for the `k`-th member: the
address returned by `dlsym` is stored whatever it is; the result is `false` only for a
missing required symbol. -/
def load_symbol (dl : DynLoader) (r : RealRMW) (k : Nat) (symbol_name : String)
    (required : Bool) : Bool × RealRMW :=
  let func_ptr := dl.dlsym r.lib_handle_ symbol_name
  let r1 : RealRMW := { r with fn := r.fn.set k func_ptr }
  if func_ptr == 0 then
    if required then (false, r1) else (true, r1)
  else (true, r1)

/-- The run of `success &= load_symbol(member, name)` statements of `RealRMW::load`
(lines 114-234) over the remaining entries `names`, the next member being number `k`.
The operator `&=` does not short-circuit: every symbol is looked up. -/
def load_symbols (dl : DynLoader) : List String → Nat → Bool → RealRMW → Bool × RealRMW
  | [], _, success, r => (success, r)
  | symbol_name :: rest, k, success, r =>
      let res := load_symbol dl r k symbol_name true
      load_symbols dl rest (k + 1) (success && res.1) res.2

/-- C `strncmp(a, b, n) == 0` on NUL-terminated strings given as their characters before the
terminator. -/
def strncmp_eq : List Char → List Char → Nat → Bool
  | _, _, 0 => true
  | [], [], _ + 1 => true
  | [], _ :: _, _ + 1 => false
  | _ :: _, [], _ + 1 => false
  | a :: as, b :: bs, n + 1 => a == b && strncmp_eq as bs n

/-- What a call of `RealRMW::load` yields: the returned flag, the instance afterwards and the
loader calls made. -/
structure LoadResult where
  ok : Bool
  state : RealRMW
  events : List Event
deriving DecidableEq

/-- Method `RealRMW::load` (real_rmw.cpp, lines 69-252). `implementation_name = none` is a null
pointer. -/
def load (dl : DynLoader) (implementation_name : Option String) (r : RealRMW) : LoadResult :=
  if r.lib_handle_ != 0 then ⟨false, r, []⟩
  else
    match implementation_name with
    | none => ⟨false, r, []⟩
    | some nm =>
      if nm.data.isEmpty then ⟨false, r, []⟩
      else if !(strncmp_eq nm.data "rmw_".data 4) then ⟨false, r, []⟩
      else
        let lib_name := "lib" ++ nm ++ ".so"
        let h := dl.dlopen lib_name
        let r1 : RealRMW := { r with lib_handle_ := h }
        if h == 0 then ⟨false, r1, [Event.dlopen lib_name]⟩
        else
          let r2 : RealRMW := { r1 with name_ := nm }
          let res := load_symbols dl symbolTable 0 true r2
          if !res.1 then
            let u := unload res.2
            ⟨false, u.1, Event.dlopen lib_name :: u.2⟩
          else ⟨true, res.2, [Event.dlopen lib_name]⟩

end RealRMW

/-! ## The lifecycle controller (`src/rmw_init.cpp`, `include/rmw_introspect/mode.hpp`) -/

/-- Struct `ContextWrapper` (wrappers.hpp, lines 13-24). `real_context` is the context allocated for
the backend, `real_rmw` aliases the global `g_real_rmw`. -/
structure ContextWrapper where
  real_context : Option real_context_t
  real_rmw : Option RealRMW
  real_rmw_name : String
deriving DecidableEq

/-- The caller-visible `rmw_context_t`; `impl` is the untyped payload. -/
structure rmw_context_t where
  instance_id : Nat
  implementation_identifier : Identifier
  actual_domain_id : Nat
  impl : Option ContextWrapper
deriving DecidableEq

/-- Value of `rmw_get_zero_initialized_context()`. -/
def rmw_get_zero_initialized_context : rmw_context_t := ⟨0, none, 0, none⟩

/-- The process-wide state of rmw_init.cpp, lines 26-28: `g_real_rmw` (`none` is `nullptr`)
and `g_context_count` (a `size_t`). -/
structure Globals where
  g_real_rmw : Option RealRMW
  g_context_count : Nat
deriving DecidableEq

/-- The state at program start: no backend, no live context. -/
def Globals.initial : Globals := ⟨none, 0⟩

/-- Query `is_intermediate_mode()` (mode.hpp, line 14): `g_real_rmw != nullptr`. -/
def is_intermediate_mode (g : Globals) : Bool := g.g_real_rmw.isSome

/-- Query `is_recording_only_mode()` (mode.hpp, line 17): `g_real_rmw == nullptr`. -/
def is_recording_only_mode (g : Globals) : Bool := g.g_real_rmw.isNone

/-- The content of a caller-provided buffer behind an out-pointer: bytes written by the caller
or the backend, or one of the values the interceptor itself stores in recording-only mode. -/
inductive Buffer where
  | data (bytes : List Nat)
  | qos_default
  | zero_gid (identifier : Identifier)
  | empty_array
deriving DecidableEq

/-- The out-parameters of a verb: the `bool *` flag (`taken`, `is_available`, `result`), the
integer out-value (`count`, `size`, `sequence_id`) and the caller buffers, each `none` for a
null pointer. -/
structure Out where
  flag : Option Bool
  value : Option Nat
  buffers : List (Option Buffer)
deriving DecidableEq

/-- What the interceptor reads from an object that a backend create operation returned: its
address (`0` for `nullptr`) and the fields copied into the caller-visible handle. -/
structure NativeObject where
  ptr : Nat
  name : String
  namespace_ : String
  can_loan_messages : Bool
  is_cft_enabled : Bool
deriving DecidableEq

/-- What the backend writes into the native arrays during `rmw_wait`: its return code and, per
collection, the content of native slot `i` when the call returns. -/
structure WaitReply where
  ret : rmw_ret_t
  subscriptions : Nat → Nat
  guard_conditions : Nat → Nat
  services : Nat → Nat
  clients : Nat → Nat
  events : Nat → Nat

/-- The behaviour of the entry points of the loaded backend that the modelled verbs call
through `g_real_rmw`. The verbs that only pass native handles and out-pointers on share
`call symbol natives out`: the return code of the member resolved from `symbol` and the
out-parameters as it leaves them. The create operations share `create symbol natives names`. -/
structure Backend where
  get_implementation_identifier : Identifier
  init : rmw_init_options_t → real_context_t → rmw_ret_t × real_context_t
  shutdown : real_context_t → rmw_ret_t × real_context_t
  context_fini : real_context_t → rmw_ret_t
  wait : WaitArgs → WaitReply
  call : String → List Nat → Out → rmw_ret_t × Out
  create : String → List Nat → List String → NativeObject
  create_in_context : String → Option real_context_t → List String → NativeObject
  node_get_graph_guard_condition : Nat → Nat

/-- Everything outside the interceptor that a call consults: the process environment
(`std::getenv`), the dynamic loader and the backend behind the loaded library. -/
structure Env where
  getenv : String → Option String
  dl : DynLoader
  backend : Backend

/-- The result of a context verb: return code, the caller's context object after the call
(`none` when a null pointer was passed), the controller state and the calls made. -/
structure Outcome where
  ret : rmw_ret_t
  context : Option rmw_context_t
  g : Globals
  events : List Event
deriving DecidableEq

/-- The first-initialization block of `rmw_init` (rmw_init.cpp, lines 132-155). The flag is
`false` when the block returns `RMW_RET_ERROR` (load failure, lines 145-149); `delete
g_real_rmw` runs the destructor, hence `unload()`. -/
def rmw_init_first (env : Env) (g : Globals) : Bool × Globals × List Event :=
  if g.g_context_count = 0 then
    match env.getenv "RMW_INTROSPECT_DELEGATE_TO" with
    | none => (true, g, [])
    | some delegate_to =>
      if delegate_to.data.isEmpty then (true, g, [])
      else
        let l := RealRMW.load env.dl (some delegate_to) RealRMW.new
        if !l.ok then
          (false, { g with g_real_rmw := none }, l.events ++ (RealRMW.unload l.state).2)
        else (true, { g with g_real_rmw := some l.state }, l.events)
  else (true, g, [])

/-- Entry point `rmw_init` (rmw_init.cpp, lines 116-197). -/
def rmw_init (env : Env) (options : Option rmw_init_options_t)
    (context : Option rmw_context_t) (g : Globals) : Outcome :=
  match options, context with
  | none, _ => ⟨RMW_RET_INVALID_ARGUMENT, context, g, []⟩
  | some _, none => ⟨RMW_RET_INVALID_ARGUMENT, none, g, []⟩
  | some opts, some ctx =>
    if opts.implementation_identifier ≠ rmw_introspect_cpp_identifier then
      ⟨RMW_RET_INCORRECT_RMW_IMPLEMENTATION, some ctx, g, []⟩
    else
      let first := rmw_init_first env g
      if !first.1 then ⟨RMW_RET_ERROR, some ctx, first.2.1, first.2.2⟩
      else
        let g1 : Globals :=
          { first.2.1 with g_context_count := (first.2.1.g_context_count + 1) % SIZE_MODULUS }
        match g1.g_real_rmw with
        | some real =>
          let real_options : rmw_init_options_t :=
            { opts with implementation_identifier := env.backend.get_implementation_identifier }
          let r := env.backend.init real_options real_context_t.zero
          if r.1 ≠ RMW_RET_OK then
            ⟨r.1, some ctx,
              { g1 with g_context_count :=
                  (g1.g_context_count + SIZE_MODULUS - 1) % SIZE_MODULUS },
              first.2.2 ++ [Event.real_init real_options, Event.delete_real_context,
                Event.delete_wrapper]⟩
          else
            let wrapper : ContextWrapper :=
              { real_context := some r.2, real_rmw := some real,
                real_rmw_name := real.get_name }
            ⟨RMW_RET_OK,
              some { ctx with
                implementation_identifier := rmw_introspect_cpp_identifier
                impl := some wrapper
                instance_id := opts.instance_id
                actual_domain_id := r.2.actual_domain_id },
              g1, first.2.2 ++ [Event.real_init real_options]⟩
        | none =>
          ⟨RMW_RET_OK,
            some { ctx with
              instance_id := opts.instance_id
              implementation_identifier := rmw_introspect_cpp_identifier
              actual_domain_id := opts.domain_id
              impl := none },
            g1, first.2.2⟩

/-- Entry point `rmw_shutdown` (rmw_init.cpp, lines 201-236). The export of the recorded data is a call
into the recording collaborator. -/
def rmw_shutdown (env : Env) (context : Option rmw_context_t) (g : Globals) : Outcome :=
  match context with
  | none => ⟨RMW_RET_INVALID_ARGUMENT, none, g, []⟩
  | some ctx =>
    if ctx.implementation_identifier ≠ rmw_introspect_cpp_identifier then
      ⟨RMW_RET_INCORRECT_RMW_IMPLEMENTATION, some ctx, g, []⟩
    else
      let auto_export : Bool := !(env.getenv "RMW_INTROSPECT_AUTO_EXPORT" == some "0")
      let ev : List Event :=
        if auto_export then
          match env.getenv "RMW_INTROSPECT_OUTPUT" with
          | some output_path => [Event.export_to_json output_path]
          | none => []
        else []
      match is_intermediate_mode g, ctx.impl with
      | true, some wrapper =>
        match wrapper.real_context with
        | some rc =>
          let r := env.backend.shutdown rc
          ⟨r.1, some { ctx with impl := some { wrapper with real_context := some r.2 } }, g,
            ev ++ [Event.real_shutdown rc]⟩
        | none => ⟨RMW_RET_OK, some ctx, g, ev⟩
      | _, _ => ⟨RMW_RET_OK, some ctx, g, ev⟩

/-- The wrapper clean-up of `rmw_context_fini` (rmw_init.cpp, lines 253-264): `some ret` is
the early return of line 260, taken after `delete wrapper->real_context`. -/
def rmw_context_fini_wrapper (env : Env) (ctx : rmw_context_t) (g : Globals) :
    Option rmw_ret_t × List Event :=
  match is_intermediate_mode g, ctx.impl with
  | true, some wrapper =>
    match wrapper.real_context with
    | some rc =>
      let ret := env.backend.context_fini rc
      if ret ≠ RMW_RET_OK then
        (some ret, [Event.real_context_fini rc, Event.delete_real_context])
      else
        (none, [Event.real_context_fini rc, Event.delete_real_context, Event.delete_wrapper])
    | none => (none, [Event.delete_wrapper])
  | _, _ => (none, [])

/-- Entry point `rmw_context_fini` (rmw_init.cpp, lines 240-276). `delete g_real_rmw` runs the
destructor, hence `unload()`. -/
def rmw_context_fini (env : Env) (context : Option rmw_context_t) (g : Globals) : Outcome :=
  match context with
  | none => ⟨RMW_RET_INVALID_ARGUMENT, none, g, []⟩
  | some ctx =>
    if ctx.implementation_identifier ≠ rmw_introspect_cpp_identifier then
      ⟨RMW_RET_INCORRECT_RMW_IMPLEMENTATION, some ctx, g, []⟩
    else
      let pre := rmw_context_fini_wrapper env ctx g
      match pre.1 with
      | some ret => ⟨ret, some ctx, g, pre.2⟩
      | none =>
        let count := (g.g_context_count + SIZE_MODULUS - 1) % SIZE_MODULUS
        match g.g_real_rmw with
        | some real =>
          if count = 0 then
            ⟨RMW_RET_OK, some rmw_get_zero_initialized_context, ⟨none, count⟩,
              pre.2 ++ (RealRMW.unload real).2⟩
          else
            ⟨RMW_RET_OK, some rmw_get_zero_initialized_context, ⟨some real, count⟩, pre.2⟩
        | none =>
          ⟨RMW_RET_OK, some rmw_get_zero_initialized_context, ⟨none, count⟩, pre.2⟩

/-! ## Handles, unwrap helpers and the wait-set proxy
(`include/rmw_introspect/wrappers.hpp`, `forwarding.hpp`, `src/rmw_wait.cpp`) -/

/-- Struct `SubscriptionWrapper` (wrappers.hpp, lines 49-58), without the QoS record. -/
structure SubscriptionWrapper where
  real_subscription : Nat
  topic_name : String
  message_type : String
deriving DecidableEq

/-- Struct `ServiceWrapper` (wrappers.hpp, lines 61-70), without the QoS record. -/
structure ServiceWrapper where
  real_service : Nat
  service_name : String
  service_type : String
deriving DecidableEq

/-- Struct `ClientWrapper` (wrappers.hpp, lines 73-82), without the QoS record. -/
structure ClientWrapper where
  real_client : Nat
  service_name : String
  service_type : String
deriving DecidableEq

/-- Struct `GuardConditionWrapper` (wrappers.hpp, lines 85-90). -/
structure GuardConditionWrapper where
  real_guard_condition : Nat
deriving DecidableEq

/-- Struct `WaitSetWrapper` (wrappers.hpp, lines 93-98). -/
structure WaitSetWrapper where
  real_wait_set : Nat
deriving DecidableEq

/-- The caller-visible `rmw_subscription_t`: identity tag and untyped payload `data`. -/
structure rmw_subscription_t where
  implementation_identifier : Identifier
  data : Option SubscriptionWrapper
deriving DecidableEq

/-- The caller-visible `rmw_service_t`. -/
structure rmw_service_t where
  implementation_identifier : Identifier
  data : Option ServiceWrapper
deriving DecidableEq

/-- The caller-visible `rmw_client_t`. -/
structure rmw_client_t where
  implementation_identifier : Identifier
  data : Option ClientWrapper
deriving DecidableEq

/-- The caller-visible `rmw_guard_condition_t`. -/
structure rmw_guard_condition_t where
  implementation_identifier : Identifier
  data : Option GuardConditionWrapper
deriving DecidableEq

/-- The caller-visible `rmw_wait_set_t`. -/
structure rmw_wait_set_t where
  implementation_identifier : Identifier
  data : Option WaitSetWrapper
deriving DecidableEq

/-- The objects behind the `void *` slots of the wait collections: what is stored at a
non-null address when it is read as a handle of the given kind. -/
structure Heap where
  subscription : Nat → rmw_subscription_t
  guard_condition : Nat → rmw_guard_condition_t
  service : Nat → rmw_service_t
  client : Nat → rmw_client_t

/-- Reading a slot as `rmw_subscription_t *`: `none` for the null pointer. -/
def Heap.subscription_at (heap : Heap) (p : Nat) : Option rmw_subscription_t :=
  if p = 0 then none else some (heap.subscription p)

/-- Reading a slot as `rmw_guard_condition_t *`. -/
def Heap.guard_condition_at (heap : Heap) (p : Nat) : Option rmw_guard_condition_t :=
  if p = 0 then none else some (heap.guard_condition p)

/-- Reading a slot as `rmw_service_t *`. -/
def Heap.service_at (heap : Heap) (p : Nat) : Option rmw_service_t :=
  if p = 0 then none else some (heap.service p)

/-- Reading a slot as `rmw_client_t *`. -/
def Heap.client_at (heap : Heap) (p : Nat) : Option rmw_client_t :=
  if p = 0 then none else some (heap.client p)

/-- Helper `unwrap_context` (forwarding.hpp, lines 13-18). -/
def unwrap_context (ctx : Option rmw_context_t) : Option real_context_t :=
  match ctx with
  | none => none
  | some c =>
    match c.impl with
    | none => none
    | some wrapper => wrapper.real_context

/-- Helper `unwrap_subscription` (forwarding.hpp, lines 37-42); the result is a native pointer. -/
def unwrap_subscription (sub : Option rmw_subscription_t) : Nat :=
  match sub with
  | none => 0
  | some s =>
    match s.data with
    | none => 0
    | some wrapper => wrapper.real_subscription

/-- Helper `unwrap_service` (forwarding.hpp, lines 45-50). -/
def unwrap_service (srv : Option rmw_service_t) : Nat :=
  match srv with
  | none => 0
  | some s =>
    match s.data with
    | none => 0
    | some wrapper => wrapper.real_service

/-- Helper `unwrap_client` (forwarding.hpp, lines 53-58). -/
def unwrap_client (cli : Option rmw_client_t) : Nat :=
  match cli with
  | none => 0
  | some c =>
    match c.data with
    | none => 0
    | some wrapper => wrapper.real_client

/-- Helper `unwrap_guard_condition` (forwarding.hpp, lines 61-67). -/
def unwrap_guard_condition (gc : Option rmw_guard_condition_t) : Nat :=
  match gc with
  | none => 0
  | some c =>
    match c.data with
    | none => 0
    | some wrapper => wrapper.real_guard_condition

/-- Helper `unwrap_wait_set` (forwarding.hpp, lines 70-75). -/
def unwrap_wait_set (ws : Option rmw_wait_set_t) : Nat :=
  match ws with
  | none => 0
  | some w =>
    match w.data with
    | none => 0
    | some wrapper => wrapper.real_wait_set

/-- The translation of one collection in `rmw_wait` (rmw_wait.cpp, lines 131-195): for a
present, non-empty collection the native array holds `unwrap` of every slot in order; otherwise
the native record has count `0` and a null array. -/
def unwrap_array (unwrap : Nat → Nat) (collection : Option (List Nat)) : List Nat :=
  match collection with
  | some slots => if slots.length > 0 then slots.map unwrap else []
  | none => []

/-- The loop `for (i = 0; i < count; ++i) slots[i] = real[i] ? slots[i] : nullptr`
(rmw_wait.cpp, lines 211-215 and its three siblings), `real i` being native slot `i` after
the backend call. -/
def update_ready_loop (real : Nat → Nat) (count : Nat) (slots : List Nat) : List Nat :=
  (List.range count).foldl
    (fun arr i => arr.set i (if real i ≠ 0 then arr.getD i 0 else 0)) slots

/-- The guarded update of one caller collection (rmw_wait.cpp, lines 210-216): nothing is
done for a null or empty collection. -/
def update_ready (real : Nat → Nat) (collection : Option (List Nat)) : Option (List Nat) :=
  match collection with
  | some slots =>
    if slots.length > 0 then some (update_ready_loop real slots.length slots) else some slots
  | none => none

/-- The caller-visible effect of `rmw_wait`: return code, the five collections afterwards and
the backend calls made. -/
structure WaitOutcome where
  ret : rmw_ret_t
  subscriptions : Option (List Nat)
  guard_conditions : Option (List Nat)
  services : Option (List Nat)
  clients : Option (List Nat)
  events : Option (List Nat)
  trace : List Event
deriving DecidableEq

/-- Entry point `rmw_wait` (rmw_wait.cpp, lines 114-246). A collection is `none` for a null pointer and
otherwise the list of its `void *` slots (its count is the length). The events collection is
handed to the backend as it is, so the backend writes into the caller's own array. -/
def rmw_wait (env : Env) (heap : Heap) (g : Globals)
    (subscriptions guard_conditions services clients events : Option (List Nat))
    (wait_set : Option rmw_wait_set_t) (wait_timeout : Option (Nat × Nat)) : WaitOutcome :=
  match wait_set with
  | none =>
    ⟨RMW_RET_INVALID_ARGUMENT, subscriptions, guard_conditions, services, clients, events, []⟩
  | some ws =>
    if is_intermediate_mode g then
      let real_wait_set := unwrap_wait_set (some ws)
      if real_wait_set = 0 then
        ⟨RMW_RET_ERROR, subscriptions, guard_conditions, services, clients, events, []⟩
      else
        let real_subscriptions :=
          unwrap_array (fun p => unwrap_subscription (heap.subscription_at p)) subscriptions
        let real_guard_conditions :=
          unwrap_array (fun p => unwrap_guard_condition (heap.guard_condition_at p))
            guard_conditions
        let real_services :=
          unwrap_array (fun p => unwrap_service (heap.service_at p)) services
        let real_clients :=
          unwrap_array (fun p => unwrap_client (heap.client_at p)) clients
        let args : WaitArgs :=
          { subscriptions := subscriptions.map (fun _ => real_subscriptions)
            guard_conditions := guard_conditions.map (fun _ => real_guard_conditions)
            services := services.map (fun _ => real_services)
            clients := clients.map (fun _ => real_clients)
            events := events
            wait_set := real_wait_set
            wait_timeout := wait_timeout }
        let reply := env.backend.wait args
        let events1 := events.map (fun es => (List.range es.length).map reply.events)
        if reply.ret = RMW_RET_OK then
          ⟨reply.ret, update_ready reply.subscriptions subscriptions,
            update_ready reply.guard_conditions guard_conditions,
            update_ready reply.services services,
            update_ready reply.clients clients, events1, [Event.real_wait args]⟩
        else
          ⟨reply.ret, subscriptions, guard_conditions, services, clients, events1,
            [Event.real_wait args]⟩
    else
      ⟨RMW_RET_TIMEOUT, subscriptions, guard_conditions, services, clients, events, []⟩

/-! ## Nodes and publishers (`src/rmw_node.cpp`, `src/rmw_publisher.cpp`) -/

/-- Struct `NodeWrapper` (wrappers.hpp, lines 27-34). -/
structure NodeWrapper where
  real_node : Nat
  name : String
  namespace_ : String
deriving DecidableEq

/-- Struct `PublisherWrapper` (wrappers.hpp, lines 37-46), without the QoS record. -/
structure PublisherWrapper where
  real_publisher : Nat
  topic_name : String
  message_type : String
deriving DecidableEq

/-- What `rmw_node_t::data` points to: a `NodeWrapper` in delegating mode, or the
`rmw_node_impl_t` of recording-only mode (rmw_node.cpp, lines 15-18), given by the addresses of
its two character buffers. -/
inductive NodePayload where
  | wrapper (w : NodeWrapper)
  | impl (name_address namespace_address : Nat)
deriving DecidableEq

/-- The caller-visible `rmw_node_t`. -/
structure rmw_node_t where
  implementation_identifier : Identifier
  data : Option NodePayload
  name : String
  namespace_ : String
deriving DecidableEq

/-- The caller-visible `rmw_publisher_t`. -/
structure rmw_publisher_t where
  implementation_identifier : Identifier
  data : Option PublisherWrapper
  topic_name : String
  can_loan_messages : Bool
deriving DecidableEq

/-- Helper `unwrap_node` (forwarding.hpp, lines 21-26). The payload is cast to `NodeWrapper *`
whatever it is; for the recording-only payload the field read as `real_node` is the first
member of `rmw_node_impl_t`, the address of the name buffer. -/
def unwrap_node (node : Option rmw_node_t) : Nat :=
  match node with
  | none => 0
  | some n =>
    match n.data with
    | none => 0
    | some (NodePayload.wrapper wrapper) => wrapper.real_node
    | some (NodePayload.impl name_address _) => name_address

/-- Helper `unwrap_publisher` (forwarding.hpp, lines 29-34). -/
def unwrap_publisher (pub : Option rmw_publisher_t) : Nat :=
  match pub with
  | none => 0
  | some p =>
    match p.data with
    | none => 0
    | some wrapper => wrapper.real_publisher

/-! ## Forwarding dispatch -/

/-- The caller-visible effect of a verb on existing handles: the return code, the
out-parameters afterwards and the calls made. -/
structure CallOutcome where
  ret : rmw_ret_t
  out : Out
  trace : List Event
deriving DecidableEq

/-- The statement `return g_real_rmw->member(natives..., out-pointers...)`: the backend member
resolved from `symbol` runs once, its return code and out-parameter writes go to the caller. -/
def forward (env : Env) (symbol : String) (natives : List Nat) (out : Out) : CallOutcome :=
  ⟨(env.backend.call symbol natives out).1, (env.backend.call symbol natives out).2,
    [Event.real_call symbol natives]⟩

/-- Entry point `rmw_publish` (rmw_publisher.cpp, lines 148-168). -/
def rmw_publish (env : Env) (g : Globals) (publisher : Option rmw_publisher_t)
    (ros_message : Option Buffer) : CallOutcome :=
  let out : Out := ⟨none, none, []⟩
  if publisher.isNone then ⟨RMW_RET_INVALID_ARGUMENT, out, []⟩
  else if ros_message.isNone then ⟨RMW_RET_INVALID_ARGUMENT, out, []⟩
  else if is_intermediate_mode g then
    let real_publisher := unwrap_publisher publisher
    if real_publisher = 0 then ⟨RMW_RET_ERROR, out, []⟩
    else forward env "rmw_publish" [real_publisher] out
  else ⟨RMW_RET_OK, out, []⟩

/-- Entry point `rmw_publish_serialized_message` (rmw_publisher.cpp, lines 171-194). -/
def rmw_publish_serialized_message (env : Env) (g : Globals)
    (publisher : Option rmw_publisher_t) (serialized_message : Option Buffer) : CallOutcome :=
  let out : Out := ⟨none, none, []⟩
  if publisher.isNone then ⟨RMW_RET_INVALID_ARGUMENT, out, []⟩
  else if serialized_message.isNone then ⟨RMW_RET_INVALID_ARGUMENT, out, []⟩
  else if is_intermediate_mode g then
    let real_publisher := unwrap_publisher publisher
    if real_publisher = 0 then ⟨RMW_RET_ERROR, out, []⟩
    else forward env "rmw_publish_serialized_message" [real_publisher] out
  else ⟨RMW_RET_OK, out, []⟩

/-- Entry point `rmw_publisher_get_actual_qos` (rmw_publisher.cpp, lines 219-240). -/
def rmw_publisher_get_actual_qos (env : Env) (g : Globals)
    (publisher : Option rmw_publisher_t) (qos : Option Buffer) : CallOutcome :=
  let out : Out := ⟨none, none, [qos]⟩
  if publisher.isNone then ⟨RMW_RET_INVALID_ARGUMENT, out, []⟩
  else if qos.isNone then ⟨RMW_RET_INVALID_ARGUMENT, out, []⟩
  else if is_intermediate_mode g then
    let real_publisher := unwrap_publisher publisher
    if real_publisher = 0 then ⟨RMW_RET_ERROR, out, []⟩
    else forward env "rmw_publisher_get_actual_qos" [real_publisher] out
  else ⟨RMW_RET_OK, ⟨none, none, [some Buffer.qos_default]⟩, []⟩

/-- Entry point `rmw_publisher_count_matched_subscriptions` (rmw_publisher.cpp,
lines 243-266). -/
def rmw_publisher_count_matched_subscriptions (env : Env) (g : Globals)
    (publisher : Option rmw_publisher_t) (subscription_count : Option Nat) : CallOutcome :=
  let out : Out := ⟨none, subscription_count, []⟩
  if publisher.isNone then ⟨RMW_RET_INVALID_ARGUMENT, out, []⟩
  else if subscription_count.isNone then ⟨RMW_RET_INVALID_ARGUMENT, out, []⟩
  else if is_intermediate_mode g then
    let real_publisher := unwrap_publisher publisher
    if real_publisher = 0 then ⟨RMW_RET_ERROR, out, []⟩
    else forward env "rmw_publisher_count_matched_subscriptions" [real_publisher] out
  else ⟨RMW_RET_OK, ⟨none, some 0, []⟩, []⟩

/-- Entry point `rmw_publisher_assert_liveliness` (rmw_publisher.cpp, lines 269-287). -/
def rmw_publisher_assert_liveliness (env : Env) (g : Globals)
    (publisher : Option rmw_publisher_t) : CallOutcome :=
  let out : Out := ⟨none, none, []⟩
  if publisher.isNone then ⟨RMW_RET_INVALID_ARGUMENT, out, []⟩
  else if is_intermediate_mode g then
    let real_publisher := unwrap_publisher publisher
    if real_publisher = 0 then ⟨RMW_RET_ERROR, out, []⟩
    else forward env "rmw_publisher_assert_liveliness" [real_publisher] out
  else ⟨RMW_RET_OK, out, []⟩

/-- Entry point `rmw_publisher_wait_for_all_acked` (rmw_publisher.cpp, lines 290-314); the
timeout is passed by value. -/
def rmw_publisher_wait_for_all_acked (env : Env) (g : Globals)
    (publisher : Option rmw_publisher_t) : CallOutcome :=
  let out : Out := ⟨none, none, []⟩
  match publisher with
  | none => ⟨RMW_RET_INVALID_ARGUMENT, out, []⟩
  | some pub =>
    if pub.implementation_identifier ≠ rmw_introspect_cpp_identifier then
      ⟨RMW_RET_INCORRECT_RMW_IMPLEMENTATION, out, []⟩
    else if is_intermediate_mode g then
      let real_publisher := unwrap_publisher (some pub)
      if real_publisher = 0 then ⟨RMW_RET_ERROR, out, []⟩
      else forward env "rmw_publisher_wait_for_all_acked" [real_publisher] out
    else ⟨RMW_RET_OK, out, []⟩

/-- Entry point `rmw_take` (rmw_subscription.cpp, lines 151-173). -/
def rmw_take (env : Env) (g : Globals) (subscription : Option rmw_subscription_t)
    (ros_message : Option Buffer) (taken : Option Bool) : CallOutcome :=
  let out : Out := ⟨taken, none, [ros_message]⟩
  if subscription.isNone then ⟨RMW_RET_INVALID_ARGUMENT, out, []⟩
  else if ros_message.isNone then ⟨RMW_RET_INVALID_ARGUMENT, out, []⟩
  else if taken.isNone then ⟨RMW_RET_INVALID_ARGUMENT, out, []⟩
  else if is_intermediate_mode g then
    let real_subscription := unwrap_subscription subscription
    if real_subscription = 0 then ⟨RMW_RET_ERROR, out, []⟩
    else forward env "rmw_take" [real_subscription] out
  else ⟨RMW_RET_OK, { out with flag := some false }, []⟩

/-- Entry point `rmw_take_with_info` (rmw_subscription.cpp, lines 176-202). -/
def rmw_take_with_info (env : Env) (g : Globals) (subscription : Option rmw_subscription_t)
    (ros_message : Option Buffer) (taken : Option Bool) (message_info : Option Buffer) :
    CallOutcome :=
  let out : Out := ⟨taken, none, [ros_message, message_info]⟩
  if subscription.isNone then ⟨RMW_RET_INVALID_ARGUMENT, out, []⟩
  else if ros_message.isNone then ⟨RMW_RET_INVALID_ARGUMENT, out, []⟩
  else if taken.isNone then ⟨RMW_RET_INVALID_ARGUMENT, out, []⟩
  else if message_info.isNone then ⟨RMW_RET_INVALID_ARGUMENT, out, []⟩
  else if is_intermediate_mode g then
    let real_subscription := unwrap_subscription subscription
    if real_subscription = 0 then ⟨RMW_RET_ERROR, out, []⟩
    else forward env "rmw_take_with_info" [real_subscription] out
  else ⟨RMW_RET_OK, { out with flag := some false }, []⟩

/-- Entry point `rmw_take_serialized_message` (rmw_subscription.cpp, lines 205-231). -/
def rmw_take_serialized_message (env : Env) (g : Globals)
    (subscription : Option rmw_subscription_t) (serialized_message : Option Buffer)
    (taken : Option Bool) : CallOutcome :=
  let out : Out := ⟨taken, none, [serialized_message]⟩
  if subscription.isNone then ⟨RMW_RET_INVALID_ARGUMENT, out, []⟩
  else if serialized_message.isNone then ⟨RMW_RET_INVALID_ARGUMENT, out, []⟩
  else if taken.isNone then ⟨RMW_RET_INVALID_ARGUMENT, out, []⟩
  else if is_intermediate_mode g then
    let real_subscription := unwrap_subscription subscription
    if real_subscription = 0 then ⟨RMW_RET_ERROR, out, []⟩
    else forward env "rmw_take_serialized_message" [real_subscription] out
  else ⟨RMW_RET_OK, { out with flag := some false }, []⟩

/-- Entry point `rmw_take_serialized_message_with_info` (rmw_subscription.cpp,
lines 234-261). -/
def rmw_take_serialized_message_with_info (env : Env) (g : Globals)
    (subscription : Option rmw_subscription_t) (serialized_message : Option Buffer)
    (taken : Option Bool) (message_info : Option Buffer) : CallOutcome :=
  let out : Out := ⟨taken, none, [serialized_message, message_info]⟩
  if subscription.isNone then ⟨RMW_RET_INVALID_ARGUMENT, out, []⟩
  else if serialized_message.isNone then ⟨RMW_RET_INVALID_ARGUMENT, out, []⟩
  else if taken.isNone then ⟨RMW_RET_INVALID_ARGUMENT, out, []⟩
  else if message_info.isNone then ⟨RMW_RET_INVALID_ARGUMENT, out, []⟩
  else if is_intermediate_mode g then
    let real_subscription := unwrap_subscription subscription
    if real_subscription = 0 then ⟨RMW_RET_ERROR, out, []⟩
    else forward env "rmw_take_serialized_message_with_info" [real_subscription] out
  else ⟨RMW_RET_OK, { out with flag := some false }, []⟩

/-- Entry point `rmw_subscription_get_actual_qos` (rmw_subscription.cpp, lines 300-322). -/
def rmw_subscription_get_actual_qos (env : Env) (g : Globals)
    (subscription : Option rmw_subscription_t) (qos : Option Buffer) : CallOutcome :=
  let out : Out := ⟨none, none, [qos]⟩
  if subscription.isNone then ⟨RMW_RET_INVALID_ARGUMENT, out, []⟩
  else if qos.isNone then ⟨RMW_RET_INVALID_ARGUMENT, out, []⟩
  else if is_intermediate_mode g then
    let real_subscription := unwrap_subscription subscription
    if real_subscription = 0 then ⟨RMW_RET_ERROR, out, []⟩
    else forward env "rmw_subscription_get_actual_qos" [real_subscription] out
  else ⟨RMW_RET_OK, ⟨none, none, [some Buffer.qos_default]⟩, []⟩

/-- Entry point `rmw_subscription_count_matched_publishers` (rmw_subscription.cpp,
lines 325-347). -/
def rmw_subscription_count_matched_publishers (env : Env) (g : Globals)
    (subscription : Option rmw_subscription_t) (publisher_count : Option Nat) : CallOutcome :=
  let out : Out := ⟨none, publisher_count, []⟩
  if subscription.isNone then ⟨RMW_RET_INVALID_ARGUMENT, out, []⟩
  else if publisher_count.isNone then ⟨RMW_RET_INVALID_ARGUMENT, out, []⟩
  else if is_intermediate_mode g then
    let real_subscription := unwrap_subscription subscription
    if real_subscription = 0 then ⟨RMW_RET_ERROR, out, []⟩
    else forward env "rmw_subscription_count_matched_publishers" [real_subscription] out
  else ⟨RMW_RET_OK, ⟨none, some 0, []⟩, []⟩

/-- Entry point `rmw_take_request` (rmw_service.cpp, lines 144-168). -/
def rmw_take_request (env : Env) (g : Globals) (service : Option rmw_service_t)
    (request_header : Option Buffer) (ros_request : Option Buffer)
    (taken : Option Bool) : CallOutcome :=
  let out : Out := ⟨taken, none, [request_header, ros_request]⟩
  if service.isNone then ⟨RMW_RET_INVALID_ARGUMENT, out, []⟩
  else if request_header.isNone then ⟨RMW_RET_INVALID_ARGUMENT, out, []⟩
  else if ros_request.isNone then ⟨RMW_RET_INVALID_ARGUMENT, out, []⟩
  else if taken.isNone then ⟨RMW_RET_INVALID_ARGUMENT, out, []⟩
  else if is_intermediate_mode g then
    let real_service := unwrap_service service
    if real_service = 0 then ⟨RMW_RET_ERROR, out, []⟩
    else forward env "rmw_take_request" [real_service] out
  else ⟨RMW_RET_OK, { out with flag := some false }, []⟩

/-- Entry point `rmw_send_response` (rmw_service.cpp, lines 172-194). -/
def rmw_send_response (env : Env) (g : Globals) (service : Option rmw_service_t)
    (request_header : Option Buffer) (ros_response : Option Buffer) : CallOutcome :=
  let out : Out := ⟨none, none, [request_header, ros_response]⟩
  if service.isNone then ⟨RMW_RET_INVALID_ARGUMENT, out, []⟩
  else if request_header.isNone then ⟨RMW_RET_INVALID_ARGUMENT, out, []⟩
  else if ros_response.isNone then ⟨RMW_RET_INVALID_ARGUMENT, out, []⟩
  else if is_intermediate_mode g then
    let real_service := unwrap_service service
    if real_service = 0 then ⟨RMW_RET_ERROR, out, []⟩
    else forward env "rmw_send_response" [real_service] out
  else ⟨RMW_RET_OK, out, []⟩

/-- Entry point `rmw_service_request_subscription_get_actual_qos` (rmw_service.cpp, lines
226-251). -/
def rmw_service_request_subscription_get_actual_qos (env : Env) (g : Globals)
    (service : Option rmw_service_t) (qos : Option Buffer) : CallOutcome :=
  let out : Out := ⟨none, none, [qos]⟩
  if service.isNone then ⟨RMW_RET_INVALID_ARGUMENT, out, []⟩
  else if qos.isNone then ⟨RMW_RET_INVALID_ARGUMENT, out, []⟩
  else if service.bind (fun h => h.implementation_identifier) ≠ rmw_introspect_cpp_identifier then
    ⟨RMW_RET_INCORRECT_RMW_IMPLEMENTATION, out, []⟩
  else if is_intermediate_mode g then
    let real_service := unwrap_service service
    if real_service = 0 then ⟨RMW_RET_ERROR, out, []⟩
    else forward env "rmw_service_request_subscription_get_actual_qos" [real_service] out
  else ⟨RMW_RET_OK, ⟨none, none, [some Buffer.qos_default]⟩, []⟩

/-- Entry point `rmw_service_response_publisher_get_actual_qos` (rmw_service.cpp, lines
255-280). -/
def rmw_service_response_publisher_get_actual_qos (env : Env) (g : Globals)
    (service : Option rmw_service_t) (qos : Option Buffer) : CallOutcome :=
  let out : Out := ⟨none, none, [qos]⟩
  if service.isNone then ⟨RMW_RET_INVALID_ARGUMENT, out, []⟩
  else if qos.isNone then ⟨RMW_RET_INVALID_ARGUMENT, out, []⟩
  else if service.bind (fun h => h.implementation_identifier) ≠ rmw_introspect_cpp_identifier then
    ⟨RMW_RET_INCORRECT_RMW_IMPLEMENTATION, out, []⟩
  else if is_intermediate_mode g then
    let real_service := unwrap_service service
    if real_service = 0 then ⟨RMW_RET_ERROR, out, []⟩
    else forward env "rmw_service_response_publisher_get_actual_qos" [real_service] out
  else ⟨RMW_RET_OK, ⟨none, none, [some Buffer.qos_default]⟩, []⟩

/-- Entry point `rmw_send_request` (rmw_client.cpp, lines 143-164). -/
def rmw_send_request (env : Env) (g : Globals) (client : Option rmw_client_t)
    (ros_request : Option Buffer) (sequence_id : Option Nat) : CallOutcome :=
  let out : Out := ⟨none, sequence_id, []⟩
  if client.isNone then ⟨RMW_RET_INVALID_ARGUMENT, out, []⟩
  else if ros_request.isNone then ⟨RMW_RET_INVALID_ARGUMENT, out, []⟩
  else if sequence_id.isNone then ⟨RMW_RET_INVALID_ARGUMENT, out, []⟩
  else if is_intermediate_mode g then
    let real_client := unwrap_client client
    if real_client = 0 then ⟨RMW_RET_ERROR, out, []⟩
    else forward env "rmw_send_request" [real_client] out
  else ⟨RMW_RET_OK, ⟨none, some 1, []⟩, []⟩

/-- Entry point `rmw_take_response` (rmw_client.cpp, lines 168-192). -/
def rmw_take_response (env : Env) (g : Globals) (client : Option rmw_client_t)
    (request_header : Option Buffer) (ros_response : Option Buffer)
    (taken : Option Bool) : CallOutcome :=
  let out : Out := ⟨taken, none, [request_header, ros_response]⟩
  if client.isNone then ⟨RMW_RET_INVALID_ARGUMENT, out, []⟩
  else if request_header.isNone then ⟨RMW_RET_INVALID_ARGUMENT, out, []⟩
  else if ros_response.isNone then ⟨RMW_RET_INVALID_ARGUMENT, out, []⟩
  else if taken.isNone then ⟨RMW_RET_INVALID_ARGUMENT, out, []⟩
  else if is_intermediate_mode g then
    let real_client := unwrap_client client
    if real_client = 0 then ⟨RMW_RET_ERROR, out, []⟩
    else forward env "rmw_take_response" [real_client] out
  else ⟨RMW_RET_OK, { out with flag := some false }, []⟩

/-- Entry point `rmw_client_request_publisher_get_actual_qos` (rmw_client.cpp, lines 196-221). -/
def rmw_client_request_publisher_get_actual_qos (env : Env) (g : Globals)
    (client : Option rmw_client_t) (qos : Option Buffer) : CallOutcome :=
  let out : Out := ⟨none, none, [qos]⟩
  if client.isNone then ⟨RMW_RET_INVALID_ARGUMENT, out, []⟩
  else if qos.isNone then ⟨RMW_RET_INVALID_ARGUMENT, out, []⟩
  else if client.bind (fun h => h.implementation_identifier) ≠ rmw_introspect_cpp_identifier then
    ⟨RMW_RET_INCORRECT_RMW_IMPLEMENTATION, out, []⟩
  else if is_intermediate_mode g then
    let real_client := unwrap_client client
    if real_client = 0 then ⟨RMW_RET_ERROR, out, []⟩
    else forward env "rmw_client_request_publisher_get_actual_qos" [real_client] out
  else ⟨RMW_RET_OK, ⟨none, none, [some Buffer.qos_default]⟩, []⟩

/-- Entry point `rmw_client_response_subscription_get_actual_qos` (rmw_client.cpp, lines
225-250). -/
def rmw_client_response_subscription_get_actual_qos (env : Env) (g : Globals)
    (client : Option rmw_client_t) (qos : Option Buffer) : CallOutcome :=
  let out : Out := ⟨none, none, [qos]⟩
  if client.isNone then ⟨RMW_RET_INVALID_ARGUMENT, out, []⟩
  else if qos.isNone then ⟨RMW_RET_INVALID_ARGUMENT, out, []⟩
  else if client.bind (fun h => h.implementation_identifier) ≠ rmw_introspect_cpp_identifier then
    ⟨RMW_RET_INCORRECT_RMW_IMPLEMENTATION, out, []⟩
  else if is_intermediate_mode g then
    let real_client := unwrap_client client
    if real_client = 0 then ⟨RMW_RET_ERROR, out, []⟩
    else forward env "rmw_client_response_subscription_get_actual_qos" [real_client] out
  else ⟨RMW_RET_OK, ⟨none, none, [some Buffer.qos_default]⟩, []⟩

/-- Entry point `rmw_count_publishers` (rmw_graph.cpp, lines 15-36). -/
def rmw_count_publishers (env : Env) (g : Globals) (node : Option rmw_node_t)
    (topic_name : Option String) (count : Option Nat) : CallOutcome :=
  let out : Out := ⟨none, count, []⟩
  if node.isNone then ⟨RMW_RET_INVALID_ARGUMENT, out, []⟩
  else if topic_name.isNone then ⟨RMW_RET_INVALID_ARGUMENT, out, []⟩
  else if count.isNone then ⟨RMW_RET_INVALID_ARGUMENT, out, []⟩
  else if is_intermediate_mode g then
    let real_node := unwrap_node node
    if real_node = 0 then ⟨RMW_RET_ERROR, out, []⟩
    else forward env "rmw_count_publishers" [real_node] out
  else ⟨RMW_RET_OK, ⟨none, some 0, []⟩, []⟩

/-- Entry point `rmw_count_subscribers` (rmw_graph.cpp, lines 38-59). -/
def rmw_count_subscribers (env : Env) (g : Globals) (node : Option rmw_node_t)
    (topic_name : Option String) (count : Option Nat) : CallOutcome :=
  let out : Out := ⟨none, count, []⟩
  if node.isNone then ⟨RMW_RET_INVALID_ARGUMENT, out, []⟩
  else if topic_name.isNone then ⟨RMW_RET_INVALID_ARGUMENT, out, []⟩
  else if count.isNone then ⟨RMW_RET_INVALID_ARGUMENT, out, []⟩
  else if is_intermediate_mode g then
    let real_node := unwrap_node node
    if real_node = 0 then ⟨RMW_RET_ERROR, out, []⟩
    else forward env "rmw_count_subscribers" [real_node] out
  else ⟨RMW_RET_OK, ⟨none, some 0, []⟩, []⟩

/-- Entry point `rmw_get_gid_for_publisher` (rmw_gid.cpp, lines 16-42). -/
def rmw_get_gid_for_publisher (env : Env) (g : Globals) (publisher : Option rmw_publisher_t)
    (gid : Option Buffer) : CallOutcome :=
  let out : Out := ⟨none, none, [gid]⟩
  if publisher.isNone then ⟨RMW_RET_INVALID_ARGUMENT, out, []⟩
  else if gid.isNone then ⟨RMW_RET_INVALID_ARGUMENT, out, []⟩
  else if publisher.bind (fun h => h.implementation_identifier)
      ≠ rmw_introspect_cpp_identifier then
    ⟨RMW_RET_INCORRECT_RMW_IMPLEMENTATION, out, []⟩
  else if is_intermediate_mode g then
    let real_publisher := unwrap_publisher publisher
    if real_publisher = 0 then ⟨RMW_RET_ERROR, out, []⟩
    else forward env "rmw_get_gid_for_publisher" [real_publisher] out
  else
    ⟨RMW_RET_OK, ⟨none, none, [some (Buffer.zero_gid rmw_introspect_cpp_identifier)]⟩, []⟩

/-- Entry point `rmw_get_gid_for_client` (rmw_gid.cpp, lines 46-70). -/
def rmw_get_gid_for_client (env : Env) (g : Globals) (client : Option rmw_client_t)
    (gid : Option Buffer) : CallOutcome :=
  let out : Out := ⟨none, none, [gid]⟩
  if client.isNone then ⟨RMW_RET_INVALID_ARGUMENT, out, []⟩
  else if gid.isNone then ⟨RMW_RET_INVALID_ARGUMENT, out, []⟩
  else if client.bind (fun h => h.implementation_identifier) ≠ rmw_introspect_cpp_identifier then
    ⟨RMW_RET_INCORRECT_RMW_IMPLEMENTATION, out, []⟩
  else if is_intermediate_mode g then
    let real_client := unwrap_client client
    if real_client = 0 then ⟨RMW_RET_ERROR, out, []⟩
    else forward env "rmw_get_gid_for_client" [real_client] out
  else
    ⟨RMW_RET_OK, ⟨none, none, [some (Buffer.zero_gid rmw_introspect_cpp_identifier)]⟩, []⟩

/-- Entry point `rmw_publisher_event_init` (rmw_event.cpp, lines 12-33). The event type is
passed by value. -/
def rmw_publisher_event_init (env : Env) (g : Globals) (rmw_event : Option Buffer)
    (publisher : Option rmw_publisher_t) : CallOutcome :=
  let out : Out := ⟨none, none, [rmw_event]⟩
  if rmw_event.isNone then ⟨RMW_RET_INVALID_ARGUMENT, out, []⟩
  else if publisher.isNone then ⟨RMW_RET_INVALID_ARGUMENT, out, []⟩
  else if is_intermediate_mode g then
    let real_publisher := unwrap_publisher publisher
    if real_publisher = 0 then ⟨RMW_RET_ERROR, out, []⟩
    else forward env "rmw_publisher_event_init" [real_publisher] out
  else ⟨RMW_RET_UNSUPPORTED, out, []⟩

/-- Entry point `rmw_subscription_event_init` (rmw_event.cpp, lines 35-56). The event type is
passed by value. -/
def rmw_subscription_event_init (env : Env) (g : Globals) (rmw_event : Option Buffer)
    (subscription : Option rmw_subscription_t) : CallOutcome :=
  let out : Out := ⟨none, none, [rmw_event]⟩
  if rmw_event.isNone then ⟨RMW_RET_INVALID_ARGUMENT, out, []⟩
  else if subscription.isNone then ⟨RMW_RET_INVALID_ARGUMENT, out, []⟩
  else if is_intermediate_mode g then
    let real_subscription := unwrap_subscription subscription
    if real_subscription = 0 then ⟨RMW_RET_ERROR, out, []⟩
    else forward env "rmw_subscription_event_init" [real_subscription] out
  else ⟨RMW_RET_UNSUPPORTED, out, []⟩

/-- Entry point `rmw_trigger_guard_condition` (rmw_wait.cpp, lines 350-369). -/
def rmw_trigger_guard_condition (env : Env) (g : Globals)
    (guard_condition : Option rmw_guard_condition_t) : CallOutcome :=
  let out : Out := ⟨none, none, []⟩
  if guard_condition.isNone then ⟨RMW_RET_INVALID_ARGUMENT, out, []⟩
  else if is_intermediate_mode g then
    let real_guard_condition := unwrap_guard_condition guard_condition
    if real_guard_condition = 0 then ⟨RMW_RET_ERROR, out, []⟩
    else forward env "rmw_trigger_guard_condition" [real_guard_condition] out
  else ⟨RMW_RET_OK, out, []⟩


/-- Entry point `rmw_service_server_is_available` (rmw_service.cpp, lines 198-222): both
handles are unwrapped before either result is tested. -/
def rmw_service_server_is_available (env : Env) (g : Globals) (node : Option rmw_node_t)
    (client : Option rmw_client_t) (is_available : Option Bool) : CallOutcome :=
  let out : Out := ⟨is_available, none, []⟩
  if node.isNone then ⟨RMW_RET_INVALID_ARGUMENT, out, []⟩
  else if client.isNone then ⟨RMW_RET_INVALID_ARGUMENT, out, []⟩
  else if is_available.isNone then ⟨RMW_RET_INVALID_ARGUMENT, out, []⟩
  else if is_intermediate_mode g then
    let real_node := unwrap_node node
    let real_client := unwrap_client client
    if real_node = 0 ∨ real_client = 0 then ⟨RMW_RET_ERROR, out, []⟩
    else forward env "rmw_service_server_is_available" [real_node, real_client] out
  else ⟨RMW_RET_OK, { out with flag := some false }, []⟩

/-- The outcomes of the `rcutils` / `rmw` initializers that the recording-only graph queries
call: whether the `k`-th `rcutils_string_array_init` of a call succeeds, and the code returned
by `rmw_names_and_types_init`. -/
structure Rcutils where
  string_array_init : Nat → Bool
  names_and_types_init : rmw_ret_t

/-- Entry point `rmw_get_node_names` (rmw_graph.cpp, lines 61-94). -/
def rmw_get_node_names (env : Env) (rc : Rcutils) (g : Globals) (node : Option rmw_node_t)
    (node_names node_namespaces : Option Buffer) : CallOutcome :=
  let out : Out := ⟨none, none, [node_names, node_namespaces]⟩
  if node.isNone then ⟨RMW_RET_INVALID_ARGUMENT, out, []⟩
  else if node_names.isNone then ⟨RMW_RET_INVALID_ARGUMENT, out, []⟩
  else if node_namespaces.isNone then ⟨RMW_RET_INVALID_ARGUMENT, out, []⟩
  else if is_intermediate_mode g then
    let real_node := unwrap_node node
    if real_node = 0 then ⟨RMW_RET_ERROR, out, []⟩
    else forward env "rmw_get_node_names" [real_node] out
  else if !rc.string_array_init 0 then ⟨RMW_RET_ERROR, out, []⟩
  else if !rc.string_array_init 1 then
    ⟨RMW_RET_ERROR, ⟨none, none, [some (Buffer.data []), node_namespaces]⟩, []⟩
  else ⟨RMW_RET_OK, ⟨none, none, [some Buffer.empty_array, some Buffer.empty_array]⟩, []⟩

/-- Entry point `rmw_get_node_names_with_enclaves` (rmw_graph.cpp, lines 96-138). -/
def rmw_get_node_names_with_enclaves (env : Env) (rc : Rcutils) (g : Globals)
    (node : Option rmw_node_t) (node_names node_namespaces enclaves : Option Buffer) :
    CallOutcome :=
  let out : Out := ⟨none, none, [node_names, node_namespaces, enclaves]⟩
  if node.isNone then ⟨RMW_RET_INVALID_ARGUMENT, out, []⟩
  else if node_names.isNone then ⟨RMW_RET_INVALID_ARGUMENT, out, []⟩
  else if node_namespaces.isNone then ⟨RMW_RET_INVALID_ARGUMENT, out, []⟩
  else if enclaves.isNone then ⟨RMW_RET_INVALID_ARGUMENT, out, []⟩
  else if is_intermediate_mode g then
    let real_node := unwrap_node node
    if real_node = 0 then ⟨RMW_RET_ERROR, out, []⟩
    else forward env "rmw_get_node_names_with_enclaves" [real_node] out
  else if !rc.string_array_init 0 then ⟨RMW_RET_ERROR, out, []⟩
  else if !rc.string_array_init 1 then
    ⟨RMW_RET_ERROR, ⟨none, none, [some (Buffer.data []), node_namespaces, enclaves]⟩, []⟩
  else if !rc.string_array_init 2 then
    ⟨RMW_RET_ERROR, ⟨none, none, [some (Buffer.data []), some (Buffer.data []), enclaves]⟩, []⟩
  else
    ⟨RMW_RET_OK,
      ⟨none, none, [some Buffer.empty_array, some Buffer.empty_array, some Buffer.empty_array]⟩,
      []⟩

/-- The recording-only tail `return rmw_names_and_types_init(result, 0, allocator)` of the
names-and-types queries. -/
def names_and_types_empty (rc : Rcutils) (result : Option Buffer) : CallOutcome :=
  if rc.names_and_types_init = RMW_RET_OK then
    ⟨rc.names_and_types_init, ⟨none, none, [some Buffer.empty_array]⟩, []⟩
  else ⟨rc.names_and_types_init, ⟨none, none, [result]⟩, []⟩

/-- Entry point `rmw_get_topic_names_and_types` (rmw_graph.cpp, lines 140-164). -/
def rmw_get_topic_names_and_types (env : Env) (rc : Rcutils) (g : Globals)
    (node : Option rmw_node_t) (allocator : Option Nat)
    (topic_names_and_types : Option Buffer) : CallOutcome :=
  let out : Out := ⟨none, none, [topic_names_and_types]⟩
  if node.isNone then ⟨RMW_RET_INVALID_ARGUMENT, out, []⟩
  else if allocator.isNone then ⟨RMW_RET_INVALID_ARGUMENT, out, []⟩
  else if topic_names_and_types.isNone then ⟨RMW_RET_INVALID_ARGUMENT, out, []⟩
  else if is_intermediate_mode g then
    let real_node := unwrap_node node
    if real_node = 0 then ⟨RMW_RET_ERROR, out, []⟩
    else forward env "rmw_get_topic_names_and_types" [real_node] out
  else names_and_types_empty rc topic_names_and_types

/-- Entry point `rmw_get_service_names_and_types` (rmw_graph.cpp, lines 166-189). -/
def rmw_get_service_names_and_types (env : Env) (rc : Rcutils) (g : Globals)
    (node : Option rmw_node_t) (allocator : Option Nat)
    (service_names_and_types : Option Buffer) : CallOutcome :=
  let out : Out := ⟨none, none, [service_names_and_types]⟩
  if node.isNone then ⟨RMW_RET_INVALID_ARGUMENT, out, []⟩
  else if allocator.isNone then ⟨RMW_RET_INVALID_ARGUMENT, out, []⟩
  else if service_names_and_types.isNone then ⟨RMW_RET_INVALID_ARGUMENT, out, []⟩
  else if is_intermediate_mode g then
    let real_node := unwrap_node node
    if real_node = 0 then ⟨RMW_RET_ERROR, out, []⟩
    else forward env "rmw_get_service_names_and_types" [real_node] out
  else names_and_types_empty rc service_names_and_types

/-- Entry point `rmw_get_publisher_names_and_types_by_node` (rmw_graph.cpp, lines 191-218). -/
def rmw_get_publisher_names_and_types_by_node (env : Env) (rc : Rcutils) (g : Globals)
    (node : Option rmw_node_t) (allocator : Option Nat)
    (node_name node_namespace : Option String) (topic_names_and_types : Option Buffer) :
    CallOutcome :=
  let out : Out := ⟨none, none, [topic_names_and_types]⟩
  if node.isNone then ⟨RMW_RET_INVALID_ARGUMENT, out, []⟩
  else if allocator.isNone then ⟨RMW_RET_INVALID_ARGUMENT, out, []⟩
  else if node_name.isNone then ⟨RMW_RET_INVALID_ARGUMENT, out, []⟩
  else if node_namespace.isNone then ⟨RMW_RET_INVALID_ARGUMENT, out, []⟩
  else if topic_names_and_types.isNone then ⟨RMW_RET_INVALID_ARGUMENT, out, []⟩
  else if is_intermediate_mode g then
    let real_node := unwrap_node node
    if real_node = 0 then ⟨RMW_RET_ERROR, out, []⟩
    else forward env "rmw_get_publisher_names_and_types_by_node" [real_node] out
  else names_and_types_empty rc topic_names_and_types

/-- Entry point `rmw_get_subscriber_names_and_types_by_node` (rmw_graph.cpp,
lines 220-247). -/
def rmw_get_subscriber_names_and_types_by_node (env : Env) (rc : Rcutils) (g : Globals)
    (node : Option rmw_node_t) (allocator : Option Nat)
    (node_name node_namespace : Option String) (topic_names_and_types : Option Buffer) :
    CallOutcome :=
  let out : Out := ⟨none, none, [topic_names_and_types]⟩
  if node.isNone then ⟨RMW_RET_INVALID_ARGUMENT, out, []⟩
  else if allocator.isNone then ⟨RMW_RET_INVALID_ARGUMENT, out, []⟩
  else if node_name.isNone then ⟨RMW_RET_INVALID_ARGUMENT, out, []⟩
  else if node_namespace.isNone then ⟨RMW_RET_INVALID_ARGUMENT, out, []⟩
  else if topic_names_and_types.isNone then ⟨RMW_RET_INVALID_ARGUMENT, out, []⟩
  else if is_intermediate_mode g then
    let real_node := unwrap_node node
    if real_node = 0 then ⟨RMW_RET_ERROR, out, []⟩
    else forward env "rmw_get_subscriber_names_and_types_by_node" [real_node] out
  else names_and_types_empty rc topic_names_and_types

/-- Entry point `rmw_get_service_names_and_types_by_node` (rmw_graph.cpp, lines 249-276). -/
def rmw_get_service_names_and_types_by_node (env : Env) (rc : Rcutils) (g : Globals)
    (node : Option rmw_node_t) (allocator : Option Nat)
    (node_name node_namespace : Option String) (service_names_and_types : Option Buffer) :
    CallOutcome :=
  let out : Out := ⟨none, none, [service_names_and_types]⟩
  if node.isNone then ⟨RMW_RET_INVALID_ARGUMENT, out, []⟩
  else if allocator.isNone then ⟨RMW_RET_INVALID_ARGUMENT, out, []⟩
  else if node_name.isNone then ⟨RMW_RET_INVALID_ARGUMENT, out, []⟩
  else if node_namespace.isNone then ⟨RMW_RET_INVALID_ARGUMENT, out, []⟩
  else if service_names_and_types.isNone then ⟨RMW_RET_INVALID_ARGUMENT, out, []⟩
  else if is_intermediate_mode g then
    let real_node := unwrap_node node
    if real_node = 0 then ⟨RMW_RET_ERROR, out, []⟩
    else forward env "rmw_get_service_names_and_types_by_node" [real_node] out
  else names_and_types_empty rc service_names_and_types

/-- Entry point `rmw_get_client_names_and_types_by_node` (rmw_graph.cpp, lines 278-305). -/
def rmw_get_client_names_and_types_by_node (env : Env) (rc : Rcutils) (g : Globals)
    (node : Option rmw_node_t) (allocator : Option Nat)
    (node_name node_namespace : Option String) (service_names_and_types : Option Buffer) :
    CallOutcome :=
  let out : Out := ⟨none, none, [service_names_and_types]⟩
  if node.isNone then ⟨RMW_RET_INVALID_ARGUMENT, out, []⟩
  else if allocator.isNone then ⟨RMW_RET_INVALID_ARGUMENT, out, []⟩
  else if node_name.isNone then ⟨RMW_RET_INVALID_ARGUMENT, out, []⟩
  else if node_namespace.isNone then ⟨RMW_RET_INVALID_ARGUMENT, out, []⟩
  else if service_names_and_types.isNone then ⟨RMW_RET_INVALID_ARGUMENT, out, []⟩
  else if is_intermediate_mode g then
    let real_node := unwrap_node node
    if real_node = 0 then ⟨RMW_RET_ERROR, out, []⟩
    else forward env "rmw_get_client_names_and_types_by_node" [real_node] out
  else names_and_types_empty rc service_names_and_types

/-- The part of `rmw_gid_t` that the interceptor inspects. -/
structure rmw_gid_t where
  implementation_identifier : Identifier
  data : List Nat
deriving DecidableEq

/-- Entry point `rmw_compare_gids_equal` (rmw_gid.cpp, lines 74-97): no wrapped handle is
involved; the identifiers are compared in recording-only mode only. -/
def rmw_compare_gids_equal (env : Env) (g : Globals) (gid1 gid2 : Option rmw_gid_t)
    (result : Option Bool) : CallOutcome :=
  let out : Out := ⟨result, none, []⟩
  match gid1, gid2 with
  | none, _ => ⟨RMW_RET_INVALID_ARGUMENT, out, []⟩
  | some _, none => ⟨RMW_RET_INVALID_ARGUMENT, out, []⟩
  | some a, some b =>
    if result.isNone then ⟨RMW_RET_INVALID_ARGUMENT, out, []⟩
    else if is_intermediate_mode g then forward env "rmw_compare_gids_equal" [] out
    else if a.implementation_identifier ≠ rmw_introspect_cpp_identifier then
      ⟨RMW_RET_INCORRECT_RMW_IMPLEMENTATION, out, []⟩
    else if b.implementation_identifier ≠ rmw_introspect_cpp_identifier then
      ⟨RMW_RET_INCORRECT_RMW_IMPLEMENTATION, out, []⟩
    else ⟨RMW_RET_OK, { out with flag := some true }, []⟩

/-- Entry point `rmw_take_event` (rmw_event.cpp, lines 58-74): events carry no wrapper. -/
def rmw_take_event (env : Env) (g : Globals) (event_handle event_info : Option Buffer)
    (taken : Option Bool) : CallOutcome :=
  let out : Out := ⟨taken, none, [event_info]⟩
  if event_handle.isNone then ⟨RMW_RET_INVALID_ARGUMENT, out, []⟩
  else if event_info.isNone then ⟨RMW_RET_INVALID_ARGUMENT, out, []⟩
  else if taken.isNone then ⟨RMW_RET_INVALID_ARGUMENT, out, []⟩
  else if is_intermediate_mode g then forward env "rmw_take_event" [] out
  else ⟨RMW_RET_OK, { out with flag := some false }, []⟩

/-- Entry point `rmw_event_fini` (rmw_event.cpp, lines 76-88). -/
def rmw_event_fini (env : Env) (g : Globals) (event : Option Buffer) : CallOutcome :=
  let out : Out := ⟨none, none, [event]⟩
  if event.isNone then ⟨RMW_RET_INVALID_ARGUMENT, out, []⟩
  else if is_intermediate_mode g then forward env "rmw_event_fini" [] out
  else ⟨RMW_RET_OK, out, []⟩

/-- Entry point `rmw_event_set_callback` (rmw_event.cpp, lines 90-100): a no-op in both
modes. -/
def rmw_event_set_callback (event : Option Buffer) (_callback _user_data : Nat) :
    CallOutcome :=
  ⟨RMW_RET_OK, ⟨none, none, [event]⟩, []⟩

/-- Entry point `rmw_serialize` (rmw_serialize.cpp, lines 8-24). -/
def rmw_serialize (env : Env) (g : Globals) (ros_message : Option Buffer)
    (type_support : Option Nat) (serialized_message : Option Buffer) : CallOutcome :=
  let out : Out := ⟨none, none, [serialized_message]⟩
  if ros_message.isNone then ⟨RMW_RET_INVALID_ARGUMENT, out, []⟩
  else if type_support.isNone then ⟨RMW_RET_INVALID_ARGUMENT, out, []⟩
  else if serialized_message.isNone then ⟨RMW_RET_INVALID_ARGUMENT, out, []⟩
  else if is_intermediate_mode g then forward env "rmw_serialize" [] out
  else ⟨RMW_RET_OK, out, []⟩

/-- Entry point `rmw_deserialize` (rmw_serialize.cpp, lines 26-43). -/
def rmw_deserialize (env : Env) (g : Globals) (serialized_message : Option Buffer)
    (type_support : Option Nat) (ros_message : Option Buffer) : CallOutcome :=
  let out : Out := ⟨none, none, [ros_message]⟩
  if serialized_message.isNone then ⟨RMW_RET_INVALID_ARGUMENT, out, []⟩
  else if type_support.isNone then ⟨RMW_RET_INVALID_ARGUMENT, out, []⟩
  else if ros_message.isNone then ⟨RMW_RET_INVALID_ARGUMENT, out, []⟩
  else if is_intermediate_mode g then forward env "rmw_deserialize" [] out
  else ⟨RMW_RET_OK, out, []⟩

/-- Entry point `rmw_get_serialized_message_size` (rmw_serialize.cpp, lines 45-63). -/
def rmw_get_serialized_message_size (env : Env) (g : Globals) (ros_message : Option Buffer)
    (type_support : Option Nat) (size : Option Nat) : CallOutcome :=
  let out : Out := ⟨none, size, []⟩
  if ros_message.isNone then ⟨RMW_RET_INVALID_ARGUMENT, out, []⟩
  else if type_support.isNone then ⟨RMW_RET_INVALID_ARGUMENT, out, []⟩
  else if size.isNone then ⟨RMW_RET_INVALID_ARGUMENT, out, []⟩
  else if is_intermediate_mode g then forward env "rmw_get_serialized_message_size" [] out
  else ⟨RMW_RET_OK, ⟨none, some 0, []⟩, []⟩

/-- Entry point `rmw_borrow_loaned_message` (rmw_publisher.cpp, lines 197-206). -/
def rmw_borrow_loaned_message (_publisher : Option rmw_publisher_t)
    (_type_support : Option Nat)
    (ros_message : Option Buffer) : CallOutcome :=
  ⟨RMW_RET_UNSUPPORTED, ⟨none, none, [ros_message]⟩, []⟩

/-- Entry point `rmw_return_loaned_message_from_publisher` (rmw_publisher.cpp,
lines 209-216). -/
def rmw_return_loaned_message_from_publisher (_publisher : Option rmw_publisher_t)
    (loaned_message : Option Buffer) : CallOutcome :=
  ⟨RMW_RET_UNSUPPORTED, ⟨none, none, [loaned_message]⟩, []⟩

/-- Entry point `rmw_take_loaned_message` (rmw_subscription.cpp, lines 264-273). -/
def rmw_take_loaned_message (_subscription : Option rmw_subscription_t)
    (loaned_message : Option Buffer) (taken : Option Bool) : CallOutcome :=
  ⟨RMW_RET_UNSUPPORTED, ⟨taken, none, [loaned_message]⟩, []⟩

/-- Entry point `rmw_take_loaned_message_with_info` (rmw_subscription.cpp, lines 276-288). -/
def rmw_take_loaned_message_with_info (_subscription : Option rmw_subscription_t)
    (loaned_message : Option Buffer) (taken : Option Bool) (message_info : Option Buffer) :
    CallOutcome :=
  ⟨RMW_RET_UNSUPPORTED, ⟨taken, none, [loaned_message, message_info]⟩, []⟩

/-- Entry point `rmw_return_loaned_message_from_subscription` (rmw_subscription.cpp,
lines 291-297). -/
def rmw_return_loaned_message_from_subscription
    (_subscription : Option rmw_subscription_t)
    (loaned_message : Option Buffer) : CallOutcome :=
  ⟨RMW_RET_UNSUPPORTED, ⟨none, none, [loaned_message]⟩, []⟩

/-- Entry point `rmw_subscription_set_content_filter` (rmw_subscription.cpp,
lines 350-357). -/
def rmw_subscription_set_content_filter (_subscription : Option rmw_subscription_t)
    (_options : Option Buffer) : CallOutcome :=
  ⟨RMW_RET_UNSUPPORTED, ⟨none, none, []⟩, []⟩

/-- Entry point `rmw_subscription_get_content_filter` (rmw_subscription.cpp,
lines 360-368). -/
def rmw_subscription_get_content_filter (_subscription : Option rmw_subscription_t)
    (_allocator : Option Nat) (options : Option Buffer) : CallOutcome :=
  ⟨RMW_RET_UNSUPPORTED, ⟨none, none, [options]⟩, []⟩


/-! ## Creating and destroying handles -/

/-- The outcome of the `new (std::nothrow)` allocations of one create verb: whether the
wrapper, the caller-visible handle and (recording-only nodes) the `rmw_node_impl_t` could be
allocated, and the addresses returned for the two character buffers (`0` on failure). -/
structure Alloc where
  wrapper : Bool
  handle : Bool
  impl : Bool
  name_address : Nat
  namespace_address : Nat

/-- How an entry point ends: it returns, or it dereferences a null pointer (undefined
behaviour, no return value). -/
inductive Run (α : Type) where
  | returns (a : α)
  | crashes

/-- The result of a create verb: the returned pointer (`none` for `nullptr`, else the new
handle object) and the calls made. -/
structure Created (α : Type) where
  handle : Option α
  trace : List Event

/-- The type-support collaborator (`rmw_introspect/type_support.hpp`, outside the modelled
sources): the type name extracted from a type-support pointer. -/
structure TypeSupportLib where
  extract_message_type : Nat → String
  extract_service_type : Nat → String

/-- The call `g_real_rmw->destroy_x(natives...)` made to undo a backend create. -/
def undo_create (symbol : String) (natives : List Nat) : Event :=
  Event.real_call symbol natives

/-- Entry point `rmw_create_node` (rmw_node.cpp, lines 24-123). In delegating mode the
context payload is cast and dereferenced without a null test (lines 41-43). -/
def rmw_create_node (env : Env) (alloc : Alloc) (g : Globals) (context : Option rmw_context_t)
    (name namespace_ : Option String) : Run (Created rmw_node_t) :=
  match context, name, namespace_ with
  | none, _, _ => Run.returns ⟨none, []⟩
  | some _, none, _ => Run.returns ⟨none, []⟩
  | some _, some _, none => Run.returns ⟨none, []⟩
  | some ctx, some nm, some ns =>
    if ctx.implementation_identifier ≠ rmw_introspect_cpp_identifier then
      Run.returns ⟨none, []⟩
    else
      let rec_ev := Event.record_node nm ns
      if is_intermediate_mode g then
        match ctx.impl with
        | none => Run.crashes
        | some ctx_wrapper =>
          let real_context := ctx_wrapper.real_context
          let real_node :=
            env.backend.create_in_context "rmw_create_node" real_context [nm, ns]
          let create_ev :=
            Event.real_create_in_context "rmw_create_node" real_context [nm, ns]
          if real_node.ptr = 0 then Run.returns ⟨none, [rec_ev, create_ev]⟩
          else if !alloc.wrapper then
            Run.returns
              ⟨none, [rec_ev, create_ev, undo_create "rmw_destroy_node" [real_node.ptr]]⟩
          else if !alloc.handle then
            Run.returns ⟨none, [rec_ev, create_ev,
              undo_create "rmw_destroy_node" [real_node.ptr], Event.delete_wrapper]⟩
          else
            Run.returns
              ⟨some { implementation_identifier := rmw_introspect_cpp_identifier
                      data := some (NodePayload.wrapper ⟨real_node.ptr, nm, ns⟩)
                      name := real_node.name
                      namespace_ := real_node.namespace_ },
                [rec_ev, create_ev]⟩
      else if !alloc.handle then Run.returns ⟨none, [rec_ev]⟩
      else if !alloc.impl then Run.returns ⟨none, [rec_ev, Event.delete_handle]⟩
      else if alloc.name_address = 0 ∨ alloc.namespace_address = 0 then
        Run.returns ⟨none, [rec_ev, Event.delete_impl, Event.delete_handle]⟩
      else
        Run.returns
          ⟨some { implementation_identifier := rmw_introspect_cpp_identifier
                  data := some (NodePayload.impl alloc.name_address alloc.namespace_address)
                  name := nm
                  namespace_ := ns },
            [rec_ev]⟩

/-- Entry point `rmw_destroy_node` (rmw_node.cpp, lines 127-159). -/
def rmw_destroy_node (env : Env) (g : Globals) (node : Option rmw_node_t) : CallOutcome :=
  let out : Out := ⟨none, none, []⟩
  match node with
  | none => ⟨RMW_RET_INVALID_ARGUMENT, out, []⟩
  | some n =>
    if n.implementation_identifier ≠ rmw_introspect_cpp_identifier then
      ⟨RMW_RET_INCORRECT_RMW_IMPLEMENTATION, out, []⟩
    else if is_intermediate_mode g then
      match n.data with
      | some _ =>
        let real_node := unwrap_node (some n)
        if real_node ≠ 0 then
          let ret := (env.backend.call "rmw_destroy_node" [real_node] out).1
          if ret ≠ RMW_RET_OK then ⟨ret, out, [Event.real_call "rmw_destroy_node" [real_node]]⟩
          else
            ⟨RMW_RET_OK, out, [Event.real_call "rmw_destroy_node" [real_node],
              Event.delete_wrapper, Event.delete_handle]⟩
        else ⟨RMW_RET_OK, out, [Event.delete_wrapper, Event.delete_handle]⟩
      | none => ⟨RMW_RET_OK, out, [Event.delete_handle]⟩
    else
      match n.data with
      | some _ => ⟨RMW_RET_OK, out, [Event.delete_impl, Event.delete_handle]⟩
      | none => ⟨RMW_RET_OK, out, [Event.delete_handle]⟩

/-- The pointer returned by `rmw_node_get_graph_guard_condition`: null, the address of the
static recording-only stub (interceptor's identifier, null payload), or the pointer that the
backend returned. -/
inductive GraphGuardCondition where
  | null
  | stub
  | native (p : Nat)
deriving DecidableEq

/-- Entry point `rmw_node_get_graph_guard_condition` (rmw_node.cpp, lines 163-187). -/
def rmw_node_get_graph_guard_condition (env : Env) (g : Globals) (node : Option rmw_node_t) :
    GraphGuardCondition × List Event :=
  match node with
  | none => (GraphGuardCondition.null, [])
  | some n =>
    if n.implementation_identifier ≠ rmw_introspect_cpp_identifier then
      (GraphGuardCondition.null, [])
    else if is_intermediate_mode g then
      let real_node := unwrap_node (some n)
      if real_node = 0 then (GraphGuardCondition.null, [])
      else
        (GraphGuardCondition.native (env.backend.node_get_graph_guard_condition real_node),
          [Event.real_call "rmw_node_get_graph_guard_condition" [real_node]])
    else (GraphGuardCondition.stub, [])

/-- Entry point `rmw_create_publisher` (rmw_publisher.cpp, lines 20-108). The options pointer
is dereferenced without a null test (lines 88 and 104). -/
def rmw_create_publisher (env : Env) (ts : TypeSupportLib) (alloc : Alloc) (g : Globals)
    (node : Option rmw_node_t) (type_support : Option Nat) (topic_name : Option String)
    (qos_profile publisher_options : Option Nat) : Run (Created rmw_publisher_t) :=
  match node, type_support, topic_name, qos_profile with
  | none, _, _, _ => Run.returns ⟨none, []⟩
  | some _, none, _, _ => Run.returns ⟨none, []⟩
  | some _, some _, none, _ => Run.returns ⟨none, []⟩
  | some _, some _, some _, none => Run.returns ⟨none, []⟩
  | some n, some tsp, some topic, some _ =>
    if n.implementation_identifier ≠ rmw_introspect_cpp_identifier then
      Run.returns ⟨none, []⟩
    else
      let message_type := ts.extract_message_type tsp
      let rec_ev := Event.record_endpoint "publisher" n.name n.namespace_ topic message_type
      if is_intermediate_mode g then
        let real_node := unwrap_node (some n)
        if real_node = 0 then Run.returns ⟨none, [rec_ev]⟩
        else
          let real_publisher := env.backend.create "rmw_create_publisher" [real_node] [topic]
          let create_ev := Event.real_create "rmw_create_publisher" [real_node] [topic]
          if real_publisher.ptr = 0 then Run.returns ⟨none, [rec_ev, create_ev]⟩
          else if !alloc.wrapper then
            Run.returns ⟨none, [rec_ev, create_ev,
              undo_create "rmw_destroy_publisher" [real_node, real_publisher.ptr]]⟩
          else if !alloc.handle then
            Run.returns ⟨none, [rec_ev, create_ev,
              undo_create "rmw_destroy_publisher" [real_node, real_publisher.ptr],
              Event.delete_wrapper]⟩
          else
            match publisher_options with
            | none => Run.crashes
            | some _ =>
              Run.returns
                ⟨some { implementation_identifier := rmw_introspect_cpp_identifier
                        data := some ⟨real_publisher.ptr, topic, message_type⟩
                        topic_name := real_publisher.name
                        can_loan_messages := real_publisher.can_loan_messages },
                  [rec_ev, create_ev]⟩
      else if !alloc.handle then Run.returns ⟨none, [rec_ev]⟩
      else
        match publisher_options with
        | none => Run.crashes
        | some _ =>
          Run.returns
            ⟨some { implementation_identifier := rmw_introspect_cpp_identifier
                    data := none
                    topic_name := topic
                    can_loan_messages := false },
              [rec_ev]⟩

/-- Entry point `rmw_destroy_publisher` (rmw_publisher.cpp, lines 112-145). -/
def rmw_destroy_publisher (env : Env) (g : Globals) (node : Option rmw_node_t)
    (publisher : Option rmw_publisher_t) : CallOutcome :=
  let out : Out := ⟨none, none, []⟩
  match publisher with
  | none => ⟨RMW_RET_INVALID_ARGUMENT, out, []⟩
  | some pub =>
    if pub.implementation_identifier ≠ rmw_introspect_cpp_identifier then
      ⟨RMW_RET_INCORRECT_RMW_IMPLEMENTATION, out, []⟩
    else if is_intermediate_mode g then
      match pub.data with
      | some wrapper =>
        if wrapper.real_publisher ≠ 0 then
          let real_node := unwrap_node node
          if real_node = 0 then ⟨RMW_RET_ERROR, out, []⟩
          else
            let natives := [real_node, wrapper.real_publisher]
            let ret := (env.backend.call "rmw_destroy_publisher" natives out).1
            if ret ≠ RMW_RET_OK then
              ⟨ret, out, [Event.real_call "rmw_destroy_publisher" natives]⟩
            else
              ⟨RMW_RET_OK, out, [Event.real_call "rmw_destroy_publisher" natives,
                Event.delete_wrapper, Event.delete_handle]⟩
        else ⟨RMW_RET_OK, out, [Event.delete_wrapper, Event.delete_handle]⟩
      | none => ⟨RMW_RET_OK, out, [Event.delete_handle]⟩
    else ⟨RMW_RET_OK, out, [Event.delete_handle]⟩

/-- Entry point `rmw_create_subscription` (rmw_subscription.cpp, lines 20-110). The options
pointer is dereferenced without a null test (lines 88 and 105). The topic name, options and
loan flags stored in the handle are not part of the modelled `rmw_subscription_t`. -/
def rmw_create_subscription (env : Env) (ts : TypeSupportLib) (alloc : Alloc) (g : Globals)
    (node : Option rmw_node_t) (type_support : Option Nat) (topic_name : Option String)
    (qos_profile subscription_options : Option Nat) : Run (Created rmw_subscription_t) :=
  match node, type_support, topic_name, qos_profile with
  | none, _, _, _ => Run.returns ⟨none, []⟩
  | some _, none, _, _ => Run.returns ⟨none, []⟩
  | some _, some _, none, _ => Run.returns ⟨none, []⟩
  | some _, some _, some _, none => Run.returns ⟨none, []⟩
  | some n, some tsp, some topic, some _ =>
    if n.implementation_identifier ≠ rmw_introspect_cpp_identifier then
      Run.returns ⟨none, []⟩
    else
      let message_type := ts.extract_message_type tsp
      let rec_ev := Event.record_endpoint "subscription" n.name n.namespace_ topic message_type
      if is_intermediate_mode g then
        let real_node := unwrap_node (some n)
        if real_node = 0 then Run.returns ⟨none, [rec_ev]⟩
        else
          let real_subscription :=
            env.backend.create "rmw_create_subscription" [real_node] [topic]
          let create_ev := Event.real_create "rmw_create_subscription" [real_node] [topic]
          if real_subscription.ptr = 0 then Run.returns ⟨none, [rec_ev, create_ev]⟩
          else if !alloc.wrapper then
            Run.returns ⟨none, [rec_ev, create_ev,
              undo_create "rmw_destroy_subscription" [real_node, real_subscription.ptr]]⟩
          else if !alloc.handle then
            Run.returns ⟨none, [rec_ev, create_ev,
              undo_create "rmw_destroy_subscription" [real_node, real_subscription.ptr],
              Event.delete_wrapper]⟩
          else
            match subscription_options with
            | none => Run.crashes
            | some _ =>
              Run.returns
                ⟨some { implementation_identifier := rmw_introspect_cpp_identifier
                        data := some ⟨real_subscription.ptr, topic, message_type⟩ },
                  [rec_ev, create_ev]⟩
      else if !alloc.handle then Run.returns ⟨none, [rec_ev]⟩
      else
        match subscription_options with
        | none => Run.crashes
        | some _ =>
          Run.returns
            ⟨some { implementation_identifier := rmw_introspect_cpp_identifier, data := none },
              [rec_ev]⟩

/-- Entry point `rmw_destroy_subscription` (rmw_subscription.cpp, lines 114-148). -/
def rmw_destroy_subscription (env : Env) (g : Globals) (node : Option rmw_node_t)
    (subscription : Option rmw_subscription_t) : CallOutcome :=
  let out : Out := ⟨none, none, []⟩
  match subscription with
  | none => ⟨RMW_RET_INVALID_ARGUMENT, out, []⟩
  | some sub =>
    if sub.implementation_identifier ≠ rmw_introspect_cpp_identifier then
      ⟨RMW_RET_INCORRECT_RMW_IMPLEMENTATION, out, []⟩
    else if is_intermediate_mode g then
      match sub.data with
      | some wrapper =>
        if wrapper.real_subscription ≠ 0 then
          let real_node := unwrap_node node
          if real_node = 0 then ⟨RMW_RET_ERROR, out, []⟩
          else
            let natives := [real_node, wrapper.real_subscription]
            let ret := (env.backend.call "rmw_destroy_subscription" natives out).1
            if ret ≠ RMW_RET_OK then
              ⟨ret, out, [Event.real_call "rmw_destroy_subscription" natives]⟩
            else
              ⟨RMW_RET_OK, out, [Event.real_call "rmw_destroy_subscription" natives,
                Event.delete_wrapper, Event.delete_handle]⟩
        else ⟨RMW_RET_OK, out, [Event.delete_wrapper, Event.delete_handle]⟩
      | none => ⟨RMW_RET_OK, out, [Event.delete_handle]⟩
    else ⟨RMW_RET_OK, out, [Event.delete_handle]⟩


/-- Entry point `rmw_create_service` (rmw_service.cpp, lines 21-104). The service name stored in the
handle is not part of the modelled `rmw_service_t`. -/
def rmw_create_service (env : Env) (ts : TypeSupportLib) (alloc : Alloc) (g : Globals)
    (node : Option rmw_node_t) (type_support : Option Nat) (service_name : Option String)
    (qos_profile : Option Nat) : Run (Created rmw_service_t) :=
  match node, type_support, service_name, qos_profile with
  | none, _, _, _ => Run.returns ⟨none, []⟩
  | some _, none, _, _ => Run.returns ⟨none, []⟩
  | some _, some _, none, _ => Run.returns ⟨none, []⟩
  | some _, some _, some _, none => Run.returns ⟨none, []⟩
  | some n, some tsp, some sname, some _ =>
    if n.implementation_identifier ≠ rmw_introspect_cpp_identifier then
      Run.returns ⟨none, []⟩
    else
      let service_type := ts.extract_service_type tsp
      let rec_ev := Event.record_endpoint "service" n.name n.namespace_ sname service_type
      if is_intermediate_mode g then
        let real_node := unwrap_node (some n)
        if real_node = 0 then Run.returns ⟨none, [rec_ev]⟩
        else
          let real_service := env.backend.create "rmw_create_service" [real_node] [sname]
          let create_ev := Event.real_create "rmw_create_service" [real_node] [sname]
          if real_service.ptr = 0 then Run.returns ⟨none, [rec_ev, create_ev]⟩
          else if !alloc.wrapper then
            Run.returns ⟨none, [rec_ev, create_ev,
              undo_create "rmw_destroy_service" [real_node, real_service.ptr]]⟩
          else if !alloc.handle then
            Run.returns ⟨none, [rec_ev, create_ev,
              undo_create "rmw_destroy_service" [real_node, real_service.ptr],
              Event.delete_wrapper]⟩
          else
            Run.returns
              ⟨some { implementation_identifier := rmw_introspect_cpp_identifier
                      data := some ⟨real_service.ptr, sname, service_type⟩ },
                [rec_ev, create_ev]⟩
      else if !alloc.handle then Run.returns ⟨none, [rec_ev]⟩
      else
        Run.returns
          ⟨some { implementation_identifier := rmw_introspect_cpp_identifier, data := none },
            [rec_ev]⟩

/-- Entry point `rmw_destroy_service` (rmw_service.cpp, lines 108-140). -/
def rmw_destroy_service (env : Env) (g : Globals) (node : Option rmw_node_t)
    (service : Option rmw_service_t) : CallOutcome :=
  let out : Out := ⟨none, none, []⟩
  match service with
  | none => ⟨RMW_RET_INVALID_ARGUMENT, out, []⟩
  | some h =>
    if h.implementation_identifier ≠ rmw_introspect_cpp_identifier then
      ⟨RMW_RET_INCORRECT_RMW_IMPLEMENTATION, out, []⟩
    else if is_intermediate_mode g then
      match h.data with
      | some wrapper =>
        if wrapper.real_service ≠ 0 then
          let real_node := unwrap_node node
          if real_node = 0 then ⟨RMW_RET_ERROR, out, []⟩
          else
            let natives := [real_node, wrapper.real_service]
            let ret := (env.backend.call "rmw_destroy_service" natives out).1
            if ret ≠ RMW_RET_OK then
              ⟨ret, out, [Event.real_call "rmw_destroy_service" natives]⟩
            else
              ⟨RMW_RET_OK, out, [Event.real_call "rmw_destroy_service" natives,
                Event.delete_wrapper, Event.delete_handle]⟩
        else ⟨RMW_RET_OK, out, [Event.delete_wrapper, Event.delete_handle]⟩
      | none => ⟨RMW_RET_OK, out, [Event.delete_handle]⟩
    else ⟨RMW_RET_OK, out, [Event.delete_handle]⟩

/-- Entry point `rmw_create_client` (rmw_client.cpp, lines 21-104). The service name stored in the
handle is not part of the modelled `rmw_client_t`. -/
def rmw_create_client (env : Env) (ts : TypeSupportLib) (alloc : Alloc) (g : Globals)
    (node : Option rmw_node_t) (type_support : Option Nat) (service_name : Option String)
    (qos_profile : Option Nat) : Run (Created rmw_client_t) :=
  match node, type_support, service_name, qos_profile with
  | none, _, _, _ => Run.returns ⟨none, []⟩
  | some _, none, _, _ => Run.returns ⟨none, []⟩
  | some _, some _, none, _ => Run.returns ⟨none, []⟩
  | some _, some _, some _, none => Run.returns ⟨none, []⟩
  | some n, some tsp, some sname, some _ =>
    if n.implementation_identifier ≠ rmw_introspect_cpp_identifier then
      Run.returns ⟨none, []⟩
    else
      let service_type := ts.extract_service_type tsp
      let rec_ev := Event.record_endpoint "client" n.name n.namespace_ sname service_type
      if is_intermediate_mode g then
        let real_node := unwrap_node (some n)
        if real_node = 0 then Run.returns ⟨none, [rec_ev]⟩
        else
          let real_client := env.backend.create "rmw_create_client" [real_node] [sname]
          let create_ev := Event.real_create "rmw_create_client" [real_node] [sname]
          if real_client.ptr = 0 then Run.returns ⟨none, [rec_ev, create_ev]⟩
          else if !alloc.wrapper then
            Run.returns ⟨none, [rec_ev, create_ev,
              undo_create "rmw_destroy_client" [real_node, real_client.ptr]]⟩
          else if !alloc.handle then
            Run.returns ⟨none, [rec_ev, create_ev,
              undo_create "rmw_destroy_client" [real_node, real_client.ptr],
              Event.delete_wrapper]⟩
          else
            Run.returns
              ⟨some { implementation_identifier := rmw_introspect_cpp_identifier
                      data := some ⟨real_client.ptr, sname, service_type⟩ },
                [rec_ev, create_ev]⟩
      else if !alloc.handle then Run.returns ⟨none, [rec_ev]⟩
      else
        Run.returns
          ⟨some { implementation_identifier := rmw_introspect_cpp_identifier, data := none },
            [rec_ev]⟩

/-- Entry point `rmw_destroy_client` (rmw_client.cpp, lines 108-139). -/
def rmw_destroy_client (env : Env) (g : Globals) (node : Option rmw_node_t)
    (client : Option rmw_client_t) : CallOutcome :=
  let out : Out := ⟨none, none, []⟩
  match client with
  | none => ⟨RMW_RET_INVALID_ARGUMENT, out, []⟩
  | some h =>
    if h.implementation_identifier ≠ rmw_introspect_cpp_identifier then
      ⟨RMW_RET_INCORRECT_RMW_IMPLEMENTATION, out, []⟩
    else if is_intermediate_mode g then
      match h.data with
      | some wrapper =>
        if wrapper.real_client ≠ 0 then
          let real_node := unwrap_node node
          if real_node = 0 then ⟨RMW_RET_ERROR, out, []⟩
          else
            let natives := [real_node, wrapper.real_client]
            let ret := (env.backend.call "rmw_destroy_client" natives out).1
            if ret ≠ RMW_RET_OK then
              ⟨ret, out, [Event.real_call "rmw_destroy_client" natives]⟩
            else
              ⟨RMW_RET_OK, out, [Event.real_call "rmw_destroy_client" natives,
                Event.delete_wrapper, Event.delete_handle]⟩
        else ⟨RMW_RET_OK, out, [Event.delete_wrapper, Event.delete_handle]⟩
      | none => ⟨RMW_RET_OK, out, [Event.delete_handle]⟩
    else ⟨RMW_RET_OK, out, [Event.delete_handle]⟩

/-- Entry point `rmw_create_wait_set` (rmw_wait.cpp, lines 18-79). The bound `max_conditions` is
passed by value. -/
def rmw_create_wait_set (env : Env) (alloc : Alloc) (g : Globals)
    (context : Option rmw_context_t) (_max_conditions : Nat) : Created rmw_wait_set_t :=
  match context with
  | none => ⟨none, []⟩
  | some ctx =>
    if ctx.implementation_identifier ≠ rmw_introspect_cpp_identifier then ⟨none, []⟩
    else if is_intermediate_mode g then
      match unwrap_context (some ctx) with
      | none => ⟨none, []⟩
      | some real_context =>
        let real_wait_set :=
          env.backend.create_in_context "rmw_create_wait_set" (some real_context) []
        let create_ev :=
          Event.real_create_in_context "rmw_create_wait_set" (some real_context) []
        if real_wait_set.ptr = 0 then ⟨none, [create_ev]⟩
        else if !alloc.wrapper then
          ⟨none, [create_ev, undo_create "rmw_destroy_wait_set" [real_wait_set.ptr]]⟩
        else if !alloc.handle then
          ⟨none, [create_ev, undo_create "rmw_destroy_wait_set" [real_wait_set.ptr],
            Event.delete_wrapper]⟩
        else
          ⟨some { implementation_identifier := rmw_introspect_cpp_identifier
                  data := some ⟨real_wait_set.ptr⟩ }, [create_ev]⟩
    else if !alloc.handle then ⟨none, []⟩
    else ⟨some { implementation_identifier := rmw_introspect_cpp_identifier, data := none }, []⟩

/-- Entry point `rmw_destroy_wait_set` (rmw_wait.cpp, lines 83-110). -/
def rmw_destroy_wait_set (env : Env) (g : Globals) (wait_set : Option rmw_wait_set_t) : CallOutcome :=
  let out : Out := ⟨none, none, []⟩
  match wait_set with
  | none => ⟨RMW_RET_INVALID_ARGUMENT, out, []⟩
  | some h =>
    if h.implementation_identifier ≠ rmw_introspect_cpp_identifier then
      ⟨RMW_RET_INCORRECT_RMW_IMPLEMENTATION, out, []⟩
    else if is_intermediate_mode g then
      match h.data with
      | some wrapper =>
        if wrapper.real_wait_set ≠ 0 then
          let natives := [wrapper.real_wait_set]
          let ret := (env.backend.call "rmw_destroy_wait_set" natives out).1
          if ret ≠ RMW_RET_OK then
            ⟨ret, out, [Event.real_call "rmw_destroy_wait_set" natives]⟩
          else
            ⟨RMW_RET_OK, out, [Event.real_call "rmw_destroy_wait_set" natives,
              Event.delete_wrapper, Event.delete_handle]⟩
        else ⟨RMW_RET_OK, out, [Event.delete_wrapper, Event.delete_handle]⟩
      | none => ⟨RMW_RET_OK, out, [Event.delete_handle]⟩
    else ⟨RMW_RET_OK, out, [Event.delete_handle]⟩

/-- Entry point `rmw_create_guard_condition` (rmw_wait.cpp, lines 250-314). -/
def rmw_create_guard_condition (env : Env) (alloc : Alloc) (g : Globals)
    (context : Option rmw_context_t) : Created rmw_guard_condition_t :=
  match context with
  | none => ⟨none, []⟩
  | some ctx =>
    if ctx.implementation_identifier ≠ rmw_introspect_cpp_identifier then ⟨none, []⟩
    else if is_intermediate_mode g then
      match unwrap_context (some ctx) with
      | none => ⟨none, []⟩
      | some real_context =>
        let real_guard_condition :=
          env.backend.create_in_context "rmw_create_guard_condition" (some real_context) []
        let create_ev :=
          Event.real_create_in_context "rmw_create_guard_condition" (some real_context) []
        if real_guard_condition.ptr = 0 then ⟨none, [create_ev]⟩
        else if !alloc.wrapper then
          ⟨none, [create_ev, undo_create "rmw_destroy_guard_condition" [real_guard_condition.ptr]]⟩
        else if !alloc.handle then
          ⟨none, [create_ev, undo_create "rmw_destroy_guard_condition" [real_guard_condition.ptr],
            Event.delete_wrapper]⟩
        else
          ⟨some { implementation_identifier := rmw_introspect_cpp_identifier
                  data := some ⟨real_guard_condition.ptr⟩ }, [create_ev]⟩
    else if !alloc.handle then ⟨none, []⟩
    else ⟨some { implementation_identifier := rmw_introspect_cpp_identifier, data := none }, []⟩

/-- Entry point `rmw_destroy_guard_condition` (rmw_wait.cpp, lines 318-346). -/
def rmw_destroy_guard_condition (env : Env) (g : Globals) (guard_condition : Option rmw_guard_condition_t) : CallOutcome :=
  let out : Out := ⟨none, none, []⟩
  match guard_condition with
  | none => ⟨RMW_RET_INVALID_ARGUMENT, out, []⟩
  | some h =>
    if h.implementation_identifier ≠ rmw_introspect_cpp_identifier then
      ⟨RMW_RET_INCORRECT_RMW_IMPLEMENTATION, out, []⟩
    else if is_intermediate_mode g then
      match h.data with
      | some wrapper =>
        if wrapper.real_guard_condition ≠ 0 then
          let natives := [wrapper.real_guard_condition]
          let ret := (env.backend.call "rmw_destroy_guard_condition" natives out).1
          if ret ≠ RMW_RET_OK then
            ⟨ret, out, [Event.real_call "rmw_destroy_guard_condition" natives]⟩
          else
            ⟨RMW_RET_OK, out, [Event.real_call "rmw_destroy_guard_condition" natives,
              Event.delete_wrapper, Event.delete_handle]⟩
        else ⟨RMW_RET_OK, out, [Event.delete_wrapper, Event.delete_handle]⟩
      | none => ⟨RMW_RET_OK, out, [Event.delete_handle]⟩
    else ⟨RMW_RET_OK, out, [Event.delete_handle]⟩

/-! ## Call sequences on several contexts -/

/-- A lifecycle call on the caller's context number `i`. -/
inductive Call where
  | init (i : Nat)
  | shutdown (i : Nat)
  | fini (i : Nat)
deriving DecidableEq

/-- The controller together with the caller's context objects. -/
structure World where
  g : Globals
  contexts : Nat → rmw_context_t

/-- What is observed of one call of a sequence: the live-context counter before and after,
the return code and the calls that left the interceptor. -/
structure StepRecord where
  before : Nat
  after : Nat
  ret : rmw_ret_t
  events : List Event
deriving DecidableEq

/-- Stores the context object returned by a verb back into slot `i`. -/
def World.store (w : World) (i : Nat) (o : Outcome) : World :=
  { g := o.g, contexts := Function.update w.contexts i (o.context.getD (w.contexts i)) }

/-- One call: `rmw_init(&options i, &context i)`, `rmw_shutdown(&context i)` or
`rmw_context_fini(&context i)`. -/
def step (env : Env) (opts : Nat → rmw_init_options_t) (w : World) : Call → World × StepRecord
  | Call.init i =>
    let o := rmw_init env (some (opts i)) (some (w.contexts i)) w.g
    (w.store i o, ⟨w.g.g_context_count, o.g.g_context_count, o.ret, o.events⟩)
  | Call.shutdown i =>
    let o := rmw_shutdown env (some (w.contexts i)) w.g
    (w.store i o, ⟨w.g.g_context_count, o.g.g_context_count, o.ret, o.events⟩)
  | Call.fini i =>
    let o := rmw_context_fini env (some (w.contexts i)) w.g
    (w.store i o, ⟨w.g.g_context_count, o.g.g_context_count, o.ret, o.events⟩)

/-- The records of a sequence of calls made one after the other. -/
def run (env : Env) (opts : Nat → rmw_init_options_t) : World → List Call → List StepRecord
  | _, [] => []
  | w, c :: cs => (step env opts w c).2 :: run env opts (step env opts w c).1 cs

/-- The controller state after a sequence of calls. -/
def runFinal (env : Env) (opts : Nat → rmw_init_options_t) : World → List Call → World
  | w, [] => w
  | w, c :: cs => runFinal env opts (step env opts w c).1 cs

/-- Number of library loads (`dlopen` calls) among the events. -/
def loads (evs : List Event) : Nat :=
  evs.countP (fun e => match e with | Event.dlopen _ => true | _ => false)

/-- Number of library unloads (`dlclose` calls) among the events. -/
def unloads (evs : List Event) : Nat :=
  evs.countP (fun e => match e with | Event.dlclose _ => true | _ => false)

/-- Total number of loads over a sequence. -/
def totalLoads (tr : List StepRecord) : Nat := (tr.map (fun r => loads r.events)).sum

/-- Total number of unloads over a sequence. -/
def totalUnloads (tr : List StepRecord) : Nat := (tr.map (fun r => unloads r.events)).sum

/-- An interleaving of initializations and finalizations that respects, for every context,
init-before-finalize: `live` are the contexts initialized and not yet finalized, `fresh` those
not yet initialized; at the end every context has been initialized and finalized. -/
def validFrom : List Nat → List Nat → List Call → Bool
  | live, fresh, [] => live.isEmpty && fresh.isEmpty
  | live, fresh, Call.init i :: cs => decide (i ∈ fresh) && validFrom (i :: live) (fresh.erase i) cs
  | live, fresh, Call.fini i :: cs => decide (i ∈ live) && validFrom (live.erase i) fresh cs
  | _, _, Call.shutdown _ :: _ => false

/-- Exactly `N` initializations and `N` finalizations on the contexts `0 .. N-1`, each context being
initialized once and finalized once, in that order. -/
def Valid (N : Nat) (cs : List Call) : Prop := validFrom [] (List.range N) cs = true

/-- The same backend name is configured for every call and every backend call succeeds: the
library loads, and the backend `rmw_init` and `rmw_context_fini` return `RMW_RET_OK`. -/
structure AllSucceed (env : Env) (name : String) : Prop where
  delegate : env.getenv "RMW_INTROSPECT_DELEGATE_TO" = some name
  load_ok : (RealRMW.load env.dl (some name) RealRMW.new).ok = true
  init_ok : ∀ o c, (env.backend.init o c).1 = RMW_RET_OK
  fini_ok : ∀ c, env.backend.context_fini c = RMW_RET_OK

/-- The controller states reachable from program start by calls of `rmw_init`, `rmw_shutdown`
and `rmw_context_fini` with any arguments, environment and backend behaviour. -/
inductive Reachable : Globals → Prop where
  | start : Reachable Globals.initial
  | init (env : Env) (options : Option rmw_init_options_t) (context : Option rmw_context_t)
      (g : Globals) : Reachable g → Reachable (rmw_init env options context g).g
  | shutdown (env : Env) (context : Option rmw_context_t) (g : Globals) :
      Reachable g → Reachable (rmw_shutdown env context g).g
  | fini (env : Env) (context : Option rmw_context_t) (g : Globals) :
      Reachable g → Reachable (rmw_context_fini env context g).g

/-- The three controller states of the specification. -/
inductive ModeState where
  | UNINITIALIZED
  | RECORDING_ONLY
  | DELEGATING
deriving DecidableEq

/-- The specification's reading of a controller state: UNINITIALIZED is counter `0` without
backend, RECORDING_ONLY a positive counter without backend, DELEGATING a positive counter with
a backend; a backend with counter `0` is none of the three. -/
def classify (g : Globals) : Option ModeState :=
  match g.g_real_rmw, decide (g.g_context_count = 0) with
  | none, true => some ModeState.UNINITIALIZED
  | none, false => some ModeState.RECORDING_ONLY
  | some _, false => some ModeState.DELEGATING
  | some _, true => none

/-- The per-slot readiness contract of the wait-set proxy for one collection: a null collection
stays null, and otherwise the size is kept and slot `i` holds the original handle when native
slot `i` came back non-null and null when it came back null. -/
def RemapSpec (real : Nat → Nat) (before after : Option (List Nat)) : Prop :=
  match before, after with
  | none, none => True
  | some b, some a =>
    a.length = b.length ∧
      ∀ i, i < b.length → a.getD i 0 = if real i ≠ 0 then b.getD i 0 else 0
  | _, _ => False

/-- No slot of a collection is replaced by a native handle: after the call every slot holds
what it held before, or null. -/
def NoNativeHandle (before after : Option (List Nat)) : Prop :=
  ∀ b a, before = some b → after = some a → ∀ i, a.getD i 0 = b.getD i 0 ∨ a.getD i 0 = 0

/-- An empty collection is handed to the backend as an empty native array (nothing is
unwrapped) and comes back untouched. -/
def EmptyUntouched (before native after : Option (List Nat)) : Prop :=
  before = some [] → native = some [] ∧ after = some []

/-! ## Concrete environments used to evaluate the code -/

/-- A loader that knows one library, `librmw_fastrtps_cpp.so`, exporting every symbol. -/
def goodLoader : DynLoader :=
  { dlopen := fun lib => if lib = "librmw_fastrtps_cpp.so" then 7 else 0
    dlsym := fun h _ => if h = 7 then 100 else 0 }

/-- A backend whose entry points all succeed and that reports every slot ready. -/
def goodBackend : Backend :=
  { get_implementation_identifier := some "rmw_fastrtps_cpp"
    init := fun o c => (RMW_RET_OK, { c with implementation_identifier := o.implementation_identifier,
                                              actual_domain_id := o.domain_id })
    shutdown := fun c => (RMW_RET_OK, c)
    context_fini := fun _ => RMW_RET_OK
    wait := fun _ => ⟨RMW_RET_OK, fun _ => 1, fun _ => 1, fun _ => 1, fun _ => 1, fun _ => 1⟩
    call := fun _ _ out => (RMW_RET_OK, out)
    create := fun _ natives names => ⟨900 + natives.length, names.headD "", "/", false, false⟩
    create_in_context := fun _ _ names => ⟨800, names.headD "", "/", false, false⟩
    node_get_graph_guard_condition := fun n => n + 5000 }

/-- A backend whose `rmw_init` fails. -/
def failingInitBackend : Backend :=
  { goodBackend with init := fun _ c => (RMW_RET_ERROR, c) }

/-- The environment with `RMW_INTROSPECT_DELEGATE_TO` set to `value` and nothing else. -/
def envWith (value : Option String) (dl : DynLoader) (b : Backend) : Env :=
  { getenv := fun k => if k = "RMW_INTROSPECT_DELEGATE_TO" then value else none
    dl := dl
    backend := b }

/-- Options carrying the interceptor's identifier, as `rmw_init_options_init` leaves them
(rmw_init.cpp, lines 64-71), here with domain `0`. -/
def validOptions : rmw_init_options_t := ⟨0, rmw_introspect_cpp_identifier, 0⟩

instance (N : Nat) (cs : List Call) : Decidable (Valid N cs) := by
  unfold Valid; infer_instance

/-- The first observable state after `load`: fully loaded under the requested name. -/
def FullyLoaded (implementation_name : Option String) (res : RealRMW.LoadResult) : Prop :=
  res.ok = true ∧ res.state.is_loaded = true ∧ implementation_name = some res.state.get_name ∧
    res.state.fn.length = symbolTable.length ∧ ∀ p ∈ res.state.fn, p ≠ 0

/-- The second observable state after `load`: entirely empty. -/
def EntirelyEmpty (res : RealRMW.LoadResult) : Prop :=
  res.ok = false ∧ res.state.is_loaded = false ∧ res.state.get_name = "" ∧
    res.state.fn.length = symbolTable.length ∧ ∀ p ∈ res.state.fn, p = 0

/-- The environment in which `rmw_fastrtps_cpp` is configured and everything succeeds. -/
def goodEnv : Env := envWith (some "rmw_fastrtps_cpp") goodLoader goodBackend

/-- Two contexts initialized one after the other in `goodEnv`. -/
def twoLive : World :=
  runFinal goodEnv (fun _ => validOptions)
    ⟨Globals.initial, fun _ => rmw_get_zero_initialized_context⟩ [Call.init 0, Call.init 1]

/-- The link between a controller state and the bookkeeping of a valid interleaving: the
counter is the number of live contexts, every live context carries the interceptor's tag, and
a backend with an open library is present exactly while some context is live. -/
structure SeqInv (N : Nat) (w : World) (live fresh : List Nat) : Prop where
  count : w.g.g_context_count = live.length
  bound : live.length + fresh.length ≤ N
  nodup_live : live.Nodup
  nodup_fresh : fresh.Nodup
  disjoint : ∀ i ∈ live, i ∉ fresh
  tagged : ∀ i ∈ live,
    (w.contexts i).implementation_identifier = rmw_introspect_cpp_identifier
  unloaded : live = [] → w.g.g_real_rmw = none
  loaded : live ≠ [] → ∃ real, w.g.g_real_rmw = some real ∧ real.lib_handle_ ≠ 0

/-- A backend that marks native slot `0` ready and every other slot not ready. -/
def firstSlotBackend : Backend :=
  { goodBackend with
    wait := fun _ =>
      ⟨RMW_RET_OK, fun i => if i = 0 then 500 else 0, fun _ => 0, fun _ => 0, fun _ => 0,
        fun _ => 0⟩ }

/-- A heap in which every address holds a wrapped handle of the interceptor. -/
def sampleHeap : Heap :=
  { subscription := fun p => ⟨rmw_introspect_cpp_identifier, some ⟨p + 1000, "t", "T"⟩⟩
    guard_condition := fun p => ⟨rmw_introspect_cpp_identifier, some ⟨p + 2000⟩⟩
    service := fun p => ⟨rmw_introspect_cpp_identifier, some ⟨p + 3000, "s", "S"⟩⟩
    client := fun p => ⟨rmw_introspect_cpp_identifier, some ⟨p + 4000, "s", "S"⟩⟩ }

/-- A wrapped wait set. -/
def sampleWaitSet : rmw_wait_set_t := ⟨rmw_introspect_cpp_identifier, some ⟨55⟩⟩

/-- A controller in delegating mode with one live context. -/
def delegatingState : Globals := ⟨some ⟨7, "rmw_fastrtps_cpp", List.replicate 65 100⟩, 1⟩

/-- The state left behind by a first `rmw_init` that loads the backend and whose backend
`rmw_init` then fails (rmw_init.cpp, lines 174-179). -/
def leakedState : Globals :=
  (rmw_init (envWith (some "rmw_fastrtps_cpp") goodLoader failingInitBackend)
    (some validOptions) (some rmw_get_zero_initialized_context) Globals.initial).g

/-- The translation contract of one wait collection: a null collection is passed as null, and
otherwise the native array has the caller's element count and holds, slot by slot and in the
same order, the result of unwrapping the caller's element. -/
def Translated (unwrap : Nat → Nat) (caller native : Option (List Nat)) : Prop :=
  match caller, native with
  | none, none => True
  | some c, some n => n.length = c.length ∧ ∀ i, i < c.length → n.getD i 0 = unwrap (c.getD i 0)
  | _, _ => False

/-- Allocations that all succeed. -/
def fullAlloc : Alloc := ⟨true, true, true, 4096, 4160⟩

/-- A type-support collaborator with fixed type names. -/
def sampleTypeSupport : TypeSupportLib :=
  ⟨fun _ => "std_msgs/msg/String", fun _ => "example_interfaces/srv/AddTwoInts"⟩

/-- The context written by the first `rmw_init` in `goodEnv`. -/
def sampleContext : rmw_context_t :=
  { instance_id := 0
    implementation_identifier := rmw_introspect_cpp_identifier
    actual_domain_id := 0
    impl := some ⟨some ⟨0, some "rmw_fastrtps_cpp", 0, 0⟩,
      some ⟨7, "rmw_fastrtps_cpp", List.replicate 65 100⟩, "rmw_fastrtps_cpp"⟩ }

/-- A context that carries the interceptor's tag and no payload. -/
def bareContext : rmw_context_t := ⟨0, rmw_introspect_cpp_identifier, 0, none⟩

/-- A wrapped node whose native handle is `800`. -/
def sampleNode : rmw_node_t :=
  ⟨rmw_introspect_cpp_identifier, some (NodePayload.wrapper ⟨800, "talker", "/"⟩), "talker", "/"⟩

/-- A wrapped publisher whose native handle is `901`. -/
def samplePublisher : rmw_publisher_t :=
  ⟨rmw_introspect_cpp_identifier, some ⟨901, "chatter", "std_msgs/msg/String"⟩, "chatter", false⟩

/-- A wrapped subscription whose native handle is `902`. -/
def sampleSubscription : rmw_subscription_t :=
  ⟨rmw_introspect_cpp_identifier, some ⟨902, "chatter", "std_msgs/msg/String"⟩⟩

/-- A wrapped client whose native handle is `903`. -/
def sampleClient : rmw_client_t :=
  ⟨rmw_introspect_cpp_identifier, some ⟨903, "add", "example_interfaces/srv/AddTwoInts"⟩⟩

/-- A wrapped guard condition whose native handle is `904`. -/
def sampleGuardCondition : rmw_guard_condition_t :=
  ⟨rmw_introspect_cpp_identifier, some ⟨904⟩⟩

/-- A publisher object that carries the identifier of another implementation and a payload. -/
def foreignPublisher : rmw_publisher_t :=
  ⟨some "rmw_fastrtps_cpp", some ⟨77, "chatter", "std_msgs/msg/String"⟩, "chatter", false⟩

/-- A subscription object that carries the identifier of another implementation. -/
def foreignSubscription : rmw_subscription_t :=
  ⟨some "rmw_fastrtps_cpp", some ⟨78, "chatter", "std_msgs/msg/String"⟩⟩

/-- A guard condition object that carries the identifier of another implementation. -/
def foreignGuardCondition : rmw_guard_condition_t := ⟨some "rmw_fastrtps_cpp", some ⟨79⟩⟩

/-- A wait set object that carries the identifier of another implementation. -/
def foreignWaitSet : rmw_wait_set_t := ⟨some "rmw_fastrtps_cpp", some ⟨80⟩⟩

/-- A backend whose forwarded operations all return `RMW_RET_TIMEOUT` and leave the
out-parameters alone. -/
def timeoutBackend : Backend :=
  { goodBackend with call := fun _ _ out => (RMW_RET_TIMEOUT, out) }

/-- The environment of `goodEnv` with `timeoutBackend` behind the library. -/
def timeoutEnv : Env := envWith (some "rmw_fastrtps_cpp") goodLoader timeoutBackend

/-- A wrapped service whose native handle is `905`. -/
def sampleService : rmw_service_t :=
  ⟨rmw_introspect_cpp_identifier, some ⟨905, "add", "example_interfaces/srv/AddTwoInts"⟩⟩

/-- A backend whose `rmw_context_fini` fails. -/
def failingFiniBackend : Backend :=
  { goodBackend with context_fini := fun _ => RMW_RET_ERROR }

/-- The environment of `goodEnv` with `failingFiniBackend` behind the library. -/
def failingFiniEnv : Env := envWith (some "rmw_fastrtps_cpp") goodLoader failingFiniBackend

/-- A backend whose wait primitive times out and leaves every slot it was given null, the
slots of the events collection included. -/
def timeoutWaitBackend : Backend :=
  { goodBackend with
    wait := fun _ =>
      ⟨RMW_RET_TIMEOUT, fun _ => 0, fun _ => 0, fun _ => 0, fun _ => 0, fun _ => 0⟩ }

/-- The environment of `goodEnv` with `timeoutWaitBackend` behind the library. -/
def timeoutWaitEnv : Env := envWith (some "rmw_fastrtps_cpp") goodLoader timeoutWaitBackend

/-- A heap like `sampleHeap` in which the subscription at address `12` has no payload. -/
def holeHeap : Heap :=
  { sampleHeap with
    subscription := fun p =>
      if p = 12 then ⟨rmw_introspect_cpp_identifier, none⟩
      else ⟨rmw_introspect_cpp_identifier, some ⟨p + 1000, "t", "T"⟩⟩ }

/-! # Properties -/

/-! ## Facts about the loader -/

theorem take_succ_set (l : List Nat) (k p : Nat) (h : k < l.length) :
    (l.set k p).take (k + 1) = l.take k ++ [p] := by
  rw [List.take_succ, List.getElem?_set_eq_of_lt _ h, List.set_take,
    List.set_eq_of_length_le (by simp)]
  rfl

namespace RealRMW

theorem load_symbol_snd (dl : DynLoader) (r : RealRMW) (k : Nat) (nm : String) (req : Bool) :
    (load_symbol dl r k nm req).2 = { r with fn := r.fn.set k (dl.dlsym r.lib_handle_ nm) } := by
  unfold load_symbol
  by_cases h : dl.dlsym r.lib_handle_ nm = 0 <;> cases req <;> simp [h]

theorem load_symbol_fst (dl : DynLoader) (r : RealRMW) (k : Nat) (nm : String) :
    (load_symbol dl r k nm true).1 = (dl.dlsym r.lib_handle_ nm != 0) := by
  unfold load_symbol
  by_cases h : dl.dlsym r.lib_handle_ nm = 0 <;> simp [h]

theorem load_symbols_handle (dl : DynLoader) (names : List String) :
    ∀ (k : Nat) (s : Bool) (r : RealRMW),
      (load_symbols dl names k s r).2.lib_handle_ = r.lib_handle_ ∧
      (load_symbols dl names k s r).2.name_ = r.name_ := by
  induction names with
  | nil => intro k s r; exact ⟨rfl, rfl⟩
  | cons nm rest ih =>
    intro k s r
    simp only [load_symbols]
    have h := ih (k + 1) (s && (load_symbol dl r k nm true).1) (load_symbol dl r k nm true).2
    rw [load_symbol_snd] at h
    rw [load_symbol_snd]
    exact h

theorem load_symbols_ok (dl : DynLoader) (names : List String) :
    ∀ (k : Nat) (s : Bool) (r : RealRMW),
      (load_symbols dl names k s r).1 =
        (s && names.all (fun nm => dl.dlsym r.lib_handle_ nm != 0)) := by
  induction names with
  | nil => intro k s r; simp [load_symbols]
  | cons nm rest ih =>
    intro k s r
    simp only [load_symbols]
    rw [ih, load_symbol_fst, load_symbol_snd]
    simp [Bool.and_assoc]

theorem load_symbols_fn (dl : DynLoader) (names : List String) :
    ∀ (k : Nat) (s : Bool) (r : RealRMW), k + names.length ≤ r.fn.length →
      (load_symbols dl names k s r).2.fn =
        r.fn.take k ++ names.map (dl.dlsym r.lib_handle_) ++ r.fn.drop (k + names.length) := by
  induction names with
  | nil => intro k s r _; simp [load_symbols]
  | cons nm rest ih =>
    intro k s r hk
    simp only [load_symbols, List.length_cons] at hk ⊢
    rw [load_symbol_snd]
    have hlt : k < r.fn.length := by omega
    rw [ih (k + 1) _ _ (by simp; omega)]
    simp only [List.map_cons]
    rw [List.drop_set_of_lt _ _ (by omega), take_succ_set _ _ _ hlt]
    simp [Nat.add_assoc, Nat.add_comm 1]

theorem strncmp_eq_iff (a pre : List Char) :
    strncmp_eq a pre pre.length = true ↔ pre <+: a := by
  induction pre generalizing a with
  | nil => simp [strncmp_eq]
  | cons b bs ih =>
    cases a with
    | nil => simp [strncmp_eq]
    | cons c cs =>
      simp only [strncmp_eq, List.length_cons, Bool.and_eq_true, beq_iff_eq, ih,
        List.cons_prefix_cons]
      constructor <;> rintro ⟨h1, h2⟩ <;> exact ⟨h1.symm, h2⟩

theorem unload_state (r : RealRMW) : (unload r).1 = RealRMW.new := rfl

theorem unload_events (r : RealRMW) :
    (unload r).2 = if r.lib_handle_ = 0 then [] else [Event.dlclose r.lib_handle_] := by
  unfold unload
  by_cases h : r.lib_handle_ = 0 <;> simp [h]

/-- The outcome of `load` on an instance without an open library, case by case. -/
theorem load_cases (dl : DynLoader) (nm : String) (r : RealRMW) (h0 : r.lib_handle_ = 0)
    (hlen : r.fn.length = symbolTable.length) :
    let lib := "lib" ++ nm ++ ".so"
    let res := load dl (some nm) r
    (nm.data = [] ∨ ¬ ("rmw_".data <+: nm.data) → res = ⟨false, r, []⟩) ∧
    (nm.data ≠ [] → "rmw_".data <+: nm.data → dl.dlopen lib = 0 →
        res = ⟨false, r, [Event.dlopen lib]⟩) ∧
    (nm.data ≠ [] → "rmw_".data <+: nm.data → dl.dlopen lib ≠ 0 →
        (∃ s ∈ symbolTable, dl.dlsym (dl.dlopen lib) s = 0) →
        res = ⟨false, RealRMW.new, [Event.dlopen lib, Event.dlclose (dl.dlopen lib)]⟩) ∧
    (nm.data ≠ [] → "rmw_".data <+: nm.data → dl.dlopen lib ≠ 0 →
        (∀ s ∈ symbolTable, dl.dlsym (dl.dlopen lib) s ≠ 0) →
        res = ⟨true, ⟨dl.dlopen lib, nm, symbolTable.map (dl.dlsym (dl.dlopen lib))⟩,
          [Event.dlopen lib]⟩) := by
  intro lib res
  have hpre : strncmp_eq nm.data "rmw_".data 4 = true ↔ "rmw_".data <+: nm.data :=
    strncmp_eq_iff nm.data "rmw_".data
  have hres : res = load dl (some nm) r := rfl
  have hlib : lib = "lib" ++ nm ++ ".so" := rfl
  unfold load at hres
  simp only [h0, bne_self_eq_false, Bool.false_eq_true, if_false] at hres
  refine ⟨?_, ?_, ?_, ?_⟩
  · rintro (h | h)
    · simp [hres, h]
    · have : strncmp_eq nm.data "rmw_".data 4 = false := by
        cases hc : strncmp_eq nm.data "rmw_".data 4
        · rfl
        · exact absurd (hpre.mp hc) h
      simp [hres, this]
  · intro hne hp hd
    have hp2 := hpre.mpr hp
    simp [hres, hne, hp2, ← hlib, hd]
    cases r; simp_all
  · intro hne hp hd hs
    have hp2 := hpre.mpr hp
    have hok := load_symbols_ok dl symbolTable 0 true
      { lib_handle_ := dl.dlopen lib, name_ := nm, fn := r.fn }
    have hfalse : (load_symbols dl symbolTable 0 true
        { lib_handle_ := dl.dlopen lib, name_ := nm, fn := r.fn }).1 = false := by
      rw [hok]
      obtain ⟨s, hs1, hs2⟩ := hs
      simp only [Bool.true_and]
      rw [Bool.eq_false_iff]
      intro hall
      rw [List.all_eq_true] at hall
      have := hall s hs1
      simp [hs2] at this
    have hh := (load_symbols_handle dl symbolTable 0 true
      { lib_handle_ := dl.dlopen lib, name_ := nm, fn := r.fn }).1
    simp [hres, hne, hp2, ← hlib, hd, hfalse, unload_state, unload_events, hh]
  · intro hne hp hd hs
    have hp2 := hpre.mpr hp
    have hok := load_symbols_ok dl symbolTable 0 true
      { lib_handle_ := dl.dlopen lib, name_ := nm, fn := r.fn }
    have htrue : (load_symbols dl symbolTable 0 true
        { lib_handle_ := dl.dlopen lib, name_ := nm, fn := r.fn }).1 = true := by
      rw [hok]
      simp only [Bool.true_and, List.all_eq_true]
      intro s hs1
      simpa using hs s hs1
    have hh := load_symbols_handle dl symbolTable 0 true
      { lib_handle_ := dl.dlopen lib, name_ := nm, fn := r.fn }
    have hf := load_symbols_fn dl symbolTable 0 true
      { lib_handle_ := dl.dlopen lib, name_ := nm, fn := r.fn } (by simp [hlen])
    simp only [List.take_zero, List.nil_append, Nat.zero_add] at hf
    rw [List.drop_eq_nil_of_le (by simp [hlen]), List.append_nil] at hf
    simp [hres, hne, hp2, ← hlib, hd, htrue]
    generalize load_symbols dl symbolTable 0 true
      { lib_handle_ := dl.dlopen lib, name_ := nm, fn := r.fn } = x at hh hf
    obtain ⟨b, x⟩ := x
    cases x
    simp_all

end RealRMW
/-- C7: after `RealRMW::load` on a freshly constructed or unloaded instance, the instance is
either fully loaded (result `true`, `is_loaded()`, `get_name()` the requested name, every
function pointer non-null) or entirely empty (result `false`, not loaded, empty name, every
pointer null), never both; and when the library opens but some symbol is missing, the library
is closed again and the instance is back in the constructor state. -/
theorem C7_load_fully_or_not_at_all (dl : DynLoader) (implementation_name : Option String)
    (s : RealRMW) :
    (∀ r0 ∈ [RealRMW.new, (RealRMW.unload s).1],
      (FullyLoaded implementation_name (RealRMW.load dl implementation_name r0) ∨
        EntirelyEmpty (RealRMW.load dl implementation_name r0)) ∧
      ¬ (FullyLoaded implementation_name (RealRMW.load dl implementation_name r0) ∧
        EntirelyEmpty (RealRMW.load dl implementation_name r0))) ∧
    (∀ nm, implementation_name = some nm →
      dl.dlopen ("lib" ++ nm ++ ".so") ≠ 0 → nm.data ≠ [] → "rmw_".data <+: nm.data →
      (∃ sym ∈ symbolTable, dl.dlsym (dl.dlopen ("lib" ++ nm ++ ".so")) sym = 0) →
      RealRMW.load dl implementation_name RealRMW.new =
        ⟨false, RealRMW.new,
          [Event.dlopen ("lib" ++ nm ++ ".so"),
            Event.dlclose (dl.dlopen ("lib" ++ nm ++ ".so"))]⟩) := by
  have hnew0 : RealRMW.new.lib_handle_ = 0 := rfl
  have hnewlen : RealRMW.new.fn.length = symbolTable.length := by
    simp [RealRMW.new]
  have hnewzero : ∀ p ∈ RealRMW.new.fn, p = 0 := by
    intro p hp
    simp only [RealRMW.new] at hp
    exact (List.mem_replicate.mp hp).2
  have hempty : ∀ evs, EntirelyEmpty ⟨false, RealRMW.new, evs⟩ := by
    intro evs
    exact ⟨rfl, rfl, rfl, hnewlen, hnewzero⟩
  constructor
  · intro r0 hr0
    have hr : r0 = RealRMW.new := by
      simp only [List.mem_cons, List.mem_singleton, RealRMW.unload_state, or_self,
        List.not_mem_nil, or_false] at hr0
      exact hr0
    subst hr
    refine ⟨?_, ?_⟩
    · cases implementation_name with
      | none =>
        right
        have : RealRMW.load dl none RealRMW.new = ⟨false, RealRMW.new, []⟩ := by
          simp [RealRMW.load, hnew0]
        rw [this]; exact hempty _
      | some nm =>
        obtain ⟨h1, h2, h3, h4⟩ := RealRMW.load_cases dl nm RealRMW.new hnew0 hnewlen
        by_cases hv : nm.data = [] ∨ ¬ ("rmw_".data <+: nm.data)
        · right; rw [h1 hv]; exact hempty _
        · push_neg at hv
          by_cases hd : dl.dlopen ("lib" ++ nm ++ ".so") = 0
          · right; rw [h2 hv.1 hv.2 hd]; exact hempty _
          · by_cases hs : ∀ sym ∈ symbolTable, dl.dlsym (dl.dlopen ("lib" ++ nm ++ ".so")) sym ≠ 0
            · left
              rw [h4 hv.1 hv.2 hd hs]
              refine ⟨rfl, ?_, rfl, by simp, ?_⟩
              · simp [RealRMW.is_loaded, hd]
              · intro p hp
                simp only [List.mem_map] at hp
                obtain ⟨sym, hsym, rfl⟩ := hp
                exact hs sym hsym
            · right
              push_neg at hs
              rw [h3 hv.1 hv.2 hd hs]; exact hempty _
    · rintro ⟨hf, he⟩
      have := hf.1
      rw [he.1] at this
      exact Bool.false_ne_true this
  · intro nm hnm hd hne hp hs
    subst hnm
    exact (RealRMW.load_cases dl nm RealRMW.new hnew0 hnewlen).2.2.1 hne hp hd hs

/-- Witness for C7: a library that opens but lacks `rmw_wait` is closed again. -/
theorem C7_load_fully_or_not_at_all_witness :
    RealRMW.load ⟨fun _ => 7, fun _ sym => if sym = "rmw_wait" then 0 else 100⟩
        (some "rmw_fastrtps_cpp") RealRMW.new =
      ⟨false, RealRMW.new, [Event.dlopen "librmw_fastrtps_cpp.so", Event.dlclose 7]⟩ :=
  (C7_load_fully_or_not_at_all ⟨fun _ => 7, fun _ sym => if sym = "rmw_wait" then 0 else 100⟩
    (some "rmw_fastrtps_cpp") RealRMW.new).2 "rmw_fastrtps_cpp" rfl (by decide) (by decide)
    (by decide) ⟨"rmw_wait", by decide, by decide⟩

/-- C8: `RealRMW::load` returns `false`, leaves the instance exactly as it was and makes no
loader call when the name is null, empty, does not begin with `rmw_`, or when the instance is
already loaded (whatever the name). -/
theorem C8_load_precondition_failure (dl : DynLoader) (implementation_name : Option String)
    (r : RealRMW)
    (h : implementation_name = none ∨
      (∃ nm, implementation_name = some nm ∧ nm.data = []) ∨
      (∃ nm, implementation_name = some nm ∧ ¬ ("rmw_".data <+: nm.data)) ∨
      r.is_loaded = true) :
    RealRMW.load dl implementation_name r = ⟨false, r, []⟩ := by
  by_cases hl : r.lib_handle_ = 0
  · rcases h with h | ⟨nm, h, he⟩ | ⟨nm, h, hp⟩ | h
    · subst h; simp [RealRMW.load, hl]
    · subst h; simp [RealRMW.load, hl, he]
    · subst h
      have : RealRMW.strncmp_eq nm.data "rmw_".data 4 = false := by
        cases hc : RealRMW.strncmp_eq nm.data "rmw_".data 4
        · rfl
        · exact absurd ((RealRMW.strncmp_eq_iff nm.data "rmw_".data).mp hc) hp
      simp [RealRMW.load, hl, this]
    · simp [RealRMW.is_loaded, hl] at h
  · simp [RealRMW.load, hl]

/-- Witness for C8: the name `invalid` on a fresh instance. -/
theorem C8_load_precondition_failure_witness :
    RealRMW.load goodLoader (some "invalid") RealRMW.new = ⟨false, RealRMW.new, []⟩ :=
  C8_load_precondition_failure goodLoader (some "invalid") RealRMW.new
    (Or.inr (Or.inr (Or.inl ⟨"invalid", rfl, by decide⟩)))

/-- C9: from every state, `unload` leaves the instance not loaded, with an empty name and every
function pointer null, which is the constructor state; a second `unload` changes nothing and
closes nothing. -/
theorem C9_unload_idempotent (r : RealRMW) :
    (RealRMW.unload r).1 = RealRMW.new ∧
    (RealRMW.unload r).1.is_loaded = false ∧
    (RealRMW.unload r).1.get_name = "" ∧
    (RealRMW.unload r).1.fn.length = symbolTable.length ∧
    (∀ p ∈ (RealRMW.unload r).1.fn, p = 0) ∧
    RealRMW.unload (RealRMW.unload r).1 = ((RealRMW.unload r).1, []) := by
  refine ⟨rfl, rfl, rfl, by simp [RealRMW.unload], ?_, rfl⟩
  intro p hp
  simp only [RealRMW.unload] at hp
  exact (List.mem_replicate.mp hp).2

/-! ## Facts about the controller -/

theorem size_modulus_eq : SIZE_MODULUS = 18446744073709551616 := by
  norm_num [SIZE_MODULUS]

theorem rmw_init_first_of_pos (env : Env) (g : Globals) (h : g.g_context_count ≠ 0) :
    rmw_init_first env g = (true, g, []) := by
  simp [rmw_init_first, h]

theorem rmw_init_first_no_delegate (env : Env) (g : Globals)
    (h : env.getenv "RMW_INTROSPECT_DELEGATE_TO" = none ∨
      ∃ d, env.getenv "RMW_INTROSPECT_DELEGATE_TO" = some d ∧ d.data = []) :
    rmw_init_first env g = (true, g, []) := by
  unfold rmw_init_first
  rcases h with h | ⟨d, h, hd⟩
  · simp [h]
  · simp [h, hd]

theorem rmw_init_first_load_fails (env : Env) (g : Globals) (d : String)
    (hc : g.g_context_count = 0)
    (h : env.getenv "RMW_INTROSPECT_DELEGATE_TO" = some d) (hd : d.data ≠ [])
    (hf : (RealRMW.load env.dl (some d) RealRMW.new).ok = false) :
    rmw_init_first env g =
      (false, { g with g_real_rmw := none },
        (RealRMW.load env.dl (some d) RealRMW.new).events ++
          (RealRMW.unload (RealRMW.load env.dl (some d) RealRMW.new).state).2) := by
  simp [rmw_init_first, hc, h, hd, hf]

theorem rmw_init_first_load_ok (env : Env) (g : Globals) (d : String)
    (hc : g.g_context_count = 0)
    (h : env.getenv "RMW_INTROSPECT_DELEGATE_TO" = some d) (hd : d.data ≠ [])
    (hf : (RealRMW.load env.dl (some d) RealRMW.new).ok = true) :
    rmw_init_first env g =
      (true, { g with g_real_rmw := some (RealRMW.load env.dl (some d) RealRMW.new).state },
        (RealRMW.load env.dl (some d) RealRMW.new).events) := by
  simp [rmw_init_first, hc, h, hd, hf]

/-- A failed `load` on a fresh instance leaves nothing to close. -/
theorem load_fail_state (dl : DynLoader) (d : String)
    (hf : (RealRMW.load dl (some d) RealRMW.new).ok = false) :
    (RealRMW.load dl (some d) RealRMW.new).state = RealRMW.new := by
  have hnewlen : RealRMW.new.fn.length = symbolTable.length := by simp [RealRMW.new]
  obtain ⟨h1, h2, h3, h4⟩ := RealRMW.load_cases dl d RealRMW.new rfl hnewlen
  by_cases hv : d.data = [] ∨ ¬ ("rmw_".data <+: d.data)
  · rw [h1 hv]
  · push_neg at hv
    by_cases hd : dl.dlopen ("lib" ++ d ++ ".so") = 0
    · rw [h2 hv.1 hv.2 hd]
    · by_cases hs : ∀ sym ∈ symbolTable, dl.dlsym (dl.dlopen ("lib" ++ d ++ ".so")) sym ≠ 0
      · rw [h4 hv.1 hv.2 hd hs] at hf
        exact absurd hf (by simp)
      · push_neg at hs
        rw [h3 hv.1 hv.2 hd hs]

/-- A successful `load` on a fresh instance made exactly one `dlopen` call, closed nothing and
left an open library. -/
theorem load_ok_events (dl : DynLoader) (d : String)
    (hf : (RealRMW.load dl (some d) RealRMW.new).ok = true) :
    d.data ≠ [] ∧
    (RealRMW.load dl (some d) RealRMW.new).events = [Event.dlopen ("lib" ++ d ++ ".so")] ∧
    (RealRMW.load dl (some d) RealRMW.new).state.lib_handle_ ≠ 0 := by
  have hnewlen : RealRMW.new.fn.length = symbolTable.length := by simp [RealRMW.new]
  obtain ⟨h1, h2, h3, h4⟩ := RealRMW.load_cases dl d RealRMW.new rfl hnewlen
  by_cases hv : d.data = [] ∨ ¬ ("rmw_".data <+: d.data)
  · rw [h1 hv] at hf; exact absurd hf (by simp)
  · push_neg at hv
    by_cases hd : dl.dlopen ("lib" ++ d ++ ".so") = 0
    · rw [h2 hv.1 hv.2 hd] at hf; exact absurd hf (by simp)
    · by_cases hs : ∀ sym ∈ symbolTable, dl.dlsym (dl.dlopen ("lib" ++ d ++ ".so")) sym ≠ 0
      · rw [h4 hv.1 hv.2 hd hs]
        exact ⟨hv.1, rfl, hd⟩
      · push_neg at hs
        rw [h3 hv.1 hv.2 hd hs] at hf; exact absurd hf (by simp)

theorem leakedState_eq :
    leakedState = ⟨some ⟨7, "rmw_fastrtps_cpp", List.replicate 65 100⟩, 0⟩ := by
  decide

theorem leakedState_reachable : Reachable leakedState :=
  Reachable.init _ _ _ _ Reachable.start

/-- C3 (evaluation of the code): a first `rmw_init` that loads the backend and whose backend
`rmw_init` returns an error leaves a reachable state with the backend loaded and the
live-context counter at `0`, which is none of UNINITIALIZED, RECORDING_ONLY, DELEGATING. -/
theorem C3_backend_loaded_with_zero_counter :
    (rmw_init (envWith (some "rmw_fastrtps_cpp") goodLoader failingInitBackend)
      (some validOptions) (some rmw_get_zero_initialized_context) Globals.initial).ret
        = RMW_RET_ERROR ∧
    Reachable leakedState ∧
    leakedState.g_context_count = 0 ∧
    is_intermediate_mode leakedState = true ∧
    classify leakedState = none := by
  refine ⟨by decide, leakedState_reachable, ?_, ?_, ?_⟩ <;> rw [leakedState_eq] <;> rfl

/-- C4: with the live-context counter at `0` and a configured backend name for which
`RealRMW::load` fails (no `rmw_` start, a library that cannot be opened, or any other load
failure), `rmw_init` on valid arguments returns `RMW_RET_ERROR`, the counter stays `0`, no
backend is loaded afterwards, the caller's context is untouched, and for a name without the
`rmw_` start no loader call is made at all. -/
theorem C4_init_load_failure (env : Env) (g : Globals) (opts : rmw_init_options_t)
    (ctx : rmw_context_t) (delegate_to : String)
    (hcount : g.g_context_count = 0)
    (hopts : opts.implementation_identifier = rmw_introspect_cpp_identifier)
    (henv : env.getenv "RMW_INTROSPECT_DELEGATE_TO" = some delegate_to)
    (hne : delegate_to.data ≠ [])
    (hfail : ¬ ("rmw_".data <+: delegate_to.data) ∨
      env.dl.dlopen ("lib" ++ delegate_to ++ ".so") = 0 ∨
      (RealRMW.load env.dl (some delegate_to) RealRMW.new).ok = false) :
    (rmw_init env (some opts) (some ctx) g).ret = RMW_RET_ERROR ∧
    (rmw_init env (some opts) (some ctx) g).g.g_context_count = 0 ∧
    is_recording_only_mode (rmw_init env (some opts) (some ctx) g).g = true ∧
    is_intermediate_mode (rmw_init env (some opts) (some ctx) g).g = false ∧
    (rmw_init env (some opts) (some ctx) g).context = some ctx ∧
    (¬ ("rmw_".data <+: delegate_to.data) →
      (rmw_init env (some opts) (some ctx) g).events = []) := by
  have hnewlen : RealRMW.new.fn.length = symbolTable.length := by simp [RealRMW.new]
  obtain ⟨h1, h2, h3, h4⟩ := RealRMW.load_cases env.dl delegate_to RealRMW.new rfl hnewlen
  have hf : (RealRMW.load env.dl (some delegate_to) RealRMW.new).ok = false := by
    rcases hfail with h | h | h
    · rw [h1 (Or.inr h)]
    · by_cases hp : "rmw_".data <+: delegate_to.data
      · rw [h2 hne hp h]
      · rw [h1 (Or.inr hp)]
    · exact h
  have hfirst := rmw_init_first_load_fails env g delegate_to hcount henv hne hf
  have hst := load_fail_state env.dl delegate_to hf
  have hinit : rmw_init env (some opts) (some ctx) g =
      ⟨RMW_RET_ERROR, some ctx, { g with g_real_rmw := none },
        (RealRMW.load env.dl (some delegate_to) RealRMW.new).events⟩ := by
    simp only [rmw_init, hopts, hfirst, hst]
    simp [RealRMW.unload, RealRMW.new]
  rw [hinit]
  refine ⟨rfl, hcount, rfl, rfl, rfl, ?_⟩
  intro hp
  rw [h1 (Or.inr hp)]

/-- Witness for C4: the backend name `bad` from the initial state. -/
theorem C4_init_load_failure_witness :
    (rmw_init (envWith (some "bad") goodLoader goodBackend) (some validOptions)
      (some rmw_get_zero_initialized_context) Globals.initial).ret = RMW_RET_ERROR ∧
    (rmw_init (envWith (some "bad") goodLoader goodBackend) (some validOptions)
      (some rmw_get_zero_initialized_context) Globals.initial).events = [] :=
  have h := C4_init_load_failure (envWith (some "bad") goodLoader goodBackend) Globals.initial
    validOptions rmw_get_zero_initialized_context "bad" rfl rfl rfl (by decide)
    (Or.inl (by decide))
  ⟨h.1, h.2.2.2.2.2 (by decide)⟩

/-- C5: while the live-context counter is positive, `rmw_init` does not look at the process
environment: two runs from the same state with the same arguments, loader and backend give the
same result whatever the environments hold; the backend pointer is left as it was, no library
is opened or closed, and the controller changes only by the counter going up by one on
success (it is unchanged when the call fails). -/
theorem C5_init_ignores_configuration (getenv1 getenv2 : String → Option String)
    (dl : DynLoader) (b : Backend) (g : Globals)
    (options : Option rmw_init_options_t) (context : Option rmw_context_t)
    (hpos : 0 < g.g_context_count) (hwf : g.g_context_count < SIZE_MODULUS) :
    rmw_init ⟨getenv1, dl, b⟩ options context g = rmw_init ⟨getenv2, dl, b⟩ options context g ∧
    (rmw_init ⟨getenv1, dl, b⟩ options context g).g.g_real_rmw = g.g_real_rmw ∧
    is_intermediate_mode (rmw_init ⟨getenv1, dl, b⟩ options context g).g
      = is_intermediate_mode g ∧
    loads (rmw_init ⟨getenv1, dl, b⟩ options context g).events = 0 ∧
    unloads (rmw_init ⟨getenv1, dl, b⟩ options context g).events = 0 ∧
    ((rmw_init ⟨getenv1, dl, b⟩ options context g).ret = RMW_RET_OK →
      (rmw_init ⟨getenv1, dl, b⟩ options context g).g =
        { g with g_context_count := (g.g_context_count + 1) % SIZE_MODULUS }) ∧
    ((rmw_init ⟨getenv1, dl, b⟩ options context g).ret ≠ RMW_RET_OK →
      (rmw_init ⟨getenv1, dl, b⟩ options context g).g = g) := by
  have hne : g.g_context_count ≠ 0 := by omega
  have hback : ((g.g_context_count + 1) % SIZE_MODULUS + SIZE_MODULUS - 1) % SIZE_MODULUS
      = g.g_context_count := by
    rw [size_modulus_eq] at hwf ⊢
    omega
  have key : ∀ getenv : String → Option String,
      rmw_init ⟨getenv, dl, b⟩ options context g =
        rmw_init ⟨fun _ => none, dl, b⟩ options context g := by
    intro getenv
    cases options <;> cases context <;>
      simp only [rmw_init, rmw_init_first_of_pos _ g hne]
  refine ⟨(key getenv1).trans (key getenv2).symm, ?_⟩
  rw [key getenv1]
  cases options with
  | none =>
    simp [rmw_init, loads, unloads, RMW_RET_INVALID_ARGUMENT, RMW_RET_OK, is_intermediate_mode]
  | some opts =>
    cases context with
    | none =>
      simp [rmw_init, loads, unloads, RMW_RET_INVALID_ARGUMENT, RMW_RET_OK,
        is_intermediate_mode]
    | some ctx =>
      by_cases hid : opts.implementation_identifier = rmw_introspect_cpp_identifier
      · obtain ⟨real, count⟩ := g
        cases real with
        | none =>
          simp [rmw_init, hid, rmw_init_first_of_pos _ _ hne, loads, unloads, RMW_RET_OK,
            is_intermediate_mode]
        | some real =>
          by_cases hr : (b.init { opts with implementation_identifier :=
              b.get_implementation_identifier } real_context_t.zero).1 = RMW_RET_OK
          · simp [rmw_init, hid, rmw_init_first_of_pos _ _ hne, loads, unloads, hr,
              is_intermediate_mode]
          · simp [rmw_init, hid, rmw_init_first_of_pos _ _ hne, loads, unloads, hr,
              is_intermediate_mode]
            exact hback
      · simp [rmw_init, hid, loads, unloads, RMW_RET_INCORRECT_RMW_IMPLEMENTATION, RMW_RET_OK,
          is_intermediate_mode]

/-- Witness for C5: one live context in recording-only mode, the variable unset in one run
and naming a backend in the other. -/
theorem C5_init_ignores_configuration_witness :
    rmw_init ⟨fun _ => none, goodLoader, goodBackend⟩ (some validOptions)
        (some rmw_get_zero_initialized_context) ⟨none, 1⟩ =
      rmw_init ⟨fun _ => some "rmw_fastrtps_cpp", goodLoader, goodBackend⟩ (some validOptions)
        (some rmw_get_zero_initialized_context) ⟨none, 1⟩ :=
  (C5_init_ignores_configuration (fun _ => none) (fun _ => some "rmw_fastrtps_cpp") goodLoader
    goodBackend ⟨none, 1⟩ (some validOptions) (some rmw_get_zero_initialized_context)
    (by decide) (by rw [size_modulus_eq]; decide)).1

/-- From the UNINITIALIZED state (counter `0`, no backend) and without a configured backend
name, `rmw_init` on options carrying the interceptor's identifier succeeds in recording-only
mode. -/
theorem init_recording_only_from_uninitialized (env : Env) (opts : rmw_init_options_t)
    (ctx : rmw_context_t)
    (hopts : opts.implementation_identifier = rmw_introspect_cpp_identifier)
    (henv : env.getenv "RMW_INTROSPECT_DELEGATE_TO" = none ∨
      ∃ d, env.getenv "RMW_INTROSPECT_DELEGATE_TO" = some d ∧ d.data = []) :
    rmw_init env (some opts) (some ctx) Globals.initial =
      ⟨RMW_RET_OK,
        some ⟨opts.instance_id, rmw_introspect_cpp_identifier, opts.domain_id, none⟩,
        ⟨none, 1⟩, []⟩ := by
  simp only [rmw_init, hopts, rmw_init_first_no_delegate env _ henv, Globals.initial]
  simp [size_modulus_eq]

/-- C6 (evaluation of the code): in the reachable state with counter `0` left by a failed
backend `rmw_init`, a later `rmw_init` with `RMW_INTROSPECT_DELEGATE_TO` unset returns
`RMW_RET_OK` and raises the counter to `1`, yet runs in delegating mode: the stale backend is
used, `is_recording_only_mode()` is false and the context receives a wrapper payload. -/
theorem C6_init_unset_after_failed_backend_init :
    Reachable leakedState ∧ leakedState.g_context_count = 0 ∧
    (envWith none goodLoader goodBackend).getenv "RMW_INTROSPECT_DELEGATE_TO" = none ∧
    (rmw_init (envWith none goodLoader goodBackend) (some validOptions)
      (some rmw_get_zero_initialized_context) leakedState).ret = RMW_RET_OK ∧
    (rmw_init (envWith none goodLoader goodBackend) (some validOptions)
      (some rmw_get_zero_initialized_context) leakedState).g.g_context_count = 1 ∧
    is_recording_only_mode (rmw_init (envWith none goodLoader goodBackend) (some validOptions)
      (some rmw_get_zero_initialized_context) leakedState).g = false ∧
    is_intermediate_mode (rmw_init (envWith none goodLoader goodBackend) (some validOptions)
      (some rmw_get_zero_initialized_context) leakedState).g = true ∧
    ((rmw_init (envWith none goodLoader goodBackend) (some validOptions)
      (some rmw_get_zero_initialized_context) leakedState).context.bind
        (fun c => c.impl)).isSome = true := by
  refine ⟨leakedState_reachable, ?_, rfl, ?_, ?_, ?_, ?_, ?_⟩ <;> rw [leakedState_eq] <;> decide

theorem context_fini_wrapper_facts (env : Env) (ctx : rmw_context_t) (g : Globals) :
    unloads (rmw_context_fini_wrapper env ctx g).2 = 0 ∧
    loads (rmw_context_fini_wrapper env ctx g).2 = 0 ∧
    ∀ ret, (rmw_context_fini_wrapper env ctx g).1 = some ret → ret ≠ RMW_RET_OK := by
  unfold rmw_context_fini_wrapper
  cases hm : is_intermediate_mode g
  · cases hi : ctx.impl <;> simp [loads, unloads]
  · cases hi : ctx.impl with
    | none => simp [loads, unloads]
    | some wrapper =>
      cases hrc : wrapper.real_context with
      | none => simp [loads, unloads, hrc]
      | some rc =>
        by_cases hr : env.backend.context_fini rc = RMW_RET_OK
        · simp [loads, unloads, hr, hrc]
        · simp [loads, unloads, hr, hrc]

theorem unloads_unload (real : RealRMW) :
    unloads (RealRMW.unload real).2 = if real.is_loaded = true then 1 else 0 := by
  rw [RealRMW.unload_events]
  by_cases h : real.lib_handle_ = 0 <;> simp [h, unloads, RealRMW.is_loaded]

theorem unloads_append (a b : List Event) : unloads (a ++ b) = unloads a + unloads b := by
  simp [unloads]

theorem loads_append (a b : List Event) : loads (a ++ b) = loads a + loads b := by
  simp [loads]

/-- The shape of a successful `rmw_context_fini`. -/
theorem context_fini_ok_shape (env : Env) (context : Option rmw_context_t) (g : Globals)
    (hok : (rmw_context_fini env context g).ret = RMW_RET_OK) :
    ∃ ctx, context = some ctx ∧
      ctx.implementation_identifier = rmw_introspect_cpp_identifier ∧
      (rmw_context_fini_wrapper env ctx g).1 = none ∧
      (rmw_context_fini env context g).context = some rmw_get_zero_initialized_context ∧
      (rmw_context_fini env context g).g.g_context_count
        = (g.g_context_count + SIZE_MODULUS - 1) % SIZE_MODULUS ∧
      (rmw_context_fini env context g).g.g_real_rmw
        = (if (g.g_context_count + SIZE_MODULUS - 1) % SIZE_MODULUS = 0 then none
            else g.g_real_rmw) ∧
      (rmw_context_fini env context g).events
        = (rmw_context_fini_wrapper env ctx g).2 ++
          (match g.g_real_rmw with
            | some real =>
              if (g.g_context_count + SIZE_MODULUS - 1) % SIZE_MODULUS = 0
              then (RealRMW.unload real).2 else []
            | none => []) := by
  cases context with
  | none => simp [rmw_context_fini, RMW_RET_INVALID_ARGUMENT, RMW_RET_OK] at hok
  | some ctx =>
    refine ⟨ctx, rfl, ?_⟩
    by_cases hid : ctx.implementation_identifier = rmw_introspect_cpp_identifier
    · refine ⟨hid, ?_⟩
      have hw := (context_fini_wrapper_facts env ctx g).2.2
      cases hp : (rmw_context_fini_wrapper env ctx g).1 with
      | some ret =>
        exfalso
        simp only [rmw_context_fini, hid, hp] at hok
        exact hw ret hp (by simpa using hok)
      | none =>
        refine ⟨rfl, ?_⟩
        obtain ⟨real, count⟩ := g
        cases real with
        | none => simp [rmw_context_fini, hid, hp]
        | some real =>
          by_cases hz : (count + SIZE_MODULUS - 1) % SIZE_MODULUS = 0
          · simp [rmw_context_fini, hid, hp, hz]
          · simp [rmw_context_fini, hid, hp, hz]
    · simp [rmw_context_fini, hid, RMW_RET_INCORRECT_RMW_IMPLEMENTATION, RMW_RET_OK] at hok

/-- C2: a successful `rmw_context_fini` lowers the live-context counter by one (in `size_t`
arithmetic) and unloads the backend exactly when the counter reaches `0`: otherwise the backend
pointer is untouched and nothing is closed; with counter `2` in delegating mode the backend
stays loaded, with counter `1` the controller ends in recording-only mode; with no backend
loaded nothing is closed. -/
theorem C2_context_fini_refcount (env : Env) (context : Option rmw_context_t) (g : Globals)
    (hwf : g.g_context_count < SIZE_MODULUS)
    (hok : (rmw_context_fini env context g).ret = RMW_RET_OK) :
    (rmw_context_fini env context g).g.g_context_count
      = (g.g_context_count + SIZE_MODULUS - 1) % SIZE_MODULUS ∧
    (0 < g.g_context_count →
      (rmw_context_fini env context g).g.g_context_count = g.g_context_count - 1) ∧
    (rmw_context_fini env context g).g.g_real_rmw
      = (if (rmw_context_fini env context g).g.g_context_count = 0 then none
          else g.g_real_rmw) ∧
    unloads (rmw_context_fini env context g).events
      = (if (rmw_context_fini env context g).g.g_context_count = 0 ∧
            ∃ real, g.g_real_rmw = some real ∧ real.is_loaded = true then 1 else 0) ∧
    (g.g_context_count = 2 → is_intermediate_mode g = true →
      is_intermediate_mode (rmw_context_fini env context g).g = true) ∧
    (g.g_context_count = 1 →
      is_recording_only_mode (rmw_context_fini env context g).g = true) ∧
    (g.g_real_rmw = none → (rmw_context_fini env context g).g.g_real_rmw = none ∧
      unloads (rmw_context_fini env context g).events = 0) := by
  obtain ⟨ctx, -, -, -, -, hcount, hreal, hev⟩ := context_fini_ok_shape env context g hok
  have hwu := (context_fini_wrapper_facts env ctx g).1
  obtain ⟨c, hc⟩ : ∃ c, c = (g.g_context_count + SIZE_MODULUS - 1) % SIZE_MODULUS := ⟨_, rfl⟩
  rw [← hc] at hcount hreal hev
  rw [size_modulus_eq] at hwf hc
  simp only [is_intermediate_mode, is_recording_only_mode]
  rw [hcount, hreal, hev, unloads_append, hwu]
  refine ⟨?_, ?_, rfl, ?_, ?_, ?_, ?_⟩
  · rw [size_modulus_eq]; exact hc
  · intro hpos; omega
  · cases hr : g.g_real_rmw with
    | none => simp [unloads]
    | some real =>
      by_cases hz : c = 0
      · simp only [hz, if_true, unloads_unload, Nat.zero_add]
        by_cases hl : real.is_loaded = true <;> simp [hl]
      · simp [hz, unloads]
  · intro h2 hm
    have : c ≠ 0 := by omega
    simp only [this, if_false]
    exact hm
  · intro h1
    have : c = 0 := by omega
    simp [this]
  · intro hn
    simp [hn, unloads]

/-- Witness for C2: two live contexts in delegating mode; finalizing the first keeps the
backend loaded. -/
theorem C2_context_fini_refcount_witness :
    is_intermediate_mode
      (rmw_context_fini goodEnv (some (twoLive.contexts 0)) twoLive.g).g = true :=
  (C2_context_fini_refcount goodEnv (some (twoLive.contexts 0)) twoLive.g
    (by rw [size_modulus_eq]; decide) (by decide)).2.2.2.2.1 (by decide) (by decide)

/-! ## Facts about the wait-set proxy -/

theorem update_ready_loop_spec (real : Nat → Nat) (slots : List Nat) :
    ∀ n, n ≤ slots.length →
      (update_ready_loop real n slots).length = slots.length ∧
      ∀ i, (update_ready_loop real n slots).getD i 0 =
        if i < n then (if real i ≠ 0 then slots.getD i 0 else 0) else slots.getD i 0 := by
  intro n
  induction n with
  | zero => intro _; simp [update_ready_loop]
  | succ n ih =>
    intro hn
    obtain ⟨hlen, hget⟩ := ih (by omega)
    have hstep : update_ready_loop real (n + 1) slots =
        (update_ready_loop real n slots).set n
          (if real n ≠ 0 then (update_ready_loop real n slots).getD n 0 else 0) := by
      simp [update_ready_loop, List.range_succ]
    rw [hstep]
    refine ⟨by simp [hlen], ?_⟩
    intro i
    have hn0 := hget n
    simp only [Nat.lt_irrefl, if_false] at hn0
    rw [hn0]
    by_cases hi : i = n
    · subst hi
      have : i < (update_ready_loop real i slots).length := by omega
      simp [List.getElem?_set_eq_of_lt _ this]
    · have h1 := hget i
      simp only [List.getD_eq_getElem?_getD] at h1 ⊢
      rw [List.getElem?_set_ne (Ne.symm hi), h1]
      by_cases hlt : i < n
      · have : i < n + 1 := by omega
        simp [hlt, this]
      · have : ¬ i < n + 1 := by omega
        simp [hlt, this]

theorem update_ready_spec (real : Nat → Nat) (collection : Option (List Nat)) :
    RemapSpec real collection (update_ready real collection) ∧
    NoNativeHandle collection (update_ready real collection) := by
  cases collection with
  | none => exact ⟨trivial, by intro b a h; cases h⟩
  | some slots =>
    have hspec : RemapSpec real (some slots) (update_ready real (some slots)) := by
      by_cases hpos : slots.length > 0
      · obtain ⟨hlen, hget⟩ := update_ready_loop_spec real slots slots.length (le_refl _)
        simp only [update_ready, hpos, if_true, RemapSpec]
        refine ⟨hlen, ?_⟩
        intro i hi
        rw [hget i]
        simp [hi]
      · have : slots = [] := by
          cases slots with
          | nil => rfl
          | cons a l => simp at hpos
        subst this
        simp [update_ready, RemapSpec]
    refine ⟨hspec, ?_⟩
    intro b a hb ha i
    cases hb
    rw [ha] at hspec
    obtain ⟨hlen, hget⟩ := hspec
    by_cases hi : i < a.length
    · rw [hget i (by omega)]
      by_cases hr : real i ≠ 0 <;> simp [hr]
    · right
      have : a.length ≤ i := by omega
      simp [List.getElem?_eq_none this]

theorem unwrap_array_empty (unwrap : Nat → Nat) : unwrap_array unwrap (some []) = [] := by
  simp [unwrap_array]

/-- C10: in delegating mode, when the wait set unwraps and the backend wait returns
`RMW_RET_OK`, the backend is entered once with some arguments `args`, and for each of the four
wrapped collections: a null collection stays null; otherwise its size is kept and slot `i`
holds the original handle when the backend left native slot `i` non-null and null when it left
it null; every slot holds its original content or null, never anything else; an empty
collection is passed as an empty native array and returned untouched. -/
theorem C10_wait_slot_remap (env : Env) (heap : Heap) (g : Globals)
    (subscriptions guard_conditions services clients events : Option (List Nat))
    (ws : rmw_wait_set_t) (wait_timeout : Option (Nat × Nat))
    (hmode : is_intermediate_mode g = true)
    (hws : unwrap_wait_set (some ws) ≠ 0)
    (hret : (rmw_wait env heap g subscriptions guard_conditions services clients events
      (some ws) wait_timeout).ret = RMW_RET_OK) :
    ∃ args : WaitArgs,
      (rmw_wait env heap g subscriptions guard_conditions services clients events
        (some ws) wait_timeout).trace = [Event.real_wait args] ∧
      (env.backend.wait args).ret = RMW_RET_OK ∧
      (RemapSpec (env.backend.wait args).subscriptions subscriptions
          (rmw_wait env heap g subscriptions guard_conditions services clients events
            (some ws) wait_timeout).subscriptions ∧
        RemapSpec (env.backend.wait args).guard_conditions guard_conditions
          (rmw_wait env heap g subscriptions guard_conditions services clients events
            (some ws) wait_timeout).guard_conditions ∧
        RemapSpec (env.backend.wait args).services services
          (rmw_wait env heap g subscriptions guard_conditions services clients events
            (some ws) wait_timeout).services ∧
        RemapSpec (env.backend.wait args).clients clients
          (rmw_wait env heap g subscriptions guard_conditions services clients events
            (some ws) wait_timeout).clients) ∧
      (NoNativeHandle subscriptions
          (rmw_wait env heap g subscriptions guard_conditions services clients events
            (some ws) wait_timeout).subscriptions ∧
        NoNativeHandle guard_conditions
          (rmw_wait env heap g subscriptions guard_conditions services clients events
            (some ws) wait_timeout).guard_conditions ∧
        NoNativeHandle services
          (rmw_wait env heap g subscriptions guard_conditions services clients events
            (some ws) wait_timeout).services ∧
        NoNativeHandle clients
          (rmw_wait env heap g subscriptions guard_conditions services clients events
            (some ws) wait_timeout).clients) ∧
      (EmptyUntouched subscriptions args.subscriptions
          (rmw_wait env heap g subscriptions guard_conditions services clients events
            (some ws) wait_timeout).subscriptions ∧
        EmptyUntouched guard_conditions args.guard_conditions
          (rmw_wait env heap g subscriptions guard_conditions services clients events
            (some ws) wait_timeout).guard_conditions ∧
        EmptyUntouched services args.services
          (rmw_wait env heap g subscriptions guard_conditions services clients events
            (some ws) wait_timeout).services ∧
        EmptyUntouched clients args.clients
          (rmw_wait env heap g subscriptions guard_conditions services clients events
            (some ws) wait_timeout).clients) := by
  simp only [rmw_wait, hmode, if_true, hws, if_false] at hret ⊢
  split_ifs at hret ⊢ with hr
  · refine ⟨_, rfl, hr, ⟨?_, ?_, ?_, ?_⟩, ⟨?_, ?_, ?_, ?_⟩, ⟨?_, ?_, ?_, ?_⟩⟩
    · exact (update_ready_spec _ _).1
    · exact (update_ready_spec _ _).1
    · exact (update_ready_spec _ _).1
    · exact (update_ready_spec _ _).1
    · exact (update_ready_spec _ _).2
    · exact (update_ready_spec _ _).2
    · exact (update_ready_spec _ _).2
    · exact (update_ready_spec _ _).2
    all_goals
      intro h
      subst h
      simp [unwrap_array, update_ready]
  · exact absurd hret hr

/-- Witness for C10: two subscriptions of which the backend reports only the first ready. -/
theorem C10_wait_slot_remap_witness :
    (rmw_wait (envWith none goodLoader firstSlotBackend) sampleHeap delegatingState
      (some [11, 12]) none none none none (some sampleWaitSet) none).subscriptions
        = some [11, 0] ∧
    NoNativeHandle (some [11, 12])
      (rmw_wait (envWith none goodLoader firstSlotBackend) sampleHeap delegatingState
        (some [11, 12]) none none none none (some sampleWaitSet) none).subscriptions :=
  ⟨by decide,
    (C10_wait_slot_remap (envWith none goodLoader firstSlotBackend) sampleHeap delegatingState
      (some [11, 12]) none none none none sampleWaitSet none (by decide) (by decide)
      (by decide)).elim (fun _ h => h.2.2.2.1.1)⟩

/-! ## Facts about call sequences -/

theorem rmw_init_good (env : Env) (name : String) (henv : AllSucceed env name)
    (opts : rmw_init_options_t)
    (hopts : opts.implementation_identifier = rmw_introspect_cpp_identifier)
    (ctx : rmw_context_t) (g : Globals)
    (hwf : g.g_context_count + 1 < SIZE_MODULUS)
    (h0 : g.g_context_count = 0 → g.g_real_rmw = none)
    (h1 : g.g_context_count ≠ 0 → ∃ real, g.g_real_rmw = some real ∧ real.lib_handle_ ≠ 0) :
    (rmw_init env (some opts) (some ctx) g).ret = RMW_RET_OK ∧
    (rmw_init env (some opts) (some ctx) g).g.g_context_count = g.g_context_count + 1 ∧
    (∃ real, (rmw_init env (some opts) (some ctx) g).g.g_real_rmw = some real ∧
      real.lib_handle_ ≠ 0) ∧
    (∃ c, (rmw_init env (some opts) (some ctx) g).context = some c ∧
      c.implementation_identifier = rmw_introspect_cpp_identifier) ∧
    loads (rmw_init env (some opts) (some ctx) g).events
      = (if g.g_context_count = 0 then 1 else 0) ∧
    unloads (rmw_init env (some opts) (some ctx) g).events = 0 := by
  have hmod : (g.g_context_count + 1) % SIZE_MODULUS = g.g_context_count + 1 :=
    Nat.mod_eq_of_lt hwf
  obtain ⟨real, count⟩ := g
  simp only at hwf h0 h1 hmod
  by_cases hc : count = 0
  · subst hc
    obtain ⟨hne, hev, hh⟩ := load_ok_events env.dl name henv.load_ok
    have hfirst := rmw_init_first_load_ok env ⟨real, 0⟩ name rfl henv.delegate hne henv.load_ok
    simp only [rmw_init, hopts, hfirst]
    simp [henv.init_ok, hev, loads, unloads, hh, size_modulus_eq]
  · obtain ⟨r, hr, hh⟩ := h1 hc
    subst hr
    simp only [rmw_init, hopts, rmw_init_first_of_pos env ⟨some r, count⟩ hc]
    simp [henv.init_ok, loads, unloads, hh, hmod, hc]

theorem rmw_context_fini_good (env : Env) (name : String) (henv : AllSucceed env name)
    (ctx : rmw_context_t) (g : Globals)
    (htag : ctx.implementation_identifier = rmw_introspect_cpp_identifier)
    (hpos : 0 < g.g_context_count) (hwf : g.g_context_count < SIZE_MODULUS)
    (hreal : ∃ real, g.g_real_rmw = some real ∧ real.lib_handle_ ≠ 0) :
    (rmw_context_fini env (some ctx) g).ret = RMW_RET_OK ∧
    (rmw_context_fini env (some ctx) g).g.g_context_count = g.g_context_count - 1 ∧
    (g.g_context_count = 1 → (rmw_context_fini env (some ctx) g).g.g_real_rmw = none) ∧
    (g.g_context_count ≠ 1 →
      (rmw_context_fini env (some ctx) g).g.g_real_rmw = g.g_real_rmw) ∧
    (rmw_context_fini env (some ctx) g).context = some rmw_get_zero_initialized_context ∧
    loads (rmw_context_fini env (some ctx) g).events = 0 ∧
    unloads (rmw_context_fini env (some ctx) g).events
      = (if g.g_context_count = 1 then 1 else 0) := by
  have hpre : (rmw_context_fini_wrapper env ctx g).1 = none := by
    unfold rmw_context_fini_wrapper
    cases hm : is_intermediate_mode g
    · cases hi : ctx.impl <;> simp
    · cases hi : ctx.impl with
      | none => simp
      | some wrapper =>
        cases hrc : wrapper.real_context with
        | none => simp [hrc]
        | some rc => simp [hrc, henv.fini_ok]
  have hok : (rmw_context_fini env (some ctx) g).ret = RMW_RET_OK := by
    obtain ⟨real, count⟩ := g
    obtain ⟨r, hr, -⟩ := hreal
    simp only at hr
    subst hr
    simp only [rmw_context_fini, htag, hpre, ne_eq, not_true_eq_false, if_false]
    split_ifs <;> rfl
  obtain ⟨c, hc, -, -, hctx, hcount, hrl, hev⟩ := context_fini_ok_shape env (some ctx) g hok
  cases hc
  obtain ⟨wu, wl, -⟩ := context_fini_wrapper_facts env ctx g
  obtain ⟨r, hr, hh⟩ := hreal
  obtain ⟨k, hk⟩ : ∃ k, k = (g.g_context_count + SIZE_MODULUS - 1) % SIZE_MODULUS := ⟨_, rfl⟩
  rw [← hk] at hcount hrl hev
  rw [size_modulus_eq] at hwf hk
  have hk2 : k = g.g_context_count - 1 := by omega
  rw [hcount, hrl, hev, loads_append, unloads_append, wu, wl, hr]
  refine ⟨hok, hk2, ?_, ?_, hctx, ?_, ?_⟩
  · intro h; have : k = 0 := by omega
    simp [this]
  · intro h; have : k ≠ 0 := by omega
    simp [this]
  · by_cases hz : k = 0
    · simp only [hz, if_true, Nat.zero_add, RealRMW.unload_events, hh, if_false]
      simp [loads]
    · simp [hz, loads]
  · by_cases hz : k = 0
    · have : g.g_context_count = 1 := by omega
      simp only [hz, if_true, Nat.zero_add, unloads_unload, this]
      simp [RealRMW.is_loaded, hh]
    · have : g.g_context_count ≠ 1 := by omega
      simp [hz, unloads, this]

theorem step_init_valid (env : Env) (name : String) (henv : AllSucceed env name)
    (opts : Nat → rmw_init_options_t)
    (hopts : ∀ i, (opts i).implementation_identifier = rmw_introspect_cpp_identifier)
    (N : Nat) (hN : N < SIZE_MODULUS) (w : World) (live fresh : List Nat) (i : Nat)
    (hinv : SeqInv N w live fresh) (hi : i ∈ fresh) :
    SeqInv N (step env opts w (Call.init i)).1 (i :: live) (fresh.erase i) ∧
    (step env opts w (Call.init i)).2.ret = RMW_RET_OK ∧
    (step env opts w (Call.init i)).2.before = live.length ∧
    (step env opts w (Call.init i)).2.after = live.length + 1 ∧
    loads (step env opts w (Call.init i)).2.events = (if live = [] then 1 else 0) ∧
    unloads (step env opts w (Call.init i)).2.events = 0 := by
  have hfl : 0 < fresh.length := List.length_pos_of_mem hi
  have hb := hinv.bound
  have hcnt := hinv.count
  have hwf : w.g.g_context_count + 1 < SIZE_MODULUS := by omega
  have h0 : w.g.g_context_count = 0 → w.g.g_real_rmw = none := by
    intro h
    exact hinv.unloaded (List.length_eq_zero.mp (by omega))
  have h1 : w.g.g_context_count ≠ 0 → ∃ real, w.g.g_real_rmw = some real ∧
      real.lib_handle_ ≠ 0 := by
    intro h
    apply hinv.loaded
    intro hl
    rw [hl] at hcnt
    exact h hcnt
  obtain ⟨hret, hcount, hloaded, ⟨c, hc, hctag⟩, hl, hu⟩ :=
    rmw_init_good env name henv (opts i) (hopts i) (w.contexts i) w.g hwf h0 h1
  have hnotlive : i ∉ live := fun h => hinv.disjoint i h hi
  simp only [step, World.store]
  refine ⟨?_, hret, hcnt, by rw [hcount, hcnt], ?_, hu⟩
  · refine ⟨by simp [hcount, hcnt], ?_, List.nodup_cons.mpr ⟨hnotlive, hinv.nodup_live⟩,
      hinv.nodup_fresh.erase i, ?_, ?_, by simp, fun _ => hloaded⟩
    · rw [List.length_erase_of_mem hi]
      simp only [List.length_cons]
      omega
    · intro j hj
      rcases List.mem_cons.mp hj with rfl | hj
      · exact hinv.nodup_fresh.not_mem_erase
      · exact fun h => hinv.disjoint j hj (List.mem_of_mem_erase h)
    · intro j hj
      by_cases hji : j = i
      · subst hji
        simp [hc, hctag]
      · rcases List.mem_cons.mp hj with rfl | hj
        · exact absurd rfl hji
        · simp only [Function.update_noteq hji]
          exact hinv.tagged j hj
  · rw [hl, hcnt]
    by_cases hle : live = []
    · simp [hle]
    · have : live.length ≠ 0 := fun h => hle (List.length_eq_zero.mp h)
      simp [hle, this]

theorem step_fini_valid (env : Env) (name : String) (henv : AllSucceed env name)
    (opts : Nat → rmw_init_options_t)
    (N : Nat) (hN : N < SIZE_MODULUS) (w : World) (live fresh : List Nat) (i : Nat)
    (hinv : SeqInv N w live fresh) (hi : i ∈ live) :
    SeqInv N (step env opts w (Call.fini i)).1 (live.erase i) fresh ∧
    (step env opts w (Call.fini i)).2.ret = RMW_RET_OK ∧
    (step env opts w (Call.fini i)).2.before = live.length ∧
    (step env opts w (Call.fini i)).2.after = live.length - 1 ∧
    loads (step env opts w (Call.fini i)).2.events = 0 ∧
    unloads (step env opts w (Call.fini i)).2.events = (if live.length = 1 then 1 else 0) := by
  have hll : 0 < live.length := List.length_pos_of_mem hi
  have hb := hinv.bound
  have hcnt := hinv.count
  have hne : live ≠ [] := fun h => by rw [h] at hll; exact Nat.lt_irrefl 0 hll
  have hlen : (live.erase i).length = live.length - 1 := List.length_erase_of_mem hi
  obtain ⟨hret, hcount, hnone, hsame, hctx, hl, hu⟩ :=
    rmw_context_fini_good env name henv (w.contexts i) w.g (hinv.tagged i hi) (by omega)
      (by omega) (hinv.loaded hne)
  simp only [step, World.store]
  refine ⟨?_, hret, hcnt, by rw [hcount, hcnt], hl, by rw [hu, hcnt]⟩
  refine ⟨by rw [hcount, hcnt, hlen], by rw [hlen]; omega, hinv.nodup_live.erase i,
    hinv.nodup_fresh, ?_, ?_, ?_, ?_⟩
  · exact fun j hj => hinv.disjoint j (List.mem_of_mem_erase hj)
  · intro j hj
    have hj2 := (hinv.nodup_live.mem_erase_iff).mp hj
    simp only [Function.update_noteq hj2.1]
    exact hinv.tagged j hj2.2
  · intro he
    apply hnone
    rw [he] at hlen
    simp only [List.length_nil] at hlen
    omega
  · intro he
    have h1 : w.g.g_context_count ≠ 1 := by
      intro h
      apply he
      apply List.length_eq_zero.mp
      omega
    rw [hsame h1]
    exact hinv.loaded hne

theorem run_eq_nil_iff (env : Env) (opts : Nat → rmw_init_options_t) (w : World)
    (cs : List Call) : run env opts w cs = [] ↔ cs = [] := by
  cases cs <;> simp [run]

/-- Along a valid interleaving in which everything succeeds, every call returns
`RMW_RET_OK`, the library is opened exactly at the calls that take the counter from `0` to `1`
and closed exactly at the calls that take it from `1` to `0`; the controller ends in its
initial state; and when the counter is non-zero after every call but the last, the remaining
calls open the library once if no context is live yet (not at all otherwise) and close it
once. -/
theorem run_valid (env : Env) (name : String) (henv : AllSucceed env name)
    (opts : Nat → rmw_init_options_t)
    (hopts : ∀ i, (opts i).implementation_identifier = rmw_introspect_cpp_identifier)
    (N : Nat) (hN : N < SIZE_MODULUS) :
    ∀ (cs : List Call) (w : World) (live fresh : List Nat),
      SeqInv N w live fresh → validFrom live fresh cs = true →
      (∀ r ∈ run env opts w cs, r.ret = RMW_RET_OK ∧
        loads r.events = (if r.before = 0 ∧ r.after = 1 then 1 else 0) ∧
        unloads r.events = (if r.before = 1 ∧ r.after = 0 then 1 else 0)) ∧
      (runFinal env opts w cs).g = Globals.initial ∧
      ((∀ r ∈ (run env opts w cs).dropLast, r.after ≠ 0) →
        totalLoads (run env opts w cs) = (if live = [] ∧ cs ≠ [] then 1 else 0) ∧
        totalUnloads (run env opts w cs) = (if cs = [] then 0 else 1)) := by
  intro cs
  induction cs with
  | nil =>
    intro w live fresh hinv hv
    simp only [validFrom, Bool.and_eq_true, List.isEmpty_iff] at hv
    refine ⟨by simp [run], ?_, by simp [run, totalLoads, totalUnloads]⟩
    have h1 := hinv.unloaded hv.1
    have h2 := hinv.count
    rw [hv.1] at h2
    simp only [runFinal, Globals.initial]
    obtain ⟨g, c⟩ := w
    obtain ⟨a, b⟩ := g
    simp_all
  | cons c cs ih =>
    intro w live fresh hinv hv
    cases c with
    | shutdown i => simp [validFrom] at hv
    | init i =>
      simp only [validFrom, Bool.and_eq_true, decide_eq_true_eq] at hv
      obtain ⟨hinv2, hret, hbef, haft, hl, hu⟩ :=
        step_init_valid env name henv opts hopts N hN w live fresh i hinv hv.1
      obtain ⟨ih1, ih2, ih3⟩ := ih _ _ _ hinv2 hv.2
      have hcs : cs ≠ [] := by
        intro h
        rw [h] at hv
        simp [validFrom] at hv
      have hrun : run env opts (step env opts w (Call.init i)).1 cs ≠ [] :=
        fun h => hcs ((run_eq_nil_iff _ _ _ _).mp h)
      refine ⟨?_, ih2, ?_⟩
      · intro r hr
        simp only [run, List.mem_cons] at hr
        rcases hr with rfl | hr
        · refine ⟨hret, ?_, ?_⟩
          · rw [hl, hbef, haft]
            by_cases hle : live = []
            · simp [hle]
            · have : live.length ≠ 0 := fun h => hle (List.length_eq_zero.mp h)
              simp [hle, this]
          · rw [hu, haft]
            simp
        · exact ih1 r hr
      · intro hall
        simp only [run, List.dropLast_cons_of_ne_nil hrun, List.mem_cons, forall_eq_or_imp]
          at hall
        obtain ⟨ht1, ht2⟩ := ih3 hall.2
        simp only [run, totalLoads, totalUnloads, List.map_cons, List.sum_cons] at ht1 ht2 ⊢
        rw [ht1, ht2, hl, hu]
        simp [hcs]
    | fini i =>
      simp only [validFrom, Bool.and_eq_true, decide_eq_true_eq] at hv
      obtain ⟨hinv2, hret, hbef, haft, hl, hu⟩ :=
        step_fini_valid env name henv opts N hN w live fresh i hinv hv.1
      obtain ⟨ih1, ih2, ih3⟩ := ih _ _ _ hinv2 hv.2
      have hll : 0 < live.length := List.length_pos_of_mem hv.1
      have hne : live ≠ [] := fun h => by rw [h] at hll; exact Nat.lt_irrefl 0 hll
      have hlen : (live.erase i).length = live.length - 1 := List.length_erase_of_mem hv.1
      refine ⟨?_, ih2, ?_⟩
      · intro r hr
        simp only [run, List.mem_cons] at hr
        rcases hr with rfl | hr
        · refine ⟨hret, ?_, ?_⟩
          · rw [hl, hbef]
            have : live.length ≠ 0 := by omega
            simp [this]
          · rw [hu, hbef, haft]
            by_cases h1 : live.length = 1
            · simp [h1]
            · simp [h1]
        · exact ih1 r hr
      · intro hall
        by_cases hcs : cs = []
        · subst hcs
          simp only [validFrom, Bool.and_eq_true, List.isEmpty_iff] at hv
          have h1 : live.length = 1 := by
            have := hv.2.1
            rw [this] at hlen
            simp only [List.length_nil] at hlen
            omega
          simp [run, totalLoads, totalUnloads, hl, hu, h1, hne]
        · have hrun : run env opts (step env opts w (Call.fini i)).1 cs ≠ [] :=
            fun h => hcs ((run_eq_nil_iff _ _ _ _).mp h)
          simp only [run, List.dropLast_cons_of_ne_nil hrun, List.mem_cons, forall_eq_or_imp]
            at hall
          obtain ⟨ht1, ht2⟩ := ih3 hall.2
          have haft0 := hall.1
          rw [haft] at haft0
          have hne2 : live.erase i ≠ [] := by
            intro h
            rw [h] at hlen
            simp only [List.length_nil] at hlen
            omega
          have h1 : live.length ≠ 1 := by omega
          simp only [run, totalLoads, totalUnloads, List.map_cons, List.sum_cons] at ht1 ht2 ⊢
          rw [ht1, ht2, hl, hu]
          simp [hcs, hne, hne2, h1]

theorem seqInv_initial (N : Nat) (ctxs : Nat → rmw_context_t) :
    SeqInv N ⟨Globals.initial, ctxs⟩ [] (List.range N) :=
  ⟨rfl, by simp, List.nodup_nil, List.nodup_range N, by simp, by simp, fun _ => rfl,
    fun h => absurd rfl h⟩

theorem allSucceed_goodEnv : AllSucceed goodEnv "rmw_fastrtps_cpp" :=
  ⟨rfl, by decide, fun _ _ => rfl, fun _ => rfl⟩

/-- C1 (as amended): for `1 ≤ N < 2^64` and every interleaving of `N` initializations and `N`
finalizations on `N` contexts that keeps each context's init before its finalize, with one
backend name configured and every backend call succeeding: every call succeeds, the library is
loaded exactly at the calls that take the live-context counter from `0` to `1` and unloaded
exactly at the calls that take it from `1` to `0`, the controller ends in its initial state,
and when the counter does not return to `0` before the last call the library is loaded exactly
once and unloaded exactly once over the whole sequence. -/
theorem C1_load_unload_at_counter_transitions (env : Env) (name : String)
    (henv : AllSucceed env name) (opts : Nat → rmw_init_options_t)
    (hopts : ∀ i, (opts i).implementation_identifier = rmw_introspect_cpp_identifier)
    (N : Nat) (hN1 : 1 ≤ N) (hN : N < SIZE_MODULUS) (calls : List Call)
    (hvalid : Valid N calls) (ctxs : Nat → rmw_context_t) :
    (∀ r ∈ run env opts ⟨Globals.initial, ctxs⟩ calls, r.ret = RMW_RET_OK ∧
      loads r.events = (if r.before = 0 ∧ r.after = 1 then 1 else 0) ∧
      unloads r.events = (if r.before = 1 ∧ r.after = 0 then 1 else 0)) ∧
    (runFinal env opts ⟨Globals.initial, ctxs⟩ calls).g = Globals.initial ∧
    ((∀ r ∈ (run env opts ⟨Globals.initial, ctxs⟩ calls).dropLast, r.after ≠ 0) →
      totalLoads (run env opts ⟨Globals.initial, ctxs⟩ calls) = 1 ∧
      totalUnloads (run env opts ⟨Globals.initial, ctxs⟩ calls) = 1) := by
  obtain ⟨h1, h2, h3⟩ := run_valid env name henv opts hopts N hN calls ⟨Globals.initial, ctxs⟩
    [] (List.range N) (seqInv_initial N ctxs) hvalid
  have hcs : calls ≠ [] := by
    intro h
    rw [h] at hvalid
    simp only [Valid, validFrom, List.isEmpty_nil, Bool.true_and, List.isEmpty_iff,
      List.range_eq_nil] at hvalid
    omega
  refine ⟨h1, h2, fun hall => ?_⟩
  have := h3 hall
  simpa [hcs] using this

/-- Witness for C1: two contexts whose lifetimes overlap. -/
theorem C1_load_unload_at_counter_transitions_witness :
    totalLoads (run goodEnv (fun _ => validOptions)
      ⟨Globals.initial, fun _ => rmw_get_zero_initialized_context⟩
      [Call.init 0, Call.init 1, Call.fini 0, Call.fini 1]) = 1 ∧
    totalUnloads (run goodEnv (fun _ => validOptions)
      ⟨Globals.initial, fun _ => rmw_get_zero_initialized_context⟩
      [Call.init 0, Call.init 1, Call.fini 0, Call.fini 1]) = 1 :=
  (C1_load_unload_at_counter_transitions goodEnv "rmw_fastrtps_cpp" allSucceed_goodEnv
    (fun _ => validOptions) (fun _ => rfl) 2 (by decide) (by rw [size_modulus_eq]; decide)
    [Call.init 0, Call.init 1, Call.fini 0, Call.fini 1] (by decide)
    (fun _ => rmw_get_zero_initialized_context)).2.2 (by decide)

/-- C1 (counterexample to the claim as stated): two contexts used one after the other form an
interleaving that keeps init before finalize for each context, every call succeeds, and the
library is loaded twice and unloaded twice. -/
theorem C1_counterexample_sequential_contexts :
    AllSucceed goodEnv "rmw_fastrtps_cpp" ∧
    Valid 2 [Call.init 0, Call.fini 0, Call.init 1, Call.fini 1] ∧
    (∀ r ∈ run goodEnv (fun _ => validOptions)
      ⟨Globals.initial, fun _ => rmw_get_zero_initialized_context⟩
      [Call.init 0, Call.fini 0, Call.init 1, Call.fini 1], r.ret = RMW_RET_OK) ∧
    totalLoads (run goodEnv (fun _ => validOptions)
      ⟨Globals.initial, fun _ => rmw_get_zero_initialized_context⟩
      [Call.init 0, Call.fini 0, Call.init 1, Call.fini 1]) = 2 ∧
    totalUnloads (run goodEnv (fun _ => validOptions)
      ⟨Globals.initial, fun _ => rmw_get_zero_initialized_context⟩
      [Call.init 0, Call.fini 0, Call.init 1, Call.fini 1]) = 2 :=
  ⟨allSucceed_goodEnv, by decide, by decide, by decide, by decide⟩


/-! ## Wait-set proxy: what reaches the backend -/

theorem translated_unwrap_array (unwrap : Nat → Nat) (collection : Option (List Nat)) :
    Translated unwrap collection (collection.map (fun _ => unwrap_array unwrap collection)) := by
  cases collection with
  | none => exact trivial
  | some slots =>
    have hmap : unwrap_array unwrap (some slots) = slots.map unwrap := by
      cases slots <;> simp [unwrap_array]
    simp only [Option.map_some', hmap, Translated, List.length_map, true_and]
    intro i hi
    simp [List.getD_eq_getElem?_getD, List.getElem?_map, List.getElem?_eq_getElem hi]

/-- C11: in delegating mode with a wait set that unwraps, `rmw_wait` enters the backend wait
exactly once; each of the four native collections is null where the caller passed null and
otherwise has the caller's element count with slot `i` the unwrapped caller slot `i`; the
events collection, the timeout and the unwrapped wait set are passed as they are. -/
theorem C11_wait_translates_collections (env : Env) (heap : Heap) (g : Globals)
    (subscriptions guard_conditions services clients events : Option (List Nat))
    (ws : rmw_wait_set_t) (wait_timeout : Option (Nat × Nat))
    (hmode : is_intermediate_mode g = true)
    (hws : unwrap_wait_set (some ws) ≠ 0) :
    ∃ args : WaitArgs,
      (rmw_wait env heap g subscriptions guard_conditions services clients events
        (some ws) wait_timeout).trace = [Event.real_wait args] ∧
      Translated (fun p => unwrap_subscription (heap.subscription_at p))
        subscriptions args.subscriptions ∧
      Translated (fun p => unwrap_guard_condition (heap.guard_condition_at p))
        guard_conditions args.guard_conditions ∧
      Translated (fun p => unwrap_service (heap.service_at p)) services args.services ∧
      Translated (fun p => unwrap_client (heap.client_at p)) clients args.clients ∧
      args.events = events ∧
      args.wait_timeout = wait_timeout ∧
      args.wait_set = unwrap_wait_set (some ws) := by
  refine ⟨{ subscriptions := subscriptions.map (fun _ => unwrap_array
              (fun p => unwrap_subscription (heap.subscription_at p)) subscriptions)
            guard_conditions := guard_conditions.map (fun _ => unwrap_array
              (fun p => unwrap_guard_condition (heap.guard_condition_at p)) guard_conditions)
            services := services.map (fun _ => unwrap_array
              (fun p => unwrap_service (heap.service_at p)) services)
            clients := clients.map (fun _ => unwrap_array
              (fun p => unwrap_client (heap.client_at p)) clients)
            events := events
            wait_set := unwrap_wait_set (some ws)
            wait_timeout := wait_timeout }, ?_, translated_unwrap_array _ _,
          translated_unwrap_array _ _, translated_unwrap_array _ _,
          translated_unwrap_array _ _, rfl, rfl, rfl⟩
  simp only [rmw_wait, hmode, if_true, hws, if_false]
  split_ifs <;> rfl

/-- Witness for C11: two subscriptions and an absent client collection. -/
theorem C11_wait_translates_collections_witness :
    ∃ args : WaitArgs,
      (rmw_wait goodEnv sampleHeap delegatingState (some [11, 12]) none none none none
        (some sampleWaitSet) (some (1, 0))).trace = [Event.real_wait args] ∧
      args.wait_set = 55 :=
  (C11_wait_translates_collections goodEnv sampleHeap delegatingState (some [11, 12]) none none
    none none sampleWaitSet (some (1, 0)) (by decide) (by decide)).elim
    (fun args h => ⟨args, h.1, h.2.2.2.2.2.2.2.trans (by decide)⟩)

/-- C12: in recording-only mode `rmw_wait` with a non-null wait set returns
`RMW_RET_TIMEOUT` for all collections and every timeout (a null timeout included), makes no
backend call and leaves the five collections as they were. -/
theorem C12_wait_recording_only_times_out (env : Env) (heap : Heap) (g : Globals)
    (subscriptions guard_conditions services clients events : Option (List Nat))
    (ws : rmw_wait_set_t) (wait_timeout : Option (Nat × Nat))
    (hmode : is_recording_only_mode g = true) :
    rmw_wait env heap g subscriptions guard_conditions services clients events (some ws)
        wait_timeout =
      ⟨RMW_RET_TIMEOUT, subscriptions, guard_conditions, services, clients, events, []⟩ := by
  have hnot : is_intermediate_mode g = false := by
    simp only [is_recording_only_mode, is_intermediate_mode] at hmode ⊢
    cases h : g.g_real_rmw <;> simp_all
  simp [rmw_wait, hnot]

/-- Witness for C12: the initial controller state, an empty collection and no timeout. -/
theorem C12_wait_recording_only_times_out_witness :
    (rmw_wait goodEnv sampleHeap Globals.initial (some [11]) (some []) none none none
      (some sampleWaitSet) none).ret = RMW_RET_TIMEOUT :=
  congrArg WaitOutcome.ret
    (C12_wait_recording_only_times_out goodEnv sampleHeap Globals.initial (some [11]) (some [])
      none none none sampleWaitSet none rfl)


/-! ## Handles made by the create verbs -/

theorem create_node_delegating (env : Env) (alloc : Alloc) (g : Globals)
    (context : Option rmw_context_t) (name namespace_ : Option String) (h : rmw_node_t)
    (tr : List Event) (hmode : is_intermediate_mode g = true)
    (hres : rmw_create_node env alloc g context name namespace_ = Run.returns ⟨some h, tr⟩) :
    ∃ ctx wrapper nm ns, context = some ctx ∧ ctx.impl = some wrapper ∧ name = some nm ∧
      namespace_ = some ns ∧
      (env.backend.create_in_context "rmw_create_node" wrapper.real_context [nm, ns]).ptr ≠ 0 ∧
      h.implementation_identifier = rmw_introspect_cpp_identifier ∧
      h.data = some (NodePayload.wrapper
        ⟨(env.backend.create_in_context "rmw_create_node" wrapper.real_context [nm, ns]).ptr,
          nm, ns⟩) ∧
      unwrap_node (some h) =
        (env.backend.create_in_context "rmw_create_node" wrapper.real_context [nm, ns]).ptr ∧
      tr = [Event.record_node nm ns,
        Event.real_create_in_context "rmw_create_node" wrapper.real_context [nm, ns]] := by
  cases context with
  | none => simp [rmw_create_node] at hres
  | some ctx =>
    cases name with
    | none => simp [rmw_create_node] at hres
    | some nm =>
      cases namespace_ with
      | none => simp [rmw_create_node] at hres
      | some ns =>
        cases hi : ctx.impl with
        | none =>
          simp only [rmw_create_node, hmode, hi] at hres
          split_ifs at hres
          simp at hres
        | some wrapper =>
          refine ⟨ctx, wrapper, nm, ns, rfl, hi, rfl, rfl, ?_⟩
          simp only [rmw_create_node, hmode, hi] at hres
          split_ifs at hres with h1 h2 h3 h4 <;>
            simp only [Run.returns.injEq, Created.mk.injEq, Option.some.injEq, reduceCtorEq,
              false_and, and_false] at hres
          obtain ⟨rfl, rfl⟩ := hres
          exact ⟨h2, rfl, rfl, rfl, rfl⟩

theorem create_publisher_delegating (env : Env) (ts : TypeSupportLib) (alloc : Alloc)
    (g : Globals) (node : Option rmw_node_t) (type_support : Option Nat)
    (topic_name : Option String) (qos_profile publisher_options : Option Nat)
    (h : rmw_publisher_t) (tr : List Event) (hmode : is_intermediate_mode g = true)
    (hres : rmw_create_publisher env ts alloc g node type_support topic_name qos_profile
      publisher_options = Run.returns ⟨some h, tr⟩) :
    ∃ n tsp topic, node = some n ∧ type_support = some tsp ∧ topic_name = some topic ∧
      unwrap_node (some n) ≠ 0 ∧
      (env.backend.create "rmw_create_publisher" [unwrap_node (some n)] [topic]).ptr ≠ 0 ∧
      h.implementation_identifier = rmw_introspect_cpp_identifier ∧
      h.data = some
        ⟨(env.backend.create "rmw_create_publisher" [unwrap_node (some n)] [topic]).ptr,
          topic, ts.extract_message_type tsp⟩ ∧
      unwrap_publisher (some h) =
        (env.backend.create "rmw_create_publisher" [unwrap_node (some n)] [topic]).ptr ∧
      tr = [Event.record_endpoint "publisher" n.name n.namespace_ topic
          (ts.extract_message_type tsp),
        Event.real_create "rmw_create_publisher" [unwrap_node (some n)] [topic]] := by
  cases node with
  | none => simp [rmw_create_publisher] at hres
  | some n =>
    cases type_support with
    | none => simp [rmw_create_publisher] at hres
    | some tsp =>
      cases topic_name with
      | none => simp [rmw_create_publisher] at hres
      | some topic =>
        cases qos_profile with
        | none => simp [rmw_create_publisher] at hres
        | some q =>
          refine ⟨n, tsp, topic, rfl, rfl, rfl, ?_⟩
          cases publisher_options with
          | none =>
            simp only [rmw_create_publisher, hmode] at hres
            split_ifs at hres <;> simp at hres
          | some po =>
            simp only [rmw_create_publisher, hmode] at hres
            split_ifs at hres with h1 h2 h3 h4 h5 <;>
              simp only [Run.returns.injEq, Created.mk.injEq, Option.some.injEq, reduceCtorEq,
                false_and, and_false] at hres
            obtain ⟨rfl, rfl⟩ := hres
            exact ⟨h2, h3, rfl, rfl, rfl, rfl⟩

theorem create_subscription_delegating (env : Env) (ts : TypeSupportLib) (alloc : Alloc)
    (g : Globals) (node : Option rmw_node_t) (type_support : Option Nat)
    (topic_name : Option String) (qos_profile subscription_options : Option Nat)
    (h : rmw_subscription_t) (tr : List Event) (hmode : is_intermediate_mode g = true)
    (hres : rmw_create_subscription env ts alloc g node type_support topic_name qos_profile subscription_options =
      Run.returns ⟨some h, tr⟩) :
    ∃ n tsp topic, node = some n ∧ type_support = some tsp ∧ topic_name = some topic ∧
      unwrap_node (some n) ≠ 0 ∧
      (env.backend.create "rmw_create_subscription" [unwrap_node (some n)] [topic]).ptr ≠ 0 ∧
      h.implementation_identifier = rmw_introspect_cpp_identifier ∧
      h.data = some
        ⟨(env.backend.create "rmw_create_subscription" [unwrap_node (some n)] [topic]).ptr,
          topic, ts.extract_message_type tsp⟩ ∧
      unwrap_subscription (some h) =
        (env.backend.create "rmw_create_subscription" [unwrap_node (some n)] [topic]).ptr ∧
      tr = [Event.record_endpoint "subscription" n.name n.namespace_ topic
          (ts.extract_message_type tsp),
        Event.real_create "rmw_create_subscription" [unwrap_node (some n)] [topic]] := by
  cases node with
  | none => simp [rmw_create_subscription] at hres
  | some n =>
    cases type_support with
    | none => simp [rmw_create_subscription] at hres
    | some tsp =>
      cases topic_name with
      | none => simp [rmw_create_subscription] at hres
      | some topic =>
        cases qos_profile with
        | none => simp [rmw_create_subscription] at hres
        | some q =>
          refine ⟨n, tsp, topic, rfl, rfl, rfl, ?_⟩
          cases subscription_options with
          | none =>
            simp only [rmw_create_subscription, hmode] at hres
            split_ifs at hres <;> simp at hres
          | some po =>
            simp only [rmw_create_subscription, hmode] at hres
            split_ifs at hres with h1 h2 h3 h4 h5 <;>
              simp only [Run.returns.injEq, Created.mk.injEq, Option.some.injEq, reduceCtorEq,
                false_and, and_false] at hres
            obtain ⟨rfl, rfl⟩ := hres
            exact ⟨h2, h3, rfl, rfl, rfl, rfl⟩

theorem create_service_delegating (env : Env) (ts : TypeSupportLib) (alloc : Alloc)
    (g : Globals) (node : Option rmw_node_t) (type_support : Option Nat)
    (service_name : Option String) (qos_profile : Option Nat)
    (h : rmw_service_t) (tr : List Event) (hmode : is_intermediate_mode g = true)
    (hres : rmw_create_service env ts alloc g node type_support service_name qos_profile =
      Run.returns ⟨some h, tr⟩) :
    ∃ n tsp sname, node = some n ∧ type_support = some tsp ∧ service_name = some sname ∧
      unwrap_node (some n) ≠ 0 ∧
      (env.backend.create "rmw_create_service" [unwrap_node (some n)] [sname]).ptr ≠ 0 ∧
      h.implementation_identifier = rmw_introspect_cpp_identifier ∧
      h.data = some
        ⟨(env.backend.create "rmw_create_service" [unwrap_node (some n)] [sname]).ptr,
          sname, ts.extract_service_type tsp⟩ ∧
      unwrap_service (some h) =
        (env.backend.create "rmw_create_service" [unwrap_node (some n)] [sname]).ptr ∧
      tr = [Event.record_endpoint "service" n.name n.namespace_ sname
          (ts.extract_service_type tsp),
        Event.real_create "rmw_create_service" [unwrap_node (some n)] [sname]] := by
  cases node with
  | none => simp [rmw_create_service] at hres
  | some n =>
    cases type_support with
    | none => simp [rmw_create_service] at hres
    | some tsp =>
      cases service_name with
      | none => simp [rmw_create_service] at hres
      | some sname =>
        cases qos_profile with
        | none => simp [rmw_create_service] at hres
        | some q =>
          refine ⟨n, tsp, sname, rfl, rfl, rfl, ?_⟩
          simp only [rmw_create_service, hmode] at hres
          split_ifs at hres with h1 h2 h3 h4 h5 <;>
            simp only [Run.returns.injEq, Created.mk.injEq, Option.some.injEq, reduceCtorEq,
              false_and, and_false] at hres
          obtain ⟨rfl, rfl⟩ := hres
          exact ⟨h2, h3, rfl, rfl, rfl, rfl⟩

theorem create_client_delegating (env : Env) (ts : TypeSupportLib) (alloc : Alloc)
    (g : Globals) (node : Option rmw_node_t) (type_support : Option Nat)
    (service_name : Option String) (qos_profile : Option Nat)
    (h : rmw_client_t) (tr : List Event) (hmode : is_intermediate_mode g = true)
    (hres : rmw_create_client env ts alloc g node type_support service_name qos_profile =
      Run.returns ⟨some h, tr⟩) :
    ∃ n tsp sname, node = some n ∧ type_support = some tsp ∧ service_name = some sname ∧
      unwrap_node (some n) ≠ 0 ∧
      (env.backend.create "rmw_create_client" [unwrap_node (some n)] [sname]).ptr ≠ 0 ∧
      h.implementation_identifier = rmw_introspect_cpp_identifier ∧
      h.data = some
        ⟨(env.backend.create "rmw_create_client" [unwrap_node (some n)] [sname]).ptr,
          sname, ts.extract_service_type tsp⟩ ∧
      unwrap_client (some h) =
        (env.backend.create "rmw_create_client" [unwrap_node (some n)] [sname]).ptr ∧
      tr = [Event.record_endpoint "client" n.name n.namespace_ sname
          (ts.extract_service_type tsp),
        Event.real_create "rmw_create_client" [unwrap_node (some n)] [sname]] := by
  cases node with
  | none => simp [rmw_create_client] at hres
  | some n =>
    cases type_support with
    | none => simp [rmw_create_client] at hres
    | some tsp =>
      cases service_name with
      | none => simp [rmw_create_client] at hres
      | some sname =>
        cases qos_profile with
        | none => simp [rmw_create_client] at hres
        | some q =>
          refine ⟨n, tsp, sname, rfl, rfl, rfl, ?_⟩
          simp only [rmw_create_client, hmode] at hres
          split_ifs at hres with h1 h2 h3 h4 h5 <;>
            simp only [Run.returns.injEq, Created.mk.injEq, Option.some.injEq, reduceCtorEq,
              false_and, and_false] at hres
          obtain ⟨rfl, rfl⟩ := hres
          exact ⟨h2, h3, rfl, rfl, rfl, rfl⟩

theorem create_wait_set_delegating (env : Env) (alloc : Alloc) (g : Globals)
    (context : Option rmw_context_t) (max_conditions : Nat) (h : rmw_wait_set_t) (tr : List Event)
    (hmode : is_intermediate_mode g = true)
    (hres : rmw_create_wait_set env alloc g context max_conditions = ⟨some h, tr⟩) :
    ∃ real_context, unwrap_context context = some real_context ∧
      (env.backend.create_in_context "rmw_create_wait_set" (some real_context) []).ptr ≠ 0 ∧
      h.implementation_identifier = rmw_introspect_cpp_identifier ∧
      h.data = some
        ⟨(env.backend.create_in_context "rmw_create_wait_set" (some real_context) []).ptr⟩ ∧
      unwrap_wait_set (some h) =
        (env.backend.create_in_context "rmw_create_wait_set" (some real_context) []).ptr ∧
      tr = [Event.real_create_in_context "rmw_create_wait_set" (some real_context) []] := by
  cases context with
  | none => simp [rmw_create_wait_set] at hres
  | some ctx =>
    cases hu : unwrap_context (some ctx) with
    | none =>
      simp only [rmw_create_wait_set, hmode, hu] at hres
      split_ifs at hres <;> simp at hres
    | some real_context =>
      refine ⟨real_context, rfl, ?_⟩
      simp only [rmw_create_wait_set, hmode, hu] at hres
      split_ifs at hres with h1 h2 h3 h4 <;>
        simp only [Created.mk.injEq, Option.some.injEq, reduceCtorEq,
          false_and, and_false] at hres
      obtain ⟨rfl, rfl⟩ := hres
      exact ⟨h2, rfl, rfl, rfl, rfl⟩

theorem create_guard_condition_delegating (env : Env) (alloc : Alloc) (g : Globals)
    (context : Option rmw_context_t) (h : rmw_guard_condition_t) (tr : List Event)
    (hmode : is_intermediate_mode g = true)
    (hres : rmw_create_guard_condition env alloc g context = ⟨some h, tr⟩) :
    ∃ real_context, unwrap_context context = some real_context ∧
      (env.backend.create_in_context "rmw_create_guard_condition" (some real_context) []).ptr ≠ 0 ∧
      h.implementation_identifier = rmw_introspect_cpp_identifier ∧
      h.data = some
        ⟨(env.backend.create_in_context "rmw_create_guard_condition" (some real_context) []).ptr⟩ ∧
      unwrap_guard_condition (some h) =
        (env.backend.create_in_context "rmw_create_guard_condition" (some real_context) []).ptr ∧
      tr = [Event.real_create_in_context "rmw_create_guard_condition" (some real_context) []] := by
  cases context with
  | none => simp [rmw_create_guard_condition] at hres
  | some ctx =>
    cases hu : unwrap_context (some ctx) with
    | none =>
      simp only [rmw_create_guard_condition, hmode, hu] at hres
      split_ifs at hres <;> simp at hres
    | some real_context =>
      refine ⟨real_context, rfl, ?_⟩
      simp only [rmw_create_guard_condition, hmode, hu] at hres
      split_ifs at hres with h1 h2 h3 h4 <;>
        simp only [Created.mk.injEq, Option.some.injEq, reduceCtorEq,
          false_and, and_false] at hres
      obtain ⟨rfl, rfl⟩ := hres
      exact ⟨h2, rfl, rfl, rfl, rfl⟩

theorem init_delegating (env : Env) (options : Option rmw_init_options_t)
    (context : Option rmw_context_t) (g : Globals)
    (hret : (rmw_init env options context g).ret = RMW_RET_OK)
    (hmode : is_intermediate_mode (rmw_init env options context g).g = true) :
    ∃ opts ctx wrapper, options = some opts ∧
      (rmw_init env options context g).context = some ctx ∧
      ctx.implementation_identifier = rmw_introspect_cpp_identifier ∧
      ctx.impl = some wrapper ∧
      (env.backend.init
        { opts with implementation_identifier := env.backend.get_implementation_identifier }
        real_context_t.zero).1 = RMW_RET_OK ∧
      unwrap_context (some ctx) = some (env.backend.init
        { opts with implementation_identifier := env.backend.get_implementation_identifier }
        real_context_t.zero).2 ∧
      (rmw_init env options context g).events = (rmw_init_first env g).2.2 ++
        [Event.real_init
          { opts with
            implementation_identifier := env.backend.get_implementation_identifier }] := by
  cases options with
  | none => simp [rmw_init, RMW_RET_INVALID_ARGUMENT, RMW_RET_OK] at hret
  | some opts =>
    cases context with
    | none => simp [rmw_init, RMW_RET_INVALID_ARGUMENT, RMW_RET_OK] at hret
    | some c =>
      by_cases hid : opts.implementation_identifier ≠ rmw_introspect_cpp_identifier
      · simp [rmw_init, hid, RMW_RET_INCORRECT_RMW_IMPLEMENTATION, RMW_RET_OK] at hret
      · by_cases hfirst : (rmw_init_first env g).1 = true
        · cases hreal : (rmw_init_first env g).2.1.g_real_rmw with
          | none =>
            simp [rmw_init, hid, hfirst, hreal, is_intermediate_mode] at hmode
          | some real =>
            by_cases hb : (env.backend.init
              { opts with
                implementation_identifier := env.backend.get_implementation_identifier }
              real_context_t.zero).1 = RMW_RET_OK
            · have hid2 : opts.implementation_identifier = rmw_introspect_cpp_identifier :=
                not_not.mp hid
              refine ⟨opts,
                { c with
                  implementation_identifier := rmw_introspect_cpp_identifier
                  impl := some ⟨some (env.backend.init
                    { opts with
                      implementation_identifier := env.backend.get_implementation_identifier }
                    real_context_t.zero).2, some real, real.get_name⟩
                  instance_id := opts.instance_id
                  actual_domain_id := (env.backend.init
                    { opts with
                      implementation_identifier := env.backend.get_implementation_identifier }
                    real_context_t.zero).2.actual_domain_id },
                ⟨some (env.backend.init
                    { opts with
                      implementation_identifier := env.backend.get_implementation_identifier }
                    real_context_t.zero).2, some real, real.get_name⟩,
                rfl, ?_, rfl, rfl, hb, rfl, ?_⟩
              · simp [rmw_init, hid2, hfirst, hreal, hb]
              · simp [rmw_init, hid2, hfirst, hreal, hb]
            · simp [rmw_init, hid, hfirst, hreal, hb] at hret
        · simp [rmw_init, hid, hfirst, RMW_RET_ERROR, RMW_RET_OK] at hret

/-- C13: in delegating mode, for each of the eight kinds, a create verb that succeeds
(`rmw_init` for a context) returns a handle whose unwrap helper yields the non-null native
handle that the backend create operation returned (for a context: the backend context as the
backend `rmw_init` left it), and the calls made end with that backend create operation:
nothing is destroyed or freed after it. -/
theorem C13_unwrap_of_created_handle (env : Env) (ts : TypeSupportLib) (alloc : Alloc)
    (g : Globals) (hmode : is_intermediate_mode g = true) :
    (∀ g0 options context, (rmw_init env options context g0).ret = RMW_RET_OK →
      (rmw_init env options context g0).g = g →
      ∃ opts, options = some opts ∧
        unwrap_context (rmw_init env options context g0).context =
          some (env.backend.init
            { opts with
              implementation_identifier := env.backend.get_implementation_identifier }
            real_context_t.zero).2 ∧
        (rmw_init env options context g0).events.getLast? = some (Event.real_init
          { opts with
            implementation_identifier := env.backend.get_implementation_identifier })) ∧
    (∀ context name namespace_ h tr,
      rmw_create_node env alloc g context name namespace_ = Run.returns ⟨some h, tr⟩ →
      ∃ real_context nm ns,
        unwrap_node (some h) =
          (env.backend.create_in_context "rmw_create_node" real_context [nm, ns]).ptr ∧
        unwrap_node (some h) ≠ 0 ∧
        tr = [Event.record_node nm ns,
          Event.real_create_in_context "rmw_create_node" real_context [nm, ns]]) ∧
    (∀ node type_support topic_name qos_profile publisher_options h tr,
      rmw_create_publisher env ts alloc g node type_support topic_name qos_profile
        publisher_options = Run.returns ⟨some h, tr⟩ →
      ∃ real_node topic record,
        unwrap_publisher (some h) =
          (env.backend.create "rmw_create_publisher" [real_node] [topic]).ptr ∧
        unwrap_publisher (some h) ≠ 0 ∧
        tr = [record, Event.real_create "rmw_create_publisher" [real_node] [topic]]) ∧
    (∀ node type_support topic_name qos_profile subscription_options h tr,
      rmw_create_subscription env ts alloc g node type_support topic_name qos_profile
        subscription_options = Run.returns ⟨some h, tr⟩ →
      ∃ real_node topic record,
        unwrap_subscription (some h) =
          (env.backend.create "rmw_create_subscription" [real_node] [topic]).ptr ∧
        unwrap_subscription (some h) ≠ 0 ∧
        tr = [record, Event.real_create "rmw_create_subscription" [real_node] [topic]]) ∧
    (∀ node type_support service_name qos_profile h tr,
      rmw_create_service env ts alloc g node type_support service_name qos_profile =
        Run.returns ⟨some h, tr⟩ →
      ∃ real_node sname record,
        unwrap_service (some h) =
          (env.backend.create "rmw_create_service" [real_node] [sname]).ptr ∧
        unwrap_service (some h) ≠ 0 ∧
        tr = [record, Event.real_create "rmw_create_service" [real_node] [sname]]) ∧
    (∀ node type_support service_name qos_profile h tr,
      rmw_create_client env ts alloc g node type_support service_name qos_profile =
        Run.returns ⟨some h, tr⟩ →
      ∃ real_node sname record,
        unwrap_client (some h) =
          (env.backend.create "rmw_create_client" [real_node] [sname]).ptr ∧
        unwrap_client (some h) ≠ 0 ∧
        tr = [record, Event.real_create "rmw_create_client" [real_node] [sname]]) ∧
    (∀ context h tr, rmw_create_guard_condition env alloc g context = ⟨some h, tr⟩ →
      ∃ real_context,
        unwrap_guard_condition (some h) =
          (env.backend.create_in_context "rmw_create_guard_condition" real_context []).ptr ∧
        unwrap_guard_condition (some h) ≠ 0 ∧
        tr = [Event.real_create_in_context "rmw_create_guard_condition" real_context []]) ∧
    (∀ context max_conditions h tr,
      rmw_create_wait_set env alloc g context max_conditions = ⟨some h, tr⟩ →
      ∃ real_context,
        unwrap_wait_set (some h) =
          (env.backend.create_in_context "rmw_create_wait_set" real_context []).ptr ∧
        unwrap_wait_set (some h) ≠ 0 ∧
        tr = [Event.real_create_in_context "rmw_create_wait_set" real_context []]) := by
  refine ⟨?_, ?_, ?_, ?_, ?_, ?_, ?_, ?_⟩
  · intro g0 options context hret hg
    obtain ⟨opts, ctx, wrapper, ho, hc, -, -, -, hu, hev⟩ :=
      init_delegating env options context g0 hret (hg ▸ hmode)
    exact ⟨opts, ho, by rw [hc, hu], by rw [hev]; simp⟩
  · intro context name namespace_ h tr hres
    obtain ⟨ctx, wrapper, nm, ns, -, -, -, -, hne, -, -, hu, htr⟩ :=
      create_node_delegating env alloc g context name namespace_ h tr hmode hres
    exact ⟨wrapper.real_context, nm, ns, hu, hu ▸ hne, htr⟩
  · intro node type_support topic_name qos_profile publisher_options h tr hres
    obtain ⟨n, tsp, topic, -, -, -, -, hne, -, -, hu, htr⟩ :=
      create_publisher_delegating env ts alloc g node type_support topic_name qos_profile
        publisher_options h tr hmode hres
    exact ⟨_, topic, _, hu, hu ▸ hne, htr⟩
  · intro node type_support topic_name qos_profile subscription_options h tr hres
    obtain ⟨n, tsp, topic, -, -, -, -, hne, -, -, hu, htr⟩ :=
      create_subscription_delegating env ts alloc g node type_support topic_name qos_profile
        subscription_options h tr hmode hres
    exact ⟨_, topic, _, hu, hu ▸ hne, htr⟩
  · intro node type_support service_name qos_profile h tr hres
    obtain ⟨n, tsp, sname, -, -, -, -, hne, -, -, hu, htr⟩ :=
      create_service_delegating env ts alloc g node type_support service_name qos_profile
        h tr hmode hres
    exact ⟨_, sname, _, hu, hu ▸ hne, htr⟩
  · intro node type_support service_name qos_profile h tr hres
    obtain ⟨n, tsp, sname, -, -, -, -, hne, -, -, hu, htr⟩ :=
      create_client_delegating env ts alloc g node type_support service_name qos_profile
        h tr hmode hres
    exact ⟨_, sname, _, hu, hu ▸ hne, htr⟩
  · intro context h tr hres
    obtain ⟨real_context, -, hne, -, -, hu, htr⟩ :=
      create_guard_condition_delegating env alloc g context h tr hmode hres
    exact ⟨some real_context, hu, hu ▸ hne, htr⟩
  · intro context max_conditions h tr hres
    obtain ⟨real_context, -, hne, -, -, hu, htr⟩ :=
      create_wait_set_delegating env alloc g context max_conditions h tr hmode hres
    exact ⟨some real_context, hu, hu ▸ hne, htr⟩

/-- Witness for C13: a publisher created on `sampleNode` in the delegating state unwraps to
the backend's handle `901`. -/
theorem C13_unwrap_of_created_handle_witness :
    is_intermediate_mode delegatingState = true ∧
    ∃ h tr, rmw_create_publisher goodEnv sampleTypeSupport fullAlloc delegatingState
        (some sampleNode) (some 1) (some "chatter") (some 2) (some 3) =
          Run.returns ⟨some h, tr⟩ ∧
      unwrap_publisher (some h) = 901 ∧ unwrap_publisher (some h) ≠ 0 :=
  ⟨by decide, samplePublisher, _, rfl, rfl,
    ((C13_unwrap_of_created_handle goodEnv sampleTypeSupport fullAlloc delegatingState
      (by decide)).2.2.1 (some sampleNode) (some 1) (some "chatter") (some 2) (some 3)
      samplePublisher _ rfl).elim (fun _ h1 => h1.elim (fun _ h2 => h2.elim
        (fun _ h3 => h3.2.1)))⟩


/-! ## The unwrap helpers -/

theorem not_intermediate_of_recording_only (g : Globals)
    (hmode : is_recording_only_mode g = true) : is_intermediate_mode g = false := by
  simp only [is_recording_only_mode, is_intermediate_mode] at hmode ⊢
  cases h : g.g_real_rmw <;> simp_all

theorem create_publisher_recording_only (env : Env) (ts : TypeSupportLib) (alloc : Alloc)
    (g : Globals) (node : Option rmw_node_t) (type_support : Option Nat)
    (topic_name : Option String) (qos_profile publisher_options : Option Nat)
    (h : rmw_publisher_t) (tr : List Event) (hmode : is_recording_only_mode g = true)
    (hres : rmw_create_publisher env ts alloc g node type_support topic_name qos_profile
      publisher_options = Run.returns ⟨some h, tr⟩) :
    h.implementation_identifier = rmw_introspect_cpp_identifier ∧ h.data = none := by
  have hnot := not_intermediate_of_recording_only g hmode
  cases node <;> cases type_support <;> cases topic_name <;> cases qos_profile <;>
    cases publisher_options <;>
    simp only [rmw_create_publisher, hnot, Bool.false_eq_true, if_false] at hres <;>
    (try split_ifs at hres) <;>
    simp only [Run.returns.injEq, Created.mk.injEq, Option.some.injEq, reduceCtorEq,
      false_and, and_false] at hres
  all_goals
    obtain ⟨rfl, -⟩ := hres
    exact ⟨rfl, rfl⟩

theorem create_subscription_recording_only (env : Env) (ts : TypeSupportLib) (alloc : Alloc)
    (g : Globals) (node : Option rmw_node_t) (type_support : Option Nat)
    (topic_name : Option String) (qos_profile subscription_options : Option Nat)
    (h : rmw_subscription_t) (tr : List Event) (hmode : is_recording_only_mode g = true)
    (hres : rmw_create_subscription env ts alloc g node type_support topic_name qos_profile subscription_options =
      Run.returns ⟨some h, tr⟩) :
    h.implementation_identifier = rmw_introspect_cpp_identifier ∧ h.data = none := by
  have hnot := not_intermediate_of_recording_only g hmode
  cases node <;> cases type_support <;> cases topic_name <;> cases qos_profile <;>
    cases subscription_options <;>
    simp only [rmw_create_subscription, hnot, Bool.false_eq_true, if_false] at hres <;>
    (try split_ifs at hres) <;>
    simp only [Run.returns.injEq, Created.mk.injEq, Option.some.injEq, reduceCtorEq,
      false_and, and_false] at hres
  all_goals
    obtain ⟨rfl, -⟩ := hres
    exact ⟨rfl, rfl⟩

theorem create_service_recording_only (env : Env) (ts : TypeSupportLib) (alloc : Alloc)
    (g : Globals) (node : Option rmw_node_t) (type_support : Option Nat)
    (service_name : Option String) (qos_profile : Option Nat)
    (h : rmw_service_t) (tr : List Event) (hmode : is_recording_only_mode g = true)
    (hres : rmw_create_service env ts alloc g node type_support service_name qos_profile =
      Run.returns ⟨some h, tr⟩) :
    h.implementation_identifier = rmw_introspect_cpp_identifier ∧ h.data = none := by
  have hnot := not_intermediate_of_recording_only g hmode
  cases node <;> cases type_support <;> cases service_name <;> cases qos_profile <;>
    simp only [rmw_create_service, hnot, Bool.false_eq_true, if_false] at hres <;>
    (try split_ifs at hres) <;>
    simp only [Run.returns.injEq, Created.mk.injEq, Option.some.injEq, reduceCtorEq,
      false_and, and_false] at hres
  all_goals
    obtain ⟨rfl, -⟩ := hres
    exact ⟨rfl, rfl⟩

theorem create_client_recording_only (env : Env) (ts : TypeSupportLib) (alloc : Alloc)
    (g : Globals) (node : Option rmw_node_t) (type_support : Option Nat)
    (service_name : Option String) (qos_profile : Option Nat)
    (h : rmw_client_t) (tr : List Event) (hmode : is_recording_only_mode g = true)
    (hres : rmw_create_client env ts alloc g node type_support service_name qos_profile =
      Run.returns ⟨some h, tr⟩) :
    h.implementation_identifier = rmw_introspect_cpp_identifier ∧ h.data = none := by
  have hnot := not_intermediate_of_recording_only g hmode
  cases node <;> cases type_support <;> cases service_name <;> cases qos_profile <;>
    simp only [rmw_create_client, hnot, Bool.false_eq_true, if_false] at hres <;>
    (try split_ifs at hres) <;>
    simp only [Run.returns.injEq, Created.mk.injEq, Option.some.injEq, reduceCtorEq,
      false_and, and_false] at hres
  all_goals
    obtain ⟨rfl, -⟩ := hres
    exact ⟨rfl, rfl⟩

theorem create_guard_condition_recording_only (env : Env) (alloc : Alloc) (g : Globals)
    (context : Option rmw_context_t) (h : rmw_guard_condition_t) (tr : List Event)
    (hmode : is_recording_only_mode g = true)
    (hres : rmw_create_guard_condition env alloc g context = ⟨some h, tr⟩) :
    h.implementation_identifier = rmw_introspect_cpp_identifier ∧ h.data = none := by
  have hnot := not_intermediate_of_recording_only g hmode
  cases context <;>
    simp only [rmw_create_guard_condition, hnot, Bool.false_eq_true, if_false] at hres <;>
    (try split_ifs at hres) <;>
    simp only [Created.mk.injEq, Option.some.injEq, reduceCtorEq,
      false_and, and_false] at hres
  all_goals
    obtain ⟨rfl, -⟩ := hres
    exact ⟨rfl, rfl⟩

theorem create_wait_set_recording_only (env : Env) (alloc : Alloc) (g : Globals)
    (context : Option rmw_context_t) (max_conditions : Nat) (h : rmw_wait_set_t) (tr : List Event)
    (hmode : is_recording_only_mode g = true)
    (hres : rmw_create_wait_set env alloc g context max_conditions = ⟨some h, tr⟩) :
    h.implementation_identifier = rmw_introspect_cpp_identifier ∧ h.data = none := by
  have hnot := not_intermediate_of_recording_only g hmode
  cases context <;>
    simp only [rmw_create_wait_set, hnot, Bool.false_eq_true, if_false] at hres <;>
    (try split_ifs at hres) <;>
    simp only [Created.mk.injEq, Option.some.injEq, reduceCtorEq,
      false_and, and_false] at hres
  all_goals
    obtain ⟨rfl, -⟩ := hres
    exact ⟨rfl, rfl⟩

theorem init_recording_only (env : Env) (options : Option rmw_init_options_t)
    (context : Option rmw_context_t) (g : Globals)
    (hret : (rmw_init env options context g).ret = RMW_RET_OK)
    (hmode : is_recording_only_mode (rmw_init env options context g).g = true) :
    ∃ ctx, (rmw_init env options context g).context = some ctx ∧
      ctx.implementation_identifier = rmw_introspect_cpp_identifier ∧ ctx.impl = none := by
  have hnot := not_intermediate_of_recording_only _ hmode
  cases options with
  | none => simp [rmw_init, RMW_RET_INVALID_ARGUMENT, RMW_RET_OK] at hret
  | some opts =>
    cases context with
    | none => simp [rmw_init, RMW_RET_INVALID_ARGUMENT, RMW_RET_OK] at hret
    | some c =>
      by_cases hid : opts.implementation_identifier ≠ rmw_introspect_cpp_identifier
      · simp [rmw_init, hid, RMW_RET_INCORRECT_RMW_IMPLEMENTATION, RMW_RET_OK] at hret
      · have hid2 : opts.implementation_identifier = rmw_introspect_cpp_identifier :=
          not_not.mp hid
        by_cases hfirst : (rmw_init_first env g).1 = true
        · cases hreal : (rmw_init_first env g).2.1.g_real_rmw with
          | none =>
            exact ⟨{ instance_id := opts.instance_id
                     implementation_identifier := rmw_introspect_cpp_identifier
                     actual_domain_id := opts.domain_id
                     impl := none },
              by simp [rmw_init, hid2, hfirst, hreal], rfl, rfl⟩
          | some real =>
            by_cases hb : (env.backend.init
              { opts with
                implementation_identifier := env.backend.get_implementation_identifier }
              real_context_t.zero).1 = RMW_RET_OK
            · simp [rmw_init, hid2, hfirst, hreal, hb, is_intermediate_mode] at hnot
            · simp [rmw_init, hid2, hfirst, hreal, hb] at hret
        · simp [rmw_init, hid, hfirst, RMW_RET_ERROR, RMW_RET_OK] at hret

/-- C14, counterexample: a publisher and a wait set that carry the identifier of another
implementation and a payload unwrap to the payload's native handle, not to null; and the node
made by `rmw_create_node` in recording-only mode carries a payload and unwraps to a non-null
value. -/
theorem C14_counterexample_foreign_tag_unwraps :
    foreignPublisher.implementation_identifier ≠ rmw_introspect_cpp_identifier ∧
    unwrap_publisher (some foreignPublisher) = 77 ∧
    foreignWaitSet.implementation_identifier ≠ rmw_introspect_cpp_identifier ∧
    unwrap_wait_set (some foreignWaitSet) = 80 ∧
    is_recording_only_mode Globals.initial = true ∧
    ∃ h tr, rmw_create_node goodEnv fullAlloc Globals.initial (some bareContext)
        (some "talker") (some "/") = Run.returns ⟨some h, tr⟩ ∧
      h.data ≠ none ∧ unwrap_node (some h) = 4096 :=
  ⟨by decide, by decide, by decide, by decide, by decide,
    ⟨rmw_introspect_cpp_identifier, some (NodePayload.impl 4096 4160), "talker", "/"⟩,
    [Event.record_node "talker" "/"], rfl, by decide, rfl⟩

/-- C14, amended: for each of the eight kinds the unwrap helper yields null for a null handle
and for a handle without payload, whatever its tag; it does not examine the tag, so replacing
the tag of a handle does not change what it unwraps to; and every handle made in recording-only
mode by `rmw_init` or by a create verb other than `rmw_create_node` has no payload and unwraps
to null. -/
theorem C14_unwrap_null_or_no_payload (env : Env) (ts : TypeSupportLib) (alloc : Alloc)
    (g : Globals) (hmode : is_recording_only_mode g = true) :
    (unwrap_context none = none ∧ unwrap_node none = 0 ∧ unwrap_publisher none = 0 ∧
      unwrap_subscription none = 0 ∧ unwrap_service none = 0 ∧ unwrap_client none = 0 ∧
      unwrap_guard_condition none = 0 ∧ unwrap_wait_set none = 0) ∧
    ((∀ c : rmw_context_t, c.impl = none → unwrap_context (some c) = none) ∧
      (∀ n : rmw_node_t, n.data = none → unwrap_node (some n) = 0) ∧
      (∀ p : rmw_publisher_t, p.data = none → unwrap_publisher (some p) = 0) ∧
      (∀ s : rmw_subscription_t, s.data = none → unwrap_subscription (some s) = 0) ∧
      (∀ s : rmw_service_t, s.data = none → unwrap_service (some s) = 0) ∧
      (∀ c : rmw_client_t, c.data = none → unwrap_client (some c) = 0) ∧
      (∀ c : rmw_guard_condition_t, c.data = none → unwrap_guard_condition (some c) = 0) ∧
      (∀ w : rmw_wait_set_t, w.data = none → unwrap_wait_set (some w) = 0)) ∧
    ((∀ (c : rmw_context_t) (tag : Identifier),
        unwrap_context (some { c with implementation_identifier := tag }) =
          unwrap_context (some c)) ∧
      (∀ (n : rmw_node_t) (tag : Identifier),
        unwrap_node (some { n with implementation_identifier := tag }) =
          unwrap_node (some n)) ∧
      (∀ (p : rmw_publisher_t) (tag : Identifier),
        unwrap_publisher (some { p with implementation_identifier := tag }) =
          unwrap_publisher (some p)) ∧
      (∀ (s : rmw_subscription_t) (tag : Identifier),
        unwrap_subscription (some { s with implementation_identifier := tag }) =
          unwrap_subscription (some s)) ∧
      (∀ (s : rmw_service_t) (tag : Identifier),
        unwrap_service (some { s with implementation_identifier := tag }) =
          unwrap_service (some s)) ∧
      (∀ (c : rmw_client_t) (tag : Identifier),
        unwrap_client (some { c with implementation_identifier := tag }) =
          unwrap_client (some c)) ∧
      (∀ (c : rmw_guard_condition_t) (tag : Identifier),
        unwrap_guard_condition (some { c with implementation_identifier := tag }) =
          unwrap_guard_condition (some c)) ∧
      (∀ (w : rmw_wait_set_t) (tag : Identifier),
        unwrap_wait_set (some { w with implementation_identifier := tag }) =
          unwrap_wait_set (some w))) ∧
    ((∀ g0 options context, (rmw_init env options context g0).ret = RMW_RET_OK →
        (rmw_init env options context g0).g = g →
        unwrap_context (rmw_init env options context g0).context = none) ∧
      (∀ node type_support topic_name qos_profile publisher_options h tr,
        rmw_create_publisher env ts alloc g node type_support topic_name qos_profile
          publisher_options = Run.returns ⟨some h, tr⟩ → unwrap_publisher (some h) = 0) ∧
      (∀ node type_support topic_name qos_profile subscription_options h tr,
        rmw_create_subscription env ts alloc g node type_support topic_name qos_profile
          subscription_options = Run.returns ⟨some h, tr⟩ →
        unwrap_subscription (some h) = 0) ∧
      (∀ node type_support service_name qos_profile h tr,
        rmw_create_service env ts alloc g node type_support service_name qos_profile =
          Run.returns ⟨some h, tr⟩ → unwrap_service (some h) = 0) ∧
      (∀ node type_support service_name qos_profile h tr,
        rmw_create_client env ts alloc g node type_support service_name qos_profile =
          Run.returns ⟨some h, tr⟩ → unwrap_client (some h) = 0) ∧
      (∀ context h tr, rmw_create_guard_condition env alloc g context = ⟨some h, tr⟩ →
        unwrap_guard_condition (some h) = 0) ∧
      (∀ context max_conditions h tr,
        rmw_create_wait_set env alloc g context max_conditions = ⟨some h, tr⟩ →
        unwrap_wait_set (some h) = 0)) := by
  refine ⟨⟨rfl, rfl, rfl, rfl, rfl, rfl, rfl, rfl⟩, ⟨?_, ?_, ?_, ?_, ?_, ?_, ?_, ?_⟩,
    ⟨?_, ?_, ?_, ?_, ?_, ?_, ?_, ?_⟩, ⟨?_, ?_, ?_, ?_, ?_, ?_, ?_⟩⟩
  · intro c hc; simp [unwrap_context, hc]
  · intro n hn; simp [unwrap_node, hn]
  · intro p hp; simp [unwrap_publisher, hp]
  · intro s hs; simp [unwrap_subscription, hs]
  · intro s hs; simp [unwrap_service, hs]
  · intro c hc; simp [unwrap_client, hc]
  · intro c hc; simp [unwrap_guard_condition, hc]
  · intro w hw; simp [unwrap_wait_set, hw]
  · intro c tag; rfl
  · intro n tag; rfl
  · intro p tag; rfl
  · intro s tag; rfl
  · intro s tag; rfl
  · intro c tag; rfl
  · intro c tag; rfl
  · intro w tag; rfl
  · intro g0 options context hret hg
    obtain ⟨ctx, hc, -, hi⟩ := init_recording_only env options context g0 hret (hg ▸ hmode)
    rw [hc]; simp [unwrap_context, hi]
  · intro node type_support topic_name qos_profile publisher_options h tr hres
    have hd := (create_publisher_recording_only env ts alloc g node type_support topic_name
      qos_profile publisher_options h tr hmode hres).2
    simp [unwrap_publisher, hd]
  · intro node type_support topic_name qos_profile subscription_options h tr hres
    have hd := (create_subscription_recording_only env ts alloc g node type_support topic_name
      qos_profile subscription_options h tr hmode hres).2
    simp [unwrap_subscription, hd]
  · intro node type_support service_name qos_profile h tr hres
    have hd := (create_service_recording_only env ts alloc g node type_support service_name
      qos_profile h tr hmode hres).2
    simp [unwrap_service, hd]
  · intro node type_support service_name qos_profile h tr hres
    have hd := (create_client_recording_only env ts alloc g node type_support service_name
      qos_profile h tr hmode hres).2
    simp [unwrap_client, hd]
  · intro context h tr hres
    have hd := (create_guard_condition_recording_only env alloc g context h tr hmode hres).2
    simp [unwrap_guard_condition, hd]
  · intro context max_conditions h tr hres
    have hd :=
      (create_wait_set_recording_only env alloc g context max_conditions h tr hmode hres).2
    simp [unwrap_wait_set, hd]

/-- Witness for C14: the publisher made on a recording-only node in the initial state unwraps
to null. -/
theorem C14_unwrap_null_or_no_payload_witness :
    is_recording_only_mode Globals.initial = true ∧
    ∃ h tr, rmw_create_publisher goodEnv sampleTypeSupport fullAlloc Globals.initial
        (some sampleNode) (some 1) (some "chatter") (some 2) (some 3) =
          Run.returns ⟨some h, tr⟩ ∧
      unwrap_publisher (some h) = 0 :=
  ⟨by decide, ⟨rmw_introspect_cpp_identifier, none, "chatter", false⟩, _, rfl,
    (C14_unwrap_null_or_no_payload goodEnv sampleTypeSupport fullAlloc Globals.initial
      (by decide)).2.2.2.2.1 (some sampleNode) (some 1) (some "chatter") (some 2) (some 3)
      ⟨rmw_introspect_cpp_identifier, none, "chatter", false⟩ _ rfl⟩


/-! ## Handles returned to the caller and the identity tag -/

/-- C15: in delegating mode `rmw_node_get_graph_guard_condition` on a tagged node that unwraps
to a non-null native node returns the very pointer that the backend operation returned, for
every backend: no wrapper is made around it (in `goodEnv` the caller receives the backend
object `5800`), whereas in recording-only mode the caller receives the interceptor's own stub.
-/
theorem C15_graph_guard_condition_returned_unwrapped :
    (∀ (env : Env) (real : RealRMW) (count p : Nat) (name namespace_ : String),
      rmw_node_get_graph_guard_condition env ⟨some real, count⟩
          (some ⟨rmw_introspect_cpp_identifier,
            some (NodePayload.wrapper ⟨p + 1, name, namespace_⟩), name, namespace_⟩) =
        (GraphGuardCondition.native (env.backend.node_get_graph_guard_condition (p + 1)),
          [Event.real_call "rmw_node_get_graph_guard_condition" [p + 1]])) ∧
    is_intermediate_mode delegatingState = true ∧
    rmw_node_get_graph_guard_condition goodEnv delegatingState (some sampleNode) =
      (GraphGuardCondition.native 5800,
        [Event.real_call "rmw_node_get_graph_guard_condition" [800]]) ∧
    rmw_node_get_graph_guard_condition goodEnv Globals.initial (some sampleNode) =
      (GraphGuardCondition.stub, []) := by
  refine ⟨?_, by decide, by decide, by decide⟩
  intro env real count p name namespace_
  simp [rmw_node_get_graph_guard_condition, is_intermediate_mode, unwrap_node]

/-- C16: `rmw_publish`, `rmw_take`, `rmw_trigger_guard_condition` and `rmw_wait` do not
compare the identity tag of their handle. Given a handle that carries the identifier of
another implementation, in recording-only mode they return `RMW_RET_OK` (`rmw_wait`:
`RMW_RET_TIMEOUT`), and in delegating mode they read the payload and forward to the backend,
for every backend; none returns `RMW_RET_INCORRECT_RMW_IMPLEMENTATION`. The sibling
`rmw_publisher_wait_for_all_acked` returns that code for the same publisher. -/
theorem C16_identity_tag_not_checked (env : Env) :
    foreignPublisher.implementation_identifier ≠ rmw_introspect_cpp_identifier ∧
    foreignSubscription.implementation_identifier ≠ rmw_introspect_cpp_identifier ∧
    foreignGuardCondition.implementation_identifier ≠ rmw_introspect_cpp_identifier ∧
    foreignWaitSet.implementation_identifier ≠ rmw_introspect_cpp_identifier ∧
    rmw_publish env Globals.initial (some foreignPublisher) (some (Buffer.data [1])) =
      ⟨RMW_RET_OK, ⟨none, none, []⟩, []⟩ ∧
    rmw_publish env delegatingState (some foreignPublisher) (some (Buffer.data [1])) =
      forward env "rmw_publish" [77] ⟨none, none, []⟩ ∧
    rmw_take env Globals.initial (some foreignSubscription) (some (Buffer.data []))
        (some true) =
      ⟨RMW_RET_OK, ⟨some false, none, [some (Buffer.data [])]⟩, []⟩ ∧
    rmw_take env delegatingState (some foreignSubscription) (some (Buffer.data []))
        (some true) =
      forward env "rmw_take" [78] ⟨some true, none, [some (Buffer.data [])]⟩ ∧
    rmw_trigger_guard_condition env Globals.initial (some foreignGuardCondition) =
      ⟨RMW_RET_OK, ⟨none, none, []⟩, []⟩ ∧
    rmw_trigger_guard_condition env delegatingState (some foreignGuardCondition) =
      forward env "rmw_trigger_guard_condition" [79] ⟨none, none, []⟩ ∧
    (rmw_wait env sampleHeap Globals.initial none none none none none (some foreignWaitSet)
      none).ret = RMW_RET_TIMEOUT ∧
    (rmw_wait env sampleHeap delegatingState none none none none none (some foreignWaitSet)
      none).trace = [Event.real_wait ⟨none, none, none, none, none, 80, none⟩] ∧
    rmw_publisher_wait_for_all_acked env delegatingState (some foreignPublisher) =
      ⟨RMW_RET_INCORRECT_RMW_IMPLEMENTATION, ⟨none, none, []⟩, []⟩ := by
  refine ⟨by decide, by decide, by decide, by decide, rfl, rfl, rfl, rfl, rfl, rfl, rfl, ?_,
    rfl⟩
  simp only [rmw_wait, delegatingState, is_intermediate_mode, foreignWaitSet, unwrap_wait_set]
  simp
  split_ifs <;> rfl

/-! ## Argument checks, unwrap failures and return codes of the forwarding verbs -/

/-- C17: in both modes (the controller state is arbitrary) a null required argument makes the
verb return `RMW_RET_INVALID_ARGUMENT` with an empty list of backend calls and the
out-parameters (and, for `rmw_wait`, the collections) as the caller passed them: `rmw_publish`
for a null publisher or message, `rmw_take` for a null subscription, message buffer or taken
flag, `rmw_take_request` and `rmw_take_response` for a null handle, header, buffer or taken
flag, `rmw_wait` for a null wait set. -/
theorem C17_null_argument_rejected (env : Env) (heap : Heap) (g : Globals) :
    (∀ publisher ros_message, publisher = none ∨ ros_message = none →
      rmw_publish env g publisher ros_message =
        ⟨RMW_RET_INVALID_ARGUMENT, ⟨none, none, []⟩, []⟩) ∧
    (∀ subscription ros_message taken,
      subscription = none ∨ ros_message = none ∨ taken = none →
      rmw_take env g subscription ros_message taken =
        ⟨RMW_RET_INVALID_ARGUMENT, ⟨taken, none, [ros_message]⟩, []⟩) ∧
    (∀ service request_header ros_request taken,
      service = none ∨ request_header = none ∨ ros_request = none ∨ taken = none →
      rmw_take_request env g service request_header ros_request taken =
        ⟨RMW_RET_INVALID_ARGUMENT, ⟨taken, none, [request_header, ros_request]⟩, []⟩) ∧
    (∀ client request_header ros_response taken,
      client = none ∨ request_header = none ∨ ros_response = none ∨ taken = none →
      rmw_take_response env g client request_header ros_response taken =
        ⟨RMW_RET_INVALID_ARGUMENT, ⟨taken, none, [request_header, ros_response]⟩, []⟩) ∧
    (∀ subscriptions guard_conditions services clients events wait_timeout,
      rmw_wait env heap g subscriptions guard_conditions services clients events none
          wait_timeout =
        ⟨RMW_RET_INVALID_ARGUMENT, subscriptions, guard_conditions, services, clients, events,
          []⟩) := by
  refine ⟨?_, ?_, ?_, ?_, ?_⟩
  · intro publisher ros_message h
    cases publisher <;> cases ros_message <;> simp_all [rmw_publish]
  · intro subscription ros_message taken h
    cases subscription <;> cases ros_message <;> cases taken <;> simp_all [rmw_take]
  · intro service request_header ros_request taken h
    cases service <;> cases request_header <;> cases ros_request <;> cases taken <;>
      simp_all [rmw_take_request]
  · intro client request_header ros_response taken h
    cases client <;> cases request_header <;> cases ros_response <;> cases taken <;>
      simp_all [rmw_take_response]
  · intro subscriptions guard_conditions services clients events wait_timeout
    rfl

/-- Witness for C17: `rmw_take` with a null taken flag in delegating mode. -/
theorem C17_null_argument_rejected_witness :
    rmw_take goodEnv delegatingState (some sampleSubscription) (some (Buffer.data [])) none =
      ⟨RMW_RET_INVALID_ARGUMENT, ⟨none, none, [some (Buffer.data [])]⟩, []⟩ :=
  (C17_null_argument_rejected goodEnv sampleHeap delegatingState).2.1
    (some sampleSubscription) (some (Buffer.data [])) none (Or.inr (Or.inr rfl))


/-- C18, counterexample: in delegating mode `rmw_shutdown` on a tagged context without
payload (its unwrap helper yields null) returns `RMW_RET_OK`, and so does `rmw_destroy_node`
on a tagged node without payload, which frees the handle. -/
theorem C18_counterexample_shutdown_without_payload :
    is_intermediate_mode delegatingState = true ∧
    bareContext.implementation_identifier = rmw_introspect_cpp_identifier ∧
    unwrap_context (some bareContext) = none ∧
    rmw_shutdown goodEnv (some bareContext) delegatingState =
      ⟨RMW_RET_OK, some bareContext, delegatingState, []⟩ ∧
    unwrap_node (some ⟨rmw_introspect_cpp_identifier, none, "talker", "/"⟩) = 0 ∧
    rmw_destroy_node goodEnv delegatingState
        (some ⟨rmw_introspect_cpp_identifier, none, "talker", "/"⟩) =
      ⟨RMW_RET_OK, ⟨none, none, []⟩, [Event.delete_handle]⟩ := by
  decide

/-- C18, amended: in delegating mode, each forwarding verb that takes one wrapped handle and
returns a code, called with non-null required arguments (and, where the verb compares it, the
interceptor's tag), returns `RMW_RET_ERROR` with no backend call and the out-parameters as
passed when the handle does not unwrap; so does `rmw_service_server_is_available` when the
node or the client does not unwrap, and `rmw_wait` when the wait set does not unwrap.
`rmw_node_get_graph_guard_condition` returns null. `rmw_shutdown` and the seven destroy verbs
return `RMW_RET_OK` without a backend call when the context or the destroyed handle does not
unwrap, the destroy verbs freeing the handle. -/
theorem C18_unwrap_failure_aborts (env : Env) (rc : Rcutils) (heap : Heap) (g : Globals)
    (hmode : is_intermediate_mode g = true) :
    (∀ (p : rmw_publisher_t) (m : Buffer), unwrap_publisher (some p) = 0 → rmw_publish env g (some p)
      (some m) = ⟨RMW_RET_ERROR, ⟨none, none, []⟩, []⟩) ∧
    (∀ (p : rmw_publisher_t) (m : Buffer), unwrap_publisher (some p) = 0 →
      rmw_publish_serialized_message env g (some p) (some m) = ⟨RMW_RET_ERROR, ⟨none, none, []⟩,
      []⟩) ∧
    (∀ (p : rmw_publisher_t) (q : Buffer), unwrap_publisher (some p) = 0 →
      rmw_publisher_get_actual_qos env g (some p) (some q) = ⟨RMW_RET_ERROR, ⟨none, none, [some q]⟩,
      []⟩) ∧
    (∀ (p : rmw_publisher_t) (k : Nat), unwrap_publisher (some p) = 0 →
      rmw_publisher_count_matched_subscriptions env g (some p) (some k) = ⟨RMW_RET_ERROR, ⟨none,
      some k, []⟩, []⟩) ∧
    (∀ (p : rmw_publisher_t), unwrap_publisher (some p) = 0 → rmw_publisher_assert_liveliness env g
      (some p) = ⟨RMW_RET_ERROR, ⟨none, none, []⟩, []⟩) ∧
    (∀ (p : rmw_publisher_t), p.implementation_identifier = rmw_introspect_cpp_identifier →
      unwrap_publisher (some p) = 0 → rmw_publisher_wait_for_all_acked env g (some p) =
      ⟨RMW_RET_ERROR, ⟨none, none, []⟩, []⟩) ∧
    (∀ (p : rmw_publisher_t) (q : Buffer), p.implementation_identifier = rmw_introspect_cpp_identifier
      → unwrap_publisher (some p) = 0 → rmw_get_gid_for_publisher env g (some p) (some q) =
      ⟨RMW_RET_ERROR, ⟨none, none, [some q]⟩, []⟩) ∧
    (∀ (e : Buffer) (p : rmw_publisher_t), unwrap_publisher (some p) = 0 → rmw_publisher_event_init
      env g (some e) (some p) = ⟨RMW_RET_ERROR, ⟨none, none, [some e]⟩, []⟩) ∧
    (∀ (s : rmw_subscription_t) (m : Buffer) (t : Bool), unwrap_subscription (some s) = 0 → rmw_take
      env g (some s) (some m) (some t) = ⟨RMW_RET_ERROR, ⟨some t, none, [some m]⟩, []⟩) ∧
    (∀ (s : rmw_subscription_t) (m : Buffer) (t : Bool) (i : Buffer), unwrap_subscription (some s) = 0
      → rmw_take_with_info env g (some s) (some m) (some t) (some i) = ⟨RMW_RET_ERROR, ⟨some t,
      none, [some m, some i]⟩, []⟩) ∧
    (∀ (s : rmw_subscription_t) (m : Buffer) (t : Bool), unwrap_subscription (some s) = 0 →
      rmw_take_serialized_message env g (some s) (some m) (some t) = ⟨RMW_RET_ERROR, ⟨some t, none,
      [some m]⟩, []⟩) ∧
    (∀ (s : rmw_subscription_t) (m : Buffer) (t : Bool) (i : Buffer), unwrap_subscription (some s) = 0
      → rmw_take_serialized_message_with_info env g (some s) (some m) (some t) (some i) =
      ⟨RMW_RET_ERROR, ⟨some t, none, [some m, some i]⟩, []⟩) ∧
    (∀ (s : rmw_subscription_t) (q : Buffer), unwrap_subscription (some s) = 0 →
      rmw_subscription_get_actual_qos env g (some s) (some q) = ⟨RMW_RET_ERROR, ⟨none, none, [some
      q]⟩, []⟩) ∧
    (∀ (s : rmw_subscription_t) (k : Nat), unwrap_subscription (some s) = 0 →
      rmw_subscription_count_matched_publishers env g (some s) (some k) = ⟨RMW_RET_ERROR, ⟨none,
      some k, []⟩, []⟩) ∧
    (∀ (e : Buffer) (s : rmw_subscription_t), unwrap_subscription (some s) = 0 →
      rmw_subscription_event_init env g (some e) (some s) = ⟨RMW_RET_ERROR, ⟨none, none, [some e]⟩,
      []⟩) ∧
    (∀ (s : rmw_service_t) (hd : Buffer) (m : Buffer) (t : Bool), unwrap_service (some s) = 0 →
      rmw_take_request env g (some s) (some hd) (some m) (some t) = ⟨RMW_RET_ERROR, ⟨some t, none,
      [some hd, some m]⟩, []⟩) ∧
    (∀ (s : rmw_service_t) (hd : Buffer) (m : Buffer), unwrap_service (some s) = 0 → rmw_send_response
      env g (some s) (some hd) (some m) = ⟨RMW_RET_ERROR, ⟨none, none, [some hd, some m]⟩, []⟩) ∧
    (∀ (s : rmw_service_t) (q : Buffer), s.implementation_identifier = rmw_introspect_cpp_identifier →
      unwrap_service (some s) = 0 → rmw_service_request_subscription_get_actual_qos env g (some s)
      (some q) = ⟨RMW_RET_ERROR, ⟨none, none, [some q]⟩, []⟩) ∧
    (∀ (s : rmw_service_t) (q : Buffer), s.implementation_identifier = rmw_introspect_cpp_identifier →
      unwrap_service (some s) = 0 → rmw_service_response_publisher_get_actual_qos env g (some s)
      (some q) = ⟨RMW_RET_ERROR, ⟨none, none, [some q]⟩, []⟩) ∧
    (∀ (c : rmw_client_t) (m : Buffer) (k : Nat), unwrap_client (some c) = 0 → rmw_send_request env g
      (some c) (some m) (some k) = ⟨RMW_RET_ERROR, ⟨none, some k, []⟩, []⟩) ∧
    (∀ (c : rmw_client_t) (hd : Buffer) (m : Buffer) (t : Bool), unwrap_client (some c) = 0 →
      rmw_take_response env g (some c) (some hd) (some m) (some t) = ⟨RMW_RET_ERROR, ⟨some t, none,
      [some hd, some m]⟩, []⟩) ∧
    (∀ (c : rmw_client_t) (q : Buffer), c.implementation_identifier = rmw_introspect_cpp_identifier →
      unwrap_client (some c) = 0 → rmw_client_request_publisher_get_actual_qos env g (some c) (some
      q) = ⟨RMW_RET_ERROR, ⟨none, none, [some q]⟩, []⟩) ∧
    (∀ (c : rmw_client_t) (q : Buffer), c.implementation_identifier = rmw_introspect_cpp_identifier →
      unwrap_client (some c) = 0 → rmw_client_response_subscription_get_actual_qos env g (some c)
      (some q) = ⟨RMW_RET_ERROR, ⟨none, none, [some q]⟩, []⟩) ∧
    (∀ (c : rmw_client_t) (q : Buffer), c.implementation_identifier = rmw_introspect_cpp_identifier →
      unwrap_client (some c) = 0 → rmw_get_gid_for_client env g (some c) (some q) = ⟨RMW_RET_ERROR,
      ⟨none, none, [some q]⟩, []⟩) ∧
    (∀ (n : rmw_node_t) (topic : String) (k : Nat), unwrap_node (some n) = 0 → rmw_count_publishers
      env g (some n) (some topic) (some k) = ⟨RMW_RET_ERROR, ⟨none, some k, []⟩, []⟩) ∧
    (∀ (n : rmw_node_t) (topic : String) (k : Nat), unwrap_node (some n) = 0 → rmw_count_subscribers
      env g (some n) (some topic) (some k) = ⟨RMW_RET_ERROR, ⟨none, some k, []⟩, []⟩) ∧
    (∀ (n : rmw_node_t) (a : Buffer) (b : Buffer), unwrap_node (some n) = 0 → rmw_get_node_names env
      rc g (some n) (some a) (some b) = ⟨RMW_RET_ERROR, ⟨none, none, [some a, some b]⟩, []⟩) ∧
    (∀ (n : rmw_node_t) (a : Buffer) (b : Buffer) (c : Buffer), unwrap_node (some n) = 0 →
      rmw_get_node_names_with_enclaves env rc g (some n) (some a) (some b) (some c) =
      ⟨RMW_RET_ERROR, ⟨none, none, [some a, some b, some c]⟩, []⟩) ∧
    (∀ (n : rmw_node_t) (al : Nat) (b : Buffer), unwrap_node (some n) = 0 →
      rmw_get_topic_names_and_types env rc g (some n) (some al) (some b) = ⟨RMW_RET_ERROR, ⟨none,
      none, [some b]⟩, []⟩) ∧
    (∀ (n : rmw_node_t) (al : Nat) (b : Buffer), unwrap_node (some n) = 0 →
      rmw_get_service_names_and_types env rc g (some n) (some al) (some b) = ⟨RMW_RET_ERROR, ⟨none,
      none, [some b]⟩, []⟩) ∧
    (∀ (n : rmw_node_t) (al : Nat) (nn : String) (ns : String) (b : Buffer), unwrap_node (some n) = 0
      → rmw_get_publisher_names_and_types_by_node env rc g (some n) (some al) (some nn) (some ns)
      (some b) = ⟨RMW_RET_ERROR, ⟨none, none, [some b]⟩, []⟩) ∧
    (∀ (n : rmw_node_t) (al : Nat) (nn : String) (ns : String) (b : Buffer), unwrap_node (some n) = 0
      → rmw_get_subscriber_names_and_types_by_node env rc g (some n) (some al) (some nn) (some ns)
      (some b) = ⟨RMW_RET_ERROR, ⟨none, none, [some b]⟩, []⟩) ∧
    (∀ (n : rmw_node_t) (al : Nat) (nn : String) (ns : String) (b : Buffer), unwrap_node (some n) = 0
      → rmw_get_service_names_and_types_by_node env rc g (some n) (some al) (some nn) (some ns)
      (some b) = ⟨RMW_RET_ERROR, ⟨none, none, [some b]⟩, []⟩) ∧
    (∀ (n : rmw_node_t) (al : Nat) (nn : String) (ns : String) (b : Buffer), unwrap_node (some n) = 0
      → rmw_get_client_names_and_types_by_node env rc g (some n) (some al) (some nn) (some ns) (some
      b) = ⟨RMW_RET_ERROR, ⟨none, none, [some b]⟩, []⟩) ∧
    (∀ (c : rmw_guard_condition_t), unwrap_guard_condition (some c) = 0 → rmw_trigger_guard_condition
      env g (some c) = ⟨RMW_RET_ERROR, ⟨none, none, []⟩, []⟩) ∧
    (∀ (n : rmw_node_t) (c : rmw_client_t) (av : Bool),
      unwrap_node (some n) = 0 ∨ unwrap_client (some c) = 0 →
      rmw_service_server_is_available env g (some n) (some c) (some av) =
        ⟨RMW_RET_ERROR, ⟨some av, none, []⟩, []⟩) ∧
    (∀ (w : rmw_wait_set_t) subscriptions guard_conditions services clients events
        wait_timeout, unwrap_wait_set (some w) = 0 →
      rmw_wait env heap g subscriptions guard_conditions services clients events (some w)
          wait_timeout =
        ⟨RMW_RET_ERROR, subscriptions, guard_conditions, services, clients, events, []⟩) ∧
    (∀ (n : rmw_node_t), unwrap_node (some n) = 0 →
      rmw_node_get_graph_guard_condition env g (some n) = (GraphGuardCondition.null, [])) ∧
    (∀ (c : rmw_context_t), c.implementation_identifier = rmw_introspect_cpp_identifier →
      unwrap_context (some c) = none →
      (rmw_shutdown env (some c) g).ret = RMW_RET_OK ∧
        ∀ real_context, Event.real_shutdown real_context ∉ (rmw_shutdown env (some c) g).events) ∧
    (∀ (n : rmw_node_t),
      n.implementation_identifier = rmw_introspect_cpp_identifier →
      unwrap_node (some n) = 0 →
      (rmw_destroy_node env g (some n)).ret = RMW_RET_OK ∧
        ((rmw_destroy_node env g (some n)).trace = [Event.delete_handle] ∨
          (rmw_destroy_node env g (some n)).trace =
            [Event.delete_wrapper, Event.delete_handle])) ∧
    (∀ (node : Option rmw_node_t) (p : rmw_publisher_t),
      p.implementation_identifier = rmw_introspect_cpp_identifier →
      unwrap_publisher (some p) = 0 →
      (rmw_destroy_publisher env g node (some p)).ret = RMW_RET_OK ∧
        ((rmw_destroy_publisher env g node (some p)).trace = [Event.delete_handle] ∨
          (rmw_destroy_publisher env g node (some p)).trace =
            [Event.delete_wrapper, Event.delete_handle])) ∧
    (∀ (node : Option rmw_node_t) (s : rmw_subscription_t),
      s.implementation_identifier = rmw_introspect_cpp_identifier →
      unwrap_subscription (some s) = 0 →
      (rmw_destroy_subscription env g node (some s)).ret = RMW_RET_OK ∧
        ((rmw_destroy_subscription env g node (some s)).trace = [Event.delete_handle] ∨
          (rmw_destroy_subscription env g node (some s)).trace =
            [Event.delete_wrapper, Event.delete_handle])) ∧
    (∀ (node : Option rmw_node_t) (s : rmw_service_t),
      s.implementation_identifier = rmw_introspect_cpp_identifier →
      unwrap_service (some s) = 0 →
      (rmw_destroy_service env g node (some s)).ret = RMW_RET_OK ∧
        ((rmw_destroy_service env g node (some s)).trace = [Event.delete_handle] ∨
          (rmw_destroy_service env g node (some s)).trace =
            [Event.delete_wrapper, Event.delete_handle])) ∧
    (∀ (node : Option rmw_node_t) (c : rmw_client_t),
      c.implementation_identifier = rmw_introspect_cpp_identifier →
      unwrap_client (some c) = 0 →
      (rmw_destroy_client env g node (some c)).ret = RMW_RET_OK ∧
        ((rmw_destroy_client env g node (some c)).trace = [Event.delete_handle] ∨
          (rmw_destroy_client env g node (some c)).trace =
            [Event.delete_wrapper, Event.delete_handle])) ∧
    (∀ (c : rmw_guard_condition_t),
      c.implementation_identifier = rmw_introspect_cpp_identifier →
      unwrap_guard_condition (some c) = 0 →
      (rmw_destroy_guard_condition env g (some c)).ret = RMW_RET_OK ∧
        ((rmw_destroy_guard_condition env g (some c)).trace = [Event.delete_handle] ∨
          (rmw_destroy_guard_condition env g (some c)).trace =
            [Event.delete_wrapper, Event.delete_handle])) ∧
    (∀ (w : rmw_wait_set_t),
      w.implementation_identifier = rmw_introspect_cpp_identifier →
      unwrap_wait_set (some w) = 0 →
      (rmw_destroy_wait_set env g (some w)).ret = RMW_RET_OK ∧
        ((rmw_destroy_wait_set env g (some w)).trace = [Event.delete_handle] ∨
          (rmw_destroy_wait_set env g (some w)).trace =
            [Event.delete_wrapper, Event.delete_handle])) := by
  refine ⟨?_, ?_, ?_, ?_, ?_, ?_, ?_, ?_, ?_, ?_, ?_, ?_, ?_, ?_, ?_, ?_, ?_, ?_, ?_, ?_, ?_, ?_, ?_, ?_, ?_, ?_, ?_, ?_, ?_, ?_, ?_, ?_, ?_, ?_, ?_, ?_, ?_, ?_, ?_, ?_, ?_, ?_, ?_, ?_, ?_, ?_⟩
  · intro p m hu
    simp [rmw_publish, hmode, hu]
  · intro p m hu
    simp [rmw_publish_serialized_message, hmode, hu]
  · intro p q hu
    simp [rmw_publisher_get_actual_qos, hmode, hu]
  · intro p k hu
    simp [rmw_publisher_count_matched_subscriptions, hmode, hu]
  · intro p hu
    simp [rmw_publisher_assert_liveliness, hmode, hu]
  · intro p htag hu
    simp [rmw_publisher_wait_for_all_acked, hmode, hu, htag]
  · intro p q htag hu
    simp [rmw_get_gid_for_publisher, hmode, hu, htag]
  · intro e p hu
    simp [rmw_publisher_event_init, hmode, hu]
  · intro s m t hu
    simp [rmw_take, hmode, hu]
  · intro s m t i hu
    simp [rmw_take_with_info, hmode, hu]
  · intro s m t hu
    simp [rmw_take_serialized_message, hmode, hu]
  · intro s m t i hu
    simp [rmw_take_serialized_message_with_info, hmode, hu]
  · intro s q hu
    simp [rmw_subscription_get_actual_qos, hmode, hu]
  · intro s k hu
    simp [rmw_subscription_count_matched_publishers, hmode, hu]
  · intro e s hu
    simp [rmw_subscription_event_init, hmode, hu]
  · intro s hd m t hu
    simp [rmw_take_request, hmode, hu]
  · intro s hd m hu
    simp [rmw_send_response, hmode, hu]
  · intro s q htag hu
    simp [rmw_service_request_subscription_get_actual_qos, hmode, hu, htag]
  · intro s q htag hu
    simp [rmw_service_response_publisher_get_actual_qos, hmode, hu, htag]
  · intro c m k hu
    simp [rmw_send_request, hmode, hu]
  · intro c hd m t hu
    simp [rmw_take_response, hmode, hu]
  · intro c q htag hu
    simp [rmw_client_request_publisher_get_actual_qos, hmode, hu, htag]
  · intro c q htag hu
    simp [rmw_client_response_subscription_get_actual_qos, hmode, hu, htag]
  · intro c q htag hu
    simp [rmw_get_gid_for_client, hmode, hu, htag]
  · intro n topic k hu
    simp [rmw_count_publishers, hmode, hu]
  · intro n topic k hu
    simp [rmw_count_subscribers, hmode, hu]
  · intro n a b hu
    simp [rmw_get_node_names, hmode, hu]
  · intro n a b c hu
    simp [rmw_get_node_names_with_enclaves, hmode, hu]
  · intro n al b hu
    simp [rmw_get_topic_names_and_types, hmode, hu]
  · intro n al b hu
    simp [rmw_get_service_names_and_types, hmode, hu]
  · intro n al nn ns b hu
    simp [rmw_get_publisher_names_and_types_by_node, hmode, hu]
  · intro n al nn ns b hu
    simp [rmw_get_subscriber_names_and_types_by_node, hmode, hu]
  · intro n al nn ns b hu
    simp [rmw_get_service_names_and_types_by_node, hmode, hu]
  · intro n al nn ns b hu
    simp [rmw_get_client_names_and_types_by_node, hmode, hu]
  · intro c hu
    simp [rmw_trigger_guard_condition, hmode, hu]
  · intro n c av hu
    simp [rmw_service_server_is_available, hmode, hu]
  · intro w subscriptions guard_conditions services clients events wait_timeout hu
    simp [rmw_wait, hmode, hu]
  · intro n hu
    simp only [rmw_node_get_graph_guard_condition, hmode, hu]
    split_ifs <;> rfl
  · intro c htag hu
    have hev : ∀ real_context, Event.real_shutdown real_context ∉
        (if (!(env.getenv "RMW_INTROSPECT_AUTO_EXPORT" == some "0")) = true then
          match env.getenv "RMW_INTROSPECT_OUTPUT" with
          | some output_path => [Event.export_to_json output_path]
          | none => []
        else ([] : List Event)) := by
      intro real_context
      split_ifs
      · cases env.getenv "RMW_INTROSPECT_OUTPUT" <;> simp
      · simp
    cases hi : c.impl with
    | none =>
      simp only [rmw_shutdown, htag, hmode, hi, ne_eq, not_true_eq_false, if_false]
      exact ⟨trivial, hev⟩
    | some wrapper =>
      have hrc : wrapper.real_context = none := by
        simpa [unwrap_context, hi] using hu
      simp only [rmw_shutdown, htag, hmode, hi, hrc, ne_eq, not_true_eq_false, if_false]
      exact ⟨trivial, hev⟩
  · intro n htag hu
    cases hd : n.data with
    | none => simp [rmw_destroy_node, hmode, htag, hd]
    | some payload =>
      simp [rmw_destroy_node, hmode, htag, hd, hu]
  · intro node p htag hu
    cases hd : p.data with
    | none => simp [rmw_destroy_publisher, hmode, htag, hd]
    | some wrapper =>
      have hw : wrapper.real_publisher = 0 := by
        simpa [unwrap_publisher, hd] using hu
      simp [rmw_destroy_publisher, hmode, htag, hd, hw]
  · intro node s htag hu
    cases hd : s.data with
    | none => simp [rmw_destroy_subscription, hmode, htag, hd]
    | some wrapper =>
      have hw : wrapper.real_subscription = 0 := by
        simpa [unwrap_subscription, hd] using hu
      simp [rmw_destroy_subscription, hmode, htag, hd, hw]
  · intro node s htag hu
    cases hd : s.data with
    | none => simp [rmw_destroy_service, hmode, htag, hd]
    | some wrapper =>
      have hw : wrapper.real_service = 0 := by
        simpa [unwrap_service, hd] using hu
      simp [rmw_destroy_service, hmode, htag, hd, hw]
  · intro node c htag hu
    cases hd : c.data with
    | none => simp [rmw_destroy_client, hmode, htag, hd]
    | some wrapper =>
      have hw : wrapper.real_client = 0 := by
        simpa [unwrap_client, hd] using hu
      simp [rmw_destroy_client, hmode, htag, hd, hw]
  · intro c htag hu
    cases hd : c.data with
    | none => simp [rmw_destroy_guard_condition, hmode, htag, hd]
    | some wrapper =>
      have hw : wrapper.real_guard_condition = 0 := by
        simpa [unwrap_guard_condition, hd] using hu
      simp [rmw_destroy_guard_condition, hmode, htag, hd, hw]
  · intro w htag hu
    cases hd : w.data with
    | none => simp [rmw_destroy_wait_set, hmode, htag, hd]
    | some wrapper =>
      have hw : wrapper.real_wait_set = 0 := by
        simpa [unwrap_wait_set, hd] using hu
      simp [rmw_destroy_wait_set, hmode, htag, hd, hw]

/-- Witness for C18: `rmw_take` on a tagged subscription without payload in the delegating
state. -/
theorem C18_unwrap_failure_aborts_witness :
    is_intermediate_mode delegatingState = true ∧
    rmw_take goodEnv delegatingState (some ⟨rmw_introspect_cpp_identifier, none⟩)
        (some (Buffer.data [])) (some true) =
      ⟨RMW_RET_ERROR, ⟨some true, none, [some (Buffer.data [])]⟩, []⟩ :=
  ⟨by decide,
    (C18_unwrap_failure_aborts goodEnv ⟨fun _ => true, RMW_RET_OK⟩ sampleHeap delegatingState
      (by decide)).2.2.2.2.2.2.2.2.1 ⟨rmw_introspect_cpp_identifier, none⟩ (Buffer.data [])
      true rfl⟩


/-- C19: in delegating mode, a forwarding verb whose handle unwraps (called with non-null
required arguments and, where the verb compares it, the interceptor's tag) makes exactly one
call of the backend operation of the same name on the native handle, and its return code and
out-parameters are those of that call, whatever the code is. The same holds for the return
code of `rmw_shutdown`, `rmw_context_fini`, `rmw_wait`, the two event verbs and the seven
destroy verbs. -/
theorem C19_backend_code_passed_through (env : Env) (rc : Rcutils) (heap : Heap) (g : Globals)
    (hmode : is_intermediate_mode g = true) :
    (∀ symbol natives out,
      (forward env symbol natives out).ret = (env.backend.call symbol natives out).1 ∧
      (forward env symbol natives out).out = (env.backend.call symbol natives out).2 ∧
      (forward env symbol natives out).trace = [Event.real_call symbol natives]) ∧
    (∀ (p : rmw_publisher_t) (m : Buffer), unwrap_publisher (some p) ≠ 0 → rmw_publish env g (some p)
      (some m) = forward env "rmw_publish" [unwrap_publisher (some p)] ⟨none, none, []⟩) ∧
    (∀ (p : rmw_publisher_t) (m : Buffer), unwrap_publisher (some p) ≠ 0 →
      rmw_publish_serialized_message env g (some p) (some m) = forward env
      "rmw_publish_serialized_message" [unwrap_publisher (some p)] ⟨none, none, []⟩) ∧
    (∀ (p : rmw_publisher_t) (q : Buffer), unwrap_publisher (some p) ≠ 0 →
      rmw_publisher_get_actual_qos env g (some p) (some q) = forward env
      "rmw_publisher_get_actual_qos" [unwrap_publisher (some p)] ⟨none, none, [some q]⟩) ∧
    (∀ (p : rmw_publisher_t) (k : Nat), unwrap_publisher (some p) ≠ 0 →
      rmw_publisher_count_matched_subscriptions env g (some p) (some k) = forward env
      "rmw_publisher_count_matched_subscriptions" [unwrap_publisher (some p)] ⟨none, some k, []⟩) ∧
    (∀ (p : rmw_publisher_t), unwrap_publisher (some p) ≠ 0 → rmw_publisher_assert_liveliness env g
      (some p) = forward env "rmw_publisher_assert_liveliness" [unwrap_publisher (some p)] ⟨none,
      none, []⟩) ∧
    (∀ (p : rmw_publisher_t), p.implementation_identifier = rmw_introspect_cpp_identifier →
      unwrap_publisher (some p) ≠ 0 → rmw_publisher_wait_for_all_acked env g (some p) = forward env
      "rmw_publisher_wait_for_all_acked" [unwrap_publisher (some p)] ⟨none, none, []⟩) ∧
    (∀ (p : rmw_publisher_t) (q : Buffer), p.implementation_identifier = rmw_introspect_cpp_identifier
      → unwrap_publisher (some p) ≠ 0 → rmw_get_gid_for_publisher env g (some p) (some q) = forward
      env "rmw_get_gid_for_publisher" [unwrap_publisher (some p)] ⟨none, none, [some q]⟩) ∧
    (∀ (e : Buffer) (p : rmw_publisher_t), unwrap_publisher (some p) ≠ 0 → rmw_publisher_event_init
      env g (some e) (some p) = forward env "rmw_publisher_event_init" [unwrap_publisher (some p)]
      ⟨none, none, [some e]⟩) ∧
    (∀ (s : rmw_subscription_t) (m : Buffer) (t : Bool), unwrap_subscription (some s) ≠ 0 → rmw_take
      env g (some s) (some m) (some t) = forward env "rmw_take" [unwrap_subscription (some s)] ⟨some
      t, none, [some m]⟩) ∧
    (∀ (s : rmw_subscription_t) (m : Buffer) (t : Bool) (i : Buffer), unwrap_subscription (some s) ≠ 0
      → rmw_take_with_info env g (some s) (some m) (some t) (some i) = forward env
      "rmw_take_with_info" [unwrap_subscription (some s)] ⟨some t, none, [some m, some i]⟩) ∧
    (∀ (s : rmw_subscription_t) (m : Buffer) (t : Bool), unwrap_subscription (some s) ≠ 0 →
      rmw_take_serialized_message env g (some s) (some m) (some t) = forward env
      "rmw_take_serialized_message" [unwrap_subscription (some s)] ⟨some t, none, [some m]⟩) ∧
    (∀ (s : rmw_subscription_t) (m : Buffer) (t : Bool) (i : Buffer), unwrap_subscription (some s) ≠ 0
      → rmw_take_serialized_message_with_info env g (some s) (some m) (some t) (some i) = forward
      env "rmw_take_serialized_message_with_info" [unwrap_subscription (some s)] ⟨some t, none,
      [some m, some i]⟩) ∧
    (∀ (s : rmw_subscription_t) (q : Buffer), unwrap_subscription (some s) ≠ 0 →
      rmw_subscription_get_actual_qos env g (some s) (some q) = forward env
      "rmw_subscription_get_actual_qos" [unwrap_subscription (some s)] ⟨none, none, [some q]⟩) ∧
    (∀ (s : rmw_subscription_t) (k : Nat), unwrap_subscription (some s) ≠ 0 →
      rmw_subscription_count_matched_publishers env g (some s) (some k) = forward env
      "rmw_subscription_count_matched_publishers" [unwrap_subscription (some s)] ⟨none, some k, []⟩) ∧
    (∀ (e : Buffer) (s : rmw_subscription_t), unwrap_subscription (some s) ≠ 0 →
      rmw_subscription_event_init env g (some e) (some s) = forward env
      "rmw_subscription_event_init" [unwrap_subscription (some s)] ⟨none, none, [some e]⟩) ∧
    (∀ (s : rmw_service_t) (hd : Buffer) (m : Buffer) (t : Bool), unwrap_service (some s) ≠ 0 →
      rmw_take_request env g (some s) (some hd) (some m) (some t) = forward env "rmw_take_request"
      [unwrap_service (some s)] ⟨some t, none, [some hd, some m]⟩) ∧
    (∀ (s : rmw_service_t) (hd : Buffer) (m : Buffer), unwrap_service (some s) ≠ 0 → rmw_send_response
      env g (some s) (some hd) (some m) = forward env "rmw_send_response" [unwrap_service (some s)]
      ⟨none, none, [some hd, some m]⟩) ∧
    (∀ (s : rmw_service_t) (q : Buffer), s.implementation_identifier = rmw_introspect_cpp_identifier →
      unwrap_service (some s) ≠ 0 → rmw_service_request_subscription_get_actual_qos env g (some s)
      (some q) = forward env "rmw_service_request_subscription_get_actual_qos" [unwrap_service (some
      s)] ⟨none, none, [some q]⟩) ∧
    (∀ (s : rmw_service_t) (q : Buffer), s.implementation_identifier = rmw_introspect_cpp_identifier →
      unwrap_service (some s) ≠ 0 → rmw_service_response_publisher_get_actual_qos env g (some s)
      (some q) = forward env "rmw_service_response_publisher_get_actual_qos" [unwrap_service (some
      s)] ⟨none, none, [some q]⟩) ∧
    (∀ (c : rmw_client_t) (m : Buffer) (k : Nat), unwrap_client (some c) ≠ 0 → rmw_send_request env g
      (some c) (some m) (some k) = forward env "rmw_send_request" [unwrap_client (some c)] ⟨none,
      some k, []⟩) ∧
    (∀ (c : rmw_client_t) (hd : Buffer) (m : Buffer) (t : Bool), unwrap_client (some c) ≠ 0 →
      rmw_take_response env g (some c) (some hd) (some m) (some t) = forward env "rmw_take_response"
      [unwrap_client (some c)] ⟨some t, none, [some hd, some m]⟩) ∧
    (∀ (c : rmw_client_t) (q : Buffer), c.implementation_identifier = rmw_introspect_cpp_identifier →
      unwrap_client (some c) ≠ 0 → rmw_client_request_publisher_get_actual_qos env g (some c) (some
      q) = forward env "rmw_client_request_publisher_get_actual_qos" [unwrap_client (some c)] ⟨none,
      none, [some q]⟩) ∧
    (∀ (c : rmw_client_t) (q : Buffer), c.implementation_identifier = rmw_introspect_cpp_identifier →
      unwrap_client (some c) ≠ 0 → rmw_client_response_subscription_get_actual_qos env g (some c)
      (some q) = forward env "rmw_client_response_subscription_get_actual_qos" [unwrap_client (some
      c)] ⟨none, none, [some q]⟩) ∧
    (∀ (c : rmw_client_t) (q : Buffer), c.implementation_identifier = rmw_introspect_cpp_identifier →
      unwrap_client (some c) ≠ 0 → rmw_get_gid_for_client env g (some c) (some q) = forward env
      "rmw_get_gid_for_client" [unwrap_client (some c)] ⟨none, none, [some q]⟩) ∧
    (∀ (n : rmw_node_t) (topic : String) (k : Nat), unwrap_node (some n) ≠ 0 → rmw_count_publishers
      env g (some n) (some topic) (some k) = forward env "rmw_count_publishers" [unwrap_node (some
      n)] ⟨none, some k, []⟩) ∧
    (∀ (n : rmw_node_t) (topic : String) (k : Nat), unwrap_node (some n) ≠ 0 → rmw_count_subscribers
      env g (some n) (some topic) (some k) = forward env "rmw_count_subscribers" [unwrap_node (some
      n)] ⟨none, some k, []⟩) ∧
    (∀ (n : rmw_node_t) (a : Buffer) (b : Buffer), unwrap_node (some n) ≠ 0 → rmw_get_node_names env
      rc g (some n) (some a) (some b) = forward env "rmw_get_node_names" [unwrap_node (some n)]
      ⟨none, none, [some a, some b]⟩) ∧
    (∀ (n : rmw_node_t) (a : Buffer) (b : Buffer) (c : Buffer), unwrap_node (some n) ≠ 0 →
      rmw_get_node_names_with_enclaves env rc g (some n) (some a) (some b) (some c) = forward env
      "rmw_get_node_names_with_enclaves" [unwrap_node (some n)] ⟨none, none, [some a, some b, some
      c]⟩) ∧
    (∀ (n : rmw_node_t) (al : Nat) (b : Buffer), unwrap_node (some n) ≠ 0 →
      rmw_get_topic_names_and_types env rc g (some n) (some al) (some b) = forward env
      "rmw_get_topic_names_and_types" [unwrap_node (some n)] ⟨none, none, [some b]⟩) ∧
    (∀ (n : rmw_node_t) (al : Nat) (b : Buffer), unwrap_node (some n) ≠ 0 →
      rmw_get_service_names_and_types env rc g (some n) (some al) (some b) = forward env
      "rmw_get_service_names_and_types" [unwrap_node (some n)] ⟨none, none, [some b]⟩) ∧
    (∀ (n : rmw_node_t) (al : Nat) (nn : String) (ns : String) (b : Buffer), unwrap_node (some n) ≠ 0
      → rmw_get_publisher_names_and_types_by_node env rc g (some n) (some al) (some nn) (some ns)
      (some b) = forward env "rmw_get_publisher_names_and_types_by_node" [unwrap_node (some n)]
      ⟨none, none, [some b]⟩) ∧
    (∀ (n : rmw_node_t) (al : Nat) (nn : String) (ns : String) (b : Buffer), unwrap_node (some n) ≠ 0
      → rmw_get_subscriber_names_and_types_by_node env rc g (some n) (some al) (some nn) (some ns)
      (some b) = forward env "rmw_get_subscriber_names_and_types_by_node" [unwrap_node (some n)]
      ⟨none, none, [some b]⟩) ∧
    (∀ (n : rmw_node_t) (al : Nat) (nn : String) (ns : String) (b : Buffer), unwrap_node (some n) ≠ 0
      → rmw_get_service_names_and_types_by_node env rc g (some n) (some al) (some nn) (some ns)
      (some b) = forward env "rmw_get_service_names_and_types_by_node" [unwrap_node (some n)] ⟨none,
      none, [some b]⟩) ∧
    (∀ (n : rmw_node_t) (al : Nat) (nn : String) (ns : String) (b : Buffer), unwrap_node (some n) ≠ 0
      → rmw_get_client_names_and_types_by_node env rc g (some n) (some al) (some nn) (some ns) (some
      b) = forward env "rmw_get_client_names_and_types_by_node" [unwrap_node (some n)] ⟨none, none,
      [some b]⟩) ∧
    (∀ (c : rmw_guard_condition_t), unwrap_guard_condition (some c) ≠ 0 → rmw_trigger_guard_condition
      env g (some c) = forward env "rmw_trigger_guard_condition" [unwrap_guard_condition (some c)]
      ⟨none, none, []⟩) ∧
    (∀ (c : rmw_context_t) (real_context : real_context_t),
      c.implementation_identifier = rmw_introspect_cpp_identifier →
      unwrap_context (some c) = some real_context →
      (rmw_shutdown env (some c) g).ret = (env.backend.shutdown real_context).1) ∧
    (∀ (c : rmw_context_t) (real_context : real_context_t),
      c.implementation_identifier = rmw_introspect_cpp_identifier →
      unwrap_context (some c) = some real_context →
      (rmw_context_fini env (some c) g).ret = env.backend.context_fini real_context) ∧
    (∀ (w : rmw_wait_set_t) subscriptions guard_conditions services clients events
        wait_timeout, unwrap_wait_set (some w) ≠ 0 →
      ∃ args : WaitArgs,
        (rmw_wait env heap g subscriptions guard_conditions services clients events (some w)
          wait_timeout).trace = [Event.real_wait args] ∧
        (rmw_wait env heap g subscriptions guard_conditions services clients events (some w)
          wait_timeout).ret = (env.backend.wait args).ret) ∧
    (∀ (e i : Buffer) (t : Bool),
      rmw_take_event env g (some e) (some i) (some t) =
        forward env "rmw_take_event" [] ⟨some t, none, [some i]⟩) ∧
    (∀ (e : Buffer),
      rmw_event_fini env g (some e) = forward env "rmw_event_fini" [] ⟨none, none, [some e]⟩) ∧
    (∀ (n : rmw_node_t),
      n.implementation_identifier = rmw_introspect_cpp_identifier →
      unwrap_node (some n) ≠ 0 →
      (rmw_destroy_node env g (some n)).ret =
        (env.backend.call "rmw_destroy_node" [unwrap_node (some n)] ⟨none, none, []⟩).1) ∧
    (∀ (n : rmw_node_t) (p : rmw_publisher_t),
      p.implementation_identifier = rmw_introspect_cpp_identifier →
      unwrap_node (some n) ≠ 0 → unwrap_publisher (some p) ≠ 0 →
      (rmw_destroy_publisher env g (some n) (some p)).ret =
        (env.backend.call "rmw_destroy_publisher" [unwrap_node (some n), unwrap_publisher (some p)]
          ⟨none, none, []⟩).1) ∧
    (∀ (n : rmw_node_t) (s : rmw_subscription_t),
      s.implementation_identifier = rmw_introspect_cpp_identifier →
      unwrap_node (some n) ≠ 0 → unwrap_subscription (some s) ≠ 0 →
      (rmw_destroy_subscription env g (some n) (some s)).ret =
        (env.backend.call "rmw_destroy_subscription" [unwrap_node (some n), unwrap_subscription (some s)]
          ⟨none, none, []⟩).1) ∧
    (∀ (n : rmw_node_t) (s : rmw_service_t),
      s.implementation_identifier = rmw_introspect_cpp_identifier →
      unwrap_node (some n) ≠ 0 → unwrap_service (some s) ≠ 0 →
      (rmw_destroy_service env g (some n) (some s)).ret =
        (env.backend.call "rmw_destroy_service" [unwrap_node (some n), unwrap_service (some s)]
          ⟨none, none, []⟩).1) ∧
    (∀ (n : rmw_node_t) (c : rmw_client_t),
      c.implementation_identifier = rmw_introspect_cpp_identifier →
      unwrap_node (some n) ≠ 0 → unwrap_client (some c) ≠ 0 →
      (rmw_destroy_client env g (some n) (some c)).ret =
        (env.backend.call "rmw_destroy_client" [unwrap_node (some n), unwrap_client (some c)]
          ⟨none, none, []⟩).1) ∧
    (∀ (c : rmw_guard_condition_t),
      c.implementation_identifier = rmw_introspect_cpp_identifier →
      unwrap_guard_condition (some c) ≠ 0 →
      (rmw_destroy_guard_condition env g (some c)).ret =
        (env.backend.call "rmw_destroy_guard_condition" [unwrap_guard_condition (some c)] ⟨none, none, []⟩).1) ∧
    (∀ (w : rmw_wait_set_t),
      w.implementation_identifier = rmw_introspect_cpp_identifier →
      unwrap_wait_set (some w) ≠ 0 →
      (rmw_destroy_wait_set env g (some w)).ret =
        (env.backend.call "rmw_destroy_wait_set" [unwrap_wait_set (some w)] ⟨none, none, []⟩).1) := by
  refine ⟨?_, ?_, ?_, ?_, ?_, ?_, ?_, ?_, ?_, ?_, ?_, ?_, ?_, ?_, ?_, ?_, ?_, ?_, ?_, ?_, ?_, ?_, ?_, ?_, ?_, ?_, ?_, ?_, ?_, ?_, ?_, ?_, ?_, ?_, ?_, ?_, ?_, ?_, ?_, ?_, ?_, ?_, ?_, ?_, ?_, ?_, ?_, ?_⟩
  · intro symbol natives out
    exact ⟨rfl, rfl, rfl⟩
  · intro p m hu
    simp [rmw_publish, hmode, hu]
  · intro p m hu
    simp [rmw_publish_serialized_message, hmode, hu]
  · intro p q hu
    simp [rmw_publisher_get_actual_qos, hmode, hu]
  · intro p k hu
    simp [rmw_publisher_count_matched_subscriptions, hmode, hu]
  · intro p hu
    simp [rmw_publisher_assert_liveliness, hmode, hu]
  · intro p htag hu
    simp [rmw_publisher_wait_for_all_acked, hmode, hu, htag]
  · intro p q htag hu
    simp [rmw_get_gid_for_publisher, hmode, hu, htag]
  · intro e p hu
    simp [rmw_publisher_event_init, hmode, hu]
  · intro s m t hu
    simp [rmw_take, hmode, hu]
  · intro s m t i hu
    simp [rmw_take_with_info, hmode, hu]
  · intro s m t hu
    simp [rmw_take_serialized_message, hmode, hu]
  · intro s m t i hu
    simp [rmw_take_serialized_message_with_info, hmode, hu]
  · intro s q hu
    simp [rmw_subscription_get_actual_qos, hmode, hu]
  · intro s k hu
    simp [rmw_subscription_count_matched_publishers, hmode, hu]
  · intro e s hu
    simp [rmw_subscription_event_init, hmode, hu]
  · intro s hd m t hu
    simp [rmw_take_request, hmode, hu]
  · intro s hd m hu
    simp [rmw_send_response, hmode, hu]
  · intro s q htag hu
    simp [rmw_service_request_subscription_get_actual_qos, hmode, hu, htag]
  · intro s q htag hu
    simp [rmw_service_response_publisher_get_actual_qos, hmode, hu, htag]
  · intro c m k hu
    simp [rmw_send_request, hmode, hu]
  · intro c hd m t hu
    simp [rmw_take_response, hmode, hu]
  · intro c q htag hu
    simp [rmw_client_request_publisher_get_actual_qos, hmode, hu, htag]
  · intro c q htag hu
    simp [rmw_client_response_subscription_get_actual_qos, hmode, hu, htag]
  · intro c q htag hu
    simp [rmw_get_gid_for_client, hmode, hu, htag]
  · intro n topic k hu
    simp [rmw_count_publishers, hmode, hu]
  · intro n topic k hu
    simp [rmw_count_subscribers, hmode, hu]
  · intro n a b hu
    simp [rmw_get_node_names, hmode, hu]
  · intro n a b c hu
    simp [rmw_get_node_names_with_enclaves, hmode, hu]
  · intro n al b hu
    simp [rmw_get_topic_names_and_types, hmode, hu]
  · intro n al b hu
    simp [rmw_get_service_names_and_types, hmode, hu]
  · intro n al nn ns b hu
    simp [rmw_get_publisher_names_and_types_by_node, hmode, hu]
  · intro n al nn ns b hu
    simp [rmw_get_subscriber_names_and_types_by_node, hmode, hu]
  · intro n al nn ns b hu
    simp [rmw_get_service_names_and_types_by_node, hmode, hu]
  · intro n al nn ns b hu
    simp [rmw_get_client_names_and_types_by_node, hmode, hu]
  · intro c hu
    simp [rmw_trigger_guard_condition, hmode, hu]
  · intro c real_context htag hu
    cases hi : c.impl with
    | none => simp [unwrap_context, hi] at hu
    | some wrapper =>
      have hrc : wrapper.real_context = some real_context := by
        simpa [unwrap_context, hi] using hu
      simp [rmw_shutdown, htag, hmode, hi, hrc]
  · intro c real_context htag hu
    cases hi : c.impl with
    | none => simp [unwrap_context, hi] at hu
    | some wrapper =>
      have hrc : wrapper.real_context = some real_context := by
        simpa [unwrap_context, hi] using hu
      by_cases hr : env.backend.context_fini real_context = RMW_RET_OK
      · cases hg : g.g_real_rmw with
        | none => simp [is_intermediate_mode, hg] at hmode
        | some real =>
          simp only [rmw_context_fini, rmw_context_fini_wrapper, htag, hmode, hi, hrc, hr, hg,
            ne_eq, not_true_eq_false, if_false]
          split_ifs <;> rfl
      · simp [rmw_context_fini, rmw_context_fini_wrapper, htag, hmode, hi, hrc, hr]
  · intro w subscriptions guard_conditions services clients events wait_timeout hu
    simp only [rmw_wait, hmode, hu, if_true, if_false]
    split_ifs <;> exact ⟨_, rfl, rfl⟩
  · intro e i t
    simp [rmw_take_event, hmode]
  · intro e
    simp [rmw_event_fini, hmode]
  · intro n htag hu
    cases hd : n.data with
    | none => simp [unwrap_node, hd] at hu
    | some payload =>
      simp only [rmw_destroy_node, hmode, htag, hd, hu, ne_eq, not_true_eq_false,
        not_false_eq_true, if_true, if_false]
      split_ifs with hr
      · exact hr.symm
      · rfl
  · intro n p htag hn hu
    cases hd : p.data with
    | none => simp [unwrap_publisher, hd] at hu
    | some wrapper =>
      have hw : unwrap_publisher (some p) = wrapper.real_publisher := by
        simp [unwrap_publisher, hd]
      rw [hw] at hu ⊢
      simp only [rmw_destroy_publisher, hmode, htag, hd, hu, hn, ne_eq, not_true_eq_false,
        not_false_eq_true, if_true, if_false]
      split_ifs with hr
      · exact hr.symm
      · rfl
  · intro n s htag hn hu
    cases hd : s.data with
    | none => simp [unwrap_subscription, hd] at hu
    | some wrapper =>
      have hw : unwrap_subscription (some s) = wrapper.real_subscription := by
        simp [unwrap_subscription, hd]
      rw [hw] at hu ⊢
      simp only [rmw_destroy_subscription, hmode, htag, hd, hu, hn, ne_eq, not_true_eq_false,
        not_false_eq_true, if_true, if_false]
      split_ifs with hr
      · exact hr.symm
      · rfl
  · intro n s htag hn hu
    cases hd : s.data with
    | none => simp [unwrap_service, hd] at hu
    | some wrapper =>
      have hw : unwrap_service (some s) = wrapper.real_service := by
        simp [unwrap_service, hd]
      rw [hw] at hu ⊢
      simp only [rmw_destroy_service, hmode, htag, hd, hu, hn, ne_eq, not_true_eq_false,
        not_false_eq_true, if_true, if_false]
      split_ifs with hr
      · exact hr.symm
      · rfl
  · intro n c htag hn hu
    cases hd : c.data with
    | none => simp [unwrap_client, hd] at hu
    | some wrapper =>
      have hw : unwrap_client (some c) = wrapper.real_client := by
        simp [unwrap_client, hd]
      rw [hw] at hu ⊢
      simp only [rmw_destroy_client, hmode, htag, hd, hu, hn, ne_eq, not_true_eq_false,
        not_false_eq_true, if_true, if_false]
      split_ifs with hr
      · exact hr.symm
      · rfl
  · intro c htag hu
    cases hd : c.data with
    | none => simp [unwrap_guard_condition, hd] at hu
    | some wrapper =>
      have hw : unwrap_guard_condition (some c) = wrapper.real_guard_condition := by
        simp [unwrap_guard_condition, hd]
      rw [hw] at hu ⊢
      simp only [rmw_destroy_guard_condition, hmode, htag, hd, hu, ne_eq, not_true_eq_false,
        not_false_eq_true, if_true, if_false]
      split_ifs with hr
      · exact hr.symm
      · rfl
  · intro w htag hu
    cases hd : w.data with
    | none => simp [unwrap_wait_set, hd] at hu
    | some wrapper =>
      have hw : unwrap_wait_set (some w) = wrapper.real_wait_set := by
        simp [unwrap_wait_set, hd]
      rw [hw] at hu ⊢
      simp only [rmw_destroy_wait_set, hmode, htag, hd, hu, ne_eq, not_true_eq_false,
        not_false_eq_true, if_true, if_false]
      split_ifs with hr
      · exact hr.symm
      · rfl

/-- Witness for C19: the backend's `RMW_RET_TIMEOUT` reaches the caller of `rmw_publish`. -/
theorem C19_backend_code_passed_through_witness :
    is_intermediate_mode delegatingState = true ∧
    (rmw_publish timeoutEnv delegatingState (some samplePublisher)
      (some (Buffer.data [1]))).ret = RMW_RET_TIMEOUT :=
  ⟨by decide,
    (congrArg CallOutcome.ret
      ((C19_backend_code_passed_through timeoutEnv ⟨fun _ => true, RMW_RET_OK⟩ sampleHeap
        delegatingState (by decide)).2.1 samplePublisher (Buffer.data [1])
        (by decide))).trans (by decide)⟩


/-! ## Destroy verbs -/

/-- C20, counterexample: in delegating mode `rmw_destroy_publisher` applied to a publisher
with a wrapper and a null node returns `RMW_RET_ERROR` without invoking the backend destroy
operation; and applied to a publisher whose wrapper holds a null native handle it frees wrapper
and handle and returns `RMW_RET_OK`, again without invoking the backend. -/
theorem C20_counterexample_destroy_without_backend :
    is_intermediate_mode delegatingState = true ∧
    samplePublisher.data ≠ none ∧
    rmw_destroy_publisher goodEnv delegatingState none (some samplePublisher) =
      ⟨RMW_RET_ERROR, ⟨none, none, []⟩, []⟩ ∧
    rmw_destroy_publisher goodEnv delegatingState (some sampleNode)
        (some ⟨rmw_introspect_cpp_identifier, some ⟨0, "chatter", "std_msgs/msg/String"⟩,
          "chatter", false⟩) =
      ⟨RMW_RET_OK, ⟨none, none, []⟩, [Event.delete_wrapper, Event.delete_handle]⟩ := by
  decide

/-- C20, amended: in delegating mode, for each of the seven destroy verbs applied to a tagged
handle whose wrapper holds a non-null native handle (and, for the four node-scoped verbs, with a
node that unwraps): the backend destroy operation is called first on the native handle; a
code other than `RMW_RET_OK` is returned as it is and nothing is freed; on `RMW_RET_OK` the
wrapper and then the handle are freed and `RMW_RET_OK` is returned. When the node does not
unwrap, the node-scoped verbs return `RMW_RET_ERROR` with no backend call and nothing freed;
when the wrapper holds a null native handle, wrapper and handle are freed without a backend
call and `RMW_RET_OK` is returned. -/
theorem C20_destroy_backend_first (env : Env) (g : Globals)
    (hmode : is_intermediate_mode g = true) :
    (∀ (n : rmw_node_t) (payload : NodePayload),
      n.implementation_identifier = rmw_introspect_cpp_identifier →
      n.data = some payload →
      (unwrap_node (some n) ≠ 0 →
        ((env.backend.call "rmw_destroy_node" [unwrap_node (some n)] ⟨none, none, []⟩).1 ≠ RMW_RET_OK →
          rmw_destroy_node env g (some n) =
            ⟨(env.backend.call "rmw_destroy_node" [unwrap_node (some n)] ⟨none, none, []⟩).1,
              ⟨none, none, []⟩, [Event.real_call "rmw_destroy_node" [unwrap_node (some n)]]⟩) ∧
        ((env.backend.call "rmw_destroy_node" [unwrap_node (some n)] ⟨none, none, []⟩).1 = RMW_RET_OK →
          rmw_destroy_node env g (some n) =
            ⟨RMW_RET_OK, ⟨none, none, []⟩, [Event.real_call "rmw_destroy_node" [unwrap_node (some n)],
              Event.delete_wrapper, Event.delete_handle]⟩)) ∧
      (unwrap_node (some n) = 0 →
        rmw_destroy_node env g (some n) =
          ⟨RMW_RET_OK, ⟨none, none, []⟩, [Event.delete_wrapper, Event.delete_handle]⟩)) ∧
    (∀ (node : Option rmw_node_t) (p : rmw_publisher_t) (wrapper : PublisherWrapper),
      p.implementation_identifier = rmw_introspect_cpp_identifier →
      p.data = some wrapper →
      (wrapper.real_publisher ≠ 0 → unwrap_node node ≠ 0 →
        ((env.backend.call "rmw_destroy_publisher" [unwrap_node node, wrapper.real_publisher] ⟨none, none, []⟩).1 ≠ RMW_RET_OK →
          rmw_destroy_publisher env g node (some p) =
            ⟨(env.backend.call "rmw_destroy_publisher" [unwrap_node node, wrapper.real_publisher] ⟨none, none, []⟩).1,
              ⟨none, none, []⟩, [Event.real_call "rmw_destroy_publisher" [unwrap_node node, wrapper.real_publisher]]⟩) ∧
        ((env.backend.call "rmw_destroy_publisher" [unwrap_node node, wrapper.real_publisher] ⟨none, none, []⟩).1 = RMW_RET_OK →
          rmw_destroy_publisher env g node (some p) =
            ⟨RMW_RET_OK, ⟨none, none, []⟩, [Event.real_call "rmw_destroy_publisher" [unwrap_node node, wrapper.real_publisher],
              Event.delete_wrapper, Event.delete_handle]⟩)) ∧
      (wrapper.real_publisher ≠ 0 → unwrap_node node = 0 →
        rmw_destroy_publisher env g node (some p) = ⟨RMW_RET_ERROR, ⟨none, none, []⟩, []⟩) ∧
      (wrapper.real_publisher = 0 →
        rmw_destroy_publisher env g node (some p) =
          ⟨RMW_RET_OK, ⟨none, none, []⟩, [Event.delete_wrapper, Event.delete_handle]⟩)) ∧
    (∀ (node : Option rmw_node_t) (s : rmw_subscription_t) (wrapper : SubscriptionWrapper),
      s.implementation_identifier = rmw_introspect_cpp_identifier →
      s.data = some wrapper →
      (wrapper.real_subscription ≠ 0 → unwrap_node node ≠ 0 →
        ((env.backend.call "rmw_destroy_subscription" [unwrap_node node, wrapper.real_subscription] ⟨none, none, []⟩).1 ≠ RMW_RET_OK →
          rmw_destroy_subscription env g node (some s) =
            ⟨(env.backend.call "rmw_destroy_subscription" [unwrap_node node, wrapper.real_subscription] ⟨none, none, []⟩).1,
              ⟨none, none, []⟩, [Event.real_call "rmw_destroy_subscription" [unwrap_node node, wrapper.real_subscription]]⟩) ∧
        ((env.backend.call "rmw_destroy_subscription" [unwrap_node node, wrapper.real_subscription] ⟨none, none, []⟩).1 = RMW_RET_OK →
          rmw_destroy_subscription env g node (some s) =
            ⟨RMW_RET_OK, ⟨none, none, []⟩, [Event.real_call "rmw_destroy_subscription" [unwrap_node node, wrapper.real_subscription],
              Event.delete_wrapper, Event.delete_handle]⟩)) ∧
      (wrapper.real_subscription ≠ 0 → unwrap_node node = 0 →
        rmw_destroy_subscription env g node (some s) = ⟨RMW_RET_ERROR, ⟨none, none, []⟩, []⟩) ∧
      (wrapper.real_subscription = 0 →
        rmw_destroy_subscription env g node (some s) =
          ⟨RMW_RET_OK, ⟨none, none, []⟩, [Event.delete_wrapper, Event.delete_handle]⟩)) ∧
    (∀ (node : Option rmw_node_t) (s : rmw_service_t) (wrapper : ServiceWrapper),
      s.implementation_identifier = rmw_introspect_cpp_identifier →
      s.data = some wrapper →
      (wrapper.real_service ≠ 0 → unwrap_node node ≠ 0 →
        ((env.backend.call "rmw_destroy_service" [unwrap_node node, wrapper.real_service] ⟨none, none, []⟩).1 ≠ RMW_RET_OK →
          rmw_destroy_service env g node (some s) =
            ⟨(env.backend.call "rmw_destroy_service" [unwrap_node node, wrapper.real_service] ⟨none, none, []⟩).1,
              ⟨none, none, []⟩, [Event.real_call "rmw_destroy_service" [unwrap_node node, wrapper.real_service]]⟩) ∧
        ((env.backend.call "rmw_destroy_service" [unwrap_node node, wrapper.real_service] ⟨none, none, []⟩).1 = RMW_RET_OK →
          rmw_destroy_service env g node (some s) =
            ⟨RMW_RET_OK, ⟨none, none, []⟩, [Event.real_call "rmw_destroy_service" [unwrap_node node, wrapper.real_service],
              Event.delete_wrapper, Event.delete_handle]⟩)) ∧
      (wrapper.real_service ≠ 0 → unwrap_node node = 0 →
        rmw_destroy_service env g node (some s) = ⟨RMW_RET_ERROR, ⟨none, none, []⟩, []⟩) ∧
      (wrapper.real_service = 0 →
        rmw_destroy_service env g node (some s) =
          ⟨RMW_RET_OK, ⟨none, none, []⟩, [Event.delete_wrapper, Event.delete_handle]⟩)) ∧
    (∀ (node : Option rmw_node_t) (c : rmw_client_t) (wrapper : ClientWrapper),
      c.implementation_identifier = rmw_introspect_cpp_identifier →
      c.data = some wrapper →
      (wrapper.real_client ≠ 0 → unwrap_node node ≠ 0 →
        ((env.backend.call "rmw_destroy_client" [unwrap_node node, wrapper.real_client] ⟨none, none, []⟩).1 ≠ RMW_RET_OK →
          rmw_destroy_client env g node (some c) =
            ⟨(env.backend.call "rmw_destroy_client" [unwrap_node node, wrapper.real_client] ⟨none, none, []⟩).1,
              ⟨none, none, []⟩, [Event.real_call "rmw_destroy_client" [unwrap_node node, wrapper.real_client]]⟩) ∧
        ((env.backend.call "rmw_destroy_client" [unwrap_node node, wrapper.real_client] ⟨none, none, []⟩).1 = RMW_RET_OK →
          rmw_destroy_client env g node (some c) =
            ⟨RMW_RET_OK, ⟨none, none, []⟩, [Event.real_call "rmw_destroy_client" [unwrap_node node, wrapper.real_client],
              Event.delete_wrapper, Event.delete_handle]⟩)) ∧
      (wrapper.real_client ≠ 0 → unwrap_node node = 0 →
        rmw_destroy_client env g node (some c) = ⟨RMW_RET_ERROR, ⟨none, none, []⟩, []⟩) ∧
      (wrapper.real_client = 0 →
        rmw_destroy_client env g node (some c) =
          ⟨RMW_RET_OK, ⟨none, none, []⟩, [Event.delete_wrapper, Event.delete_handle]⟩)) ∧
    (∀ (c : rmw_guard_condition_t) (wrapper : GuardConditionWrapper),
      c.implementation_identifier = rmw_introspect_cpp_identifier →
      c.data = some wrapper →
      (wrapper.real_guard_condition ≠ 0 →
        ((env.backend.call "rmw_destroy_guard_condition" [wrapper.real_guard_condition] ⟨none, none, []⟩).1 ≠ RMW_RET_OK →
          rmw_destroy_guard_condition env g (some c) =
            ⟨(env.backend.call "rmw_destroy_guard_condition" [wrapper.real_guard_condition] ⟨none, none, []⟩).1,
              ⟨none, none, []⟩, [Event.real_call "rmw_destroy_guard_condition" [wrapper.real_guard_condition]]⟩) ∧
        ((env.backend.call "rmw_destroy_guard_condition" [wrapper.real_guard_condition] ⟨none, none, []⟩).1 = RMW_RET_OK →
          rmw_destroy_guard_condition env g (some c) =
            ⟨RMW_RET_OK, ⟨none, none, []⟩, [Event.real_call "rmw_destroy_guard_condition" [wrapper.real_guard_condition],
              Event.delete_wrapper, Event.delete_handle]⟩)) ∧
      (wrapper.real_guard_condition = 0 →
        rmw_destroy_guard_condition env g (some c) =
          ⟨RMW_RET_OK, ⟨none, none, []⟩, [Event.delete_wrapper, Event.delete_handle]⟩)) ∧
    (∀ (w : rmw_wait_set_t) (wrapper : WaitSetWrapper),
      w.implementation_identifier = rmw_introspect_cpp_identifier →
      w.data = some wrapper →
      (wrapper.real_wait_set ≠ 0 →
        ((env.backend.call "rmw_destroy_wait_set" [wrapper.real_wait_set] ⟨none, none, []⟩).1 ≠ RMW_RET_OK →
          rmw_destroy_wait_set env g (some w) =
            ⟨(env.backend.call "rmw_destroy_wait_set" [wrapper.real_wait_set] ⟨none, none, []⟩).1,
              ⟨none, none, []⟩, [Event.real_call "rmw_destroy_wait_set" [wrapper.real_wait_set]]⟩) ∧
        ((env.backend.call "rmw_destroy_wait_set" [wrapper.real_wait_set] ⟨none, none, []⟩).1 = RMW_RET_OK →
          rmw_destroy_wait_set env g (some w) =
            ⟨RMW_RET_OK, ⟨none, none, []⟩, [Event.real_call "rmw_destroy_wait_set" [wrapper.real_wait_set],
              Event.delete_wrapper, Event.delete_handle]⟩)) ∧
      (wrapper.real_wait_set = 0 →
        rmw_destroy_wait_set env g (some w) =
          ⟨RMW_RET_OK, ⟨none, none, []⟩, [Event.delete_wrapper, Event.delete_handle]⟩)) := by
  refine ⟨?_, ?_, ?_, ?_, ?_, ?_, ?_⟩
  · intro n payload htag hd
    refine ⟨fun hu => ⟨fun hr => ?_, fun hr => ?_⟩, fun hu => ?_⟩
    · simp [rmw_destroy_node, hmode, htag, hd, hu, hr]
    · simp [rmw_destroy_node, hmode, htag, hd, hu, hr]
    · simp [rmw_destroy_node, hmode, htag, hd, hu]
  · intro node p wrapper htag hd
    refine ⟨fun hw hn => ⟨fun hr => ?_, fun hr => ?_⟩, fun hw hn => ?_, fun hw => ?_⟩
    · simp [rmw_destroy_publisher, hmode, htag, hd, hw, hn, hr]
    · simp [rmw_destroy_publisher, hmode, htag, hd, hw, hn, hr]
    · simp [rmw_destroy_publisher, hmode, htag, hd, hw, hn]
    · simp [rmw_destroy_publisher, hmode, htag, hd, hw]
  · intro node s wrapper htag hd
    refine ⟨fun hw hn => ⟨fun hr => ?_, fun hr => ?_⟩, fun hw hn => ?_, fun hw => ?_⟩
    · simp [rmw_destroy_subscription, hmode, htag, hd, hw, hn, hr]
    · simp [rmw_destroy_subscription, hmode, htag, hd, hw, hn, hr]
    · simp [rmw_destroy_subscription, hmode, htag, hd, hw, hn]
    · simp [rmw_destroy_subscription, hmode, htag, hd, hw]
  · intro node s wrapper htag hd
    refine ⟨fun hw hn => ⟨fun hr => ?_, fun hr => ?_⟩, fun hw hn => ?_, fun hw => ?_⟩
    · simp [rmw_destroy_service, hmode, htag, hd, hw, hn, hr]
    · simp [rmw_destroy_service, hmode, htag, hd, hw, hn, hr]
    · simp [rmw_destroy_service, hmode, htag, hd, hw, hn]
    · simp [rmw_destroy_service, hmode, htag, hd, hw]
  · intro node c wrapper htag hd
    refine ⟨fun hw hn => ⟨fun hr => ?_, fun hr => ?_⟩, fun hw hn => ?_, fun hw => ?_⟩
    · simp [rmw_destroy_client, hmode, htag, hd, hw, hn, hr]
    · simp [rmw_destroy_client, hmode, htag, hd, hw, hn, hr]
    · simp [rmw_destroy_client, hmode, htag, hd, hw, hn]
    · simp [rmw_destroy_client, hmode, htag, hd, hw]
  · intro c wrapper htag hd
    refine ⟨fun hw => ⟨fun hr => ?_, fun hr => ?_⟩, fun hw => ?_⟩
    · simp [rmw_destroy_guard_condition, hmode, htag, hd, hw, hr]
    · simp [rmw_destroy_guard_condition, hmode, htag, hd, hw, hr]
    · simp [rmw_destroy_guard_condition, hmode, htag, hd, hw]
  · intro w wrapper htag hd
    refine ⟨fun hw => ⟨fun hr => ?_, fun hr => ?_⟩, fun hw => ?_⟩
    · simp [rmw_destroy_wait_set, hmode, htag, hd, hw, hr]
    · simp [rmw_destroy_wait_set, hmode, htag, hd, hw, hr]
    · simp [rmw_destroy_wait_set, hmode, htag, hd, hw]

/-- Witness for C20: the backend refuses to destroy a publisher with `RMW_RET_TIMEOUT`; the
code is returned and nothing is freed. -/
theorem C20_destroy_backend_first_witness :
    is_intermediate_mode delegatingState = true ∧
    rmw_destroy_publisher timeoutEnv delegatingState (some sampleNode) (some samplePublisher) =
      ⟨RMW_RET_TIMEOUT, ⟨none, none, []⟩, [Event.real_call "rmw_destroy_publisher" [800, 901]]⟩ :=
  ⟨by decide,
    ((C20_destroy_backend_first timeoutEnv delegatingState (by decide)).2.1 (some sampleNode)
      samplePublisher ⟨901, "chatter", "std_msgs/msg/String"⟩ rfl rfl).1 (by decide)
      (by decide) |>.1 (by decide)⟩


/-! ## Recording-only mode -/

theorem create_node_recording_only (env : Env) (alloc : Alloc) (g : Globals)
    (context : Option rmw_context_t) (name namespace_ : Option String) (h : rmw_node_t)
    (tr : List Event) (hmode : is_recording_only_mode g = true)
    (hres : rmw_create_node env alloc g context name namespace_ = Run.returns ⟨some h, tr⟩) :
    name = some h.name ∧ namespace_ = some h.namespace_ ∧
      h.implementation_identifier = rmw_introspect_cpp_identifier ∧
      h.data = some (NodePayload.impl alloc.name_address alloc.namespace_address) ∧
      alloc.name_address ≠ 0 ∧ alloc.namespace_address ≠ 0 ∧
      tr = [Event.record_node h.name h.namespace_] := by
  have hnot := not_intermediate_of_recording_only g hmode
  cases context <;> cases name <;> cases namespace_ <;>
    simp only [rmw_create_node, hnot, Bool.false_eq_true, if_false] at hres <;>
    (try split_ifs at hres with h1 h2 h3 h4) <;>
    simp only [Run.returns.injEq, Created.mk.injEq, Option.some.injEq, reduceCtorEq,
      false_and, and_false] at hres
  obtain ⟨rfl, rfl⟩ := hres
  have h4' := not_or.mp h4
  exact ⟨rfl, rfl, rfl, rfl, h4'.1, h4'.2, rfl⟩

/-- C21, counterexample: in recording-only mode the node returned by `rmw_create_node`
carries a payload: its `data` is the `rmw_node_impl_t` record holding the two name buffers. -/
theorem C21_counterexample_recording_only_node_payload :
    is_recording_only_mode Globals.initial = true ∧
    rmw_create_node goodEnv fullAlloc Globals.initial (some bareContext) (some "talker")
        (some "/") =
      Run.returns ⟨some ⟨rmw_introspect_cpp_identifier, some (NodePayload.impl 4096 4160),
        "talker", "/"⟩, [Event.record_node "talker" "/"]⟩ ∧
    (some (NodePayload.impl 4096 4160) : Option NodePayload) ≠ none :=
  ⟨by decide, rfl, by decide⟩

/-- C21, amended: in recording-only mode the context written by a successful `rmw_init` has
a null `impl`, and every handle returned by `rmw_create_publisher`, `rmw_create_subscription`,
`rmw_create_service`, `rmw_create_client`, `rmw_create_guard_condition` and
`rmw_create_wait_set` has a null `data`; the handle returned by `rmw_create_node` has a
non-null `data`, the `rmw_node_impl_t` record with its two non-null name buffers, which is
not a backend handle. -/
theorem C21_recording_only_payloads (env : Env) (ts : TypeSupportLib) (alloc : Alloc)
    (g : Globals) (hmode : is_recording_only_mode g = true) :
    (∀ g0 options context, (rmw_init env options context g0).ret = RMW_RET_OK →
      (rmw_init env options context g0).g = g →
      ∃ ctx, (rmw_init env options context g0).context = some ctx ∧ ctx.impl = none) ∧
    (∀ node type_support topic_name qos_profile publisher_options h tr,
      rmw_create_publisher env ts alloc g node type_support topic_name qos_profile
        publisher_options = Run.returns ⟨some h, tr⟩ → h.data = none) ∧
    (∀ node type_support topic_name qos_profile subscription_options h tr,
      rmw_create_subscription env ts alloc g node type_support topic_name qos_profile
        subscription_options = Run.returns ⟨some h, tr⟩ → h.data = none) ∧
    (∀ node type_support service_name qos_profile h tr,
      rmw_create_service env ts alloc g node type_support service_name qos_profile =
        Run.returns ⟨some h, tr⟩ → h.data = none) ∧
    (∀ node type_support service_name qos_profile h tr,
      rmw_create_client env ts alloc g node type_support service_name qos_profile =
        Run.returns ⟨some h, tr⟩ → h.data = none) ∧
    (∀ context h tr, rmw_create_guard_condition env alloc g context = ⟨some h, tr⟩ →
      h.data = none) ∧
    (∀ context max_conditions h tr,
      rmw_create_wait_set env alloc g context max_conditions = ⟨some h, tr⟩ →
      h.data = none) ∧
    (∀ context name namespace_ h tr,
      rmw_create_node env alloc g context name namespace_ = Run.returns ⟨some h, tr⟩ →
      h.data = some (NodePayload.impl alloc.name_address alloc.namespace_address) ∧
        alloc.name_address ≠ 0 ∧ alloc.namespace_address ≠ 0) := by
  refine ⟨?_, ?_, ?_, ?_, ?_, ?_, ?_, ?_⟩
  · intro g0 options context hret hg
    obtain ⟨ctx, hc, -, hi⟩ := init_recording_only env options context g0 hret (hg ▸ hmode)
    exact ⟨ctx, hc, hi⟩
  · intro node type_support topic_name qos_profile publisher_options h tr hres
    exact (create_publisher_recording_only env ts alloc g node type_support topic_name
      qos_profile publisher_options h tr hmode hres).2
  · intro node type_support topic_name qos_profile subscription_options h tr hres
    exact (create_subscription_recording_only env ts alloc g node type_support topic_name
      qos_profile subscription_options h tr hmode hres).2
  · intro node type_support service_name qos_profile h tr hres
    exact (create_service_recording_only env ts alloc g node type_support service_name
      qos_profile h tr hmode hres).2
  · intro node type_support service_name qos_profile h tr hres
    exact (create_client_recording_only env ts alloc g node type_support service_name
      qos_profile h tr hmode hres).2
  · intro context h tr hres
    exact (create_guard_condition_recording_only env alloc g context h tr hmode hres).2
  · intro context max_conditions h tr hres
    exact (create_wait_set_recording_only env alloc g context max_conditions h tr hmode
      hres).2
  · intro context name namespace_ h tr hres
    obtain ⟨-, -, -, hd, h1, h2, -⟩ :=
      create_node_recording_only env alloc g context name namespace_ h tr hmode hres
    exact ⟨hd, h1, h2⟩

/-- Witness for C21: the guard condition made in the initial state has no payload. -/
theorem C21_recording_only_payloads_witness :
    is_recording_only_mode Globals.initial = true ∧
    ∃ h tr, rmw_create_guard_condition goodEnv fullAlloc Globals.initial (some bareContext) =
        ⟨some h, tr⟩ ∧ h.data = none :=
  ⟨by decide, ⟨rmw_introspect_cpp_identifier, none⟩, [], rfl,
    (C21_recording_only_payloads goodEnv sampleTypeSupport fullAlloc Globals.initial
      (by decide)).2.2.2.2.2.1 (some bareContext) ⟨rmw_introspect_cpp_identifier, none⟩ []
      rfl⟩


/-- C22: in recording-only mode, for a node returned by `rmw_create_node`, a topic name `t`
and a type support `T` (non-null QoS and options, the handle allocation succeeding),
`rmw_create_publisher` returns a handle whose `topic_name` is `t` and records exactly one
publisher entry with the node's name and namespace (those given to `rmw_create_node`), topic
`t` and the type name extracted from `T`, with no backend call; `rmw_publish` on that handle
with a non-null message returns `RMW_RET_OK` and makes no call. -/
theorem C22_recording_only_publisher (env : Env) (ts : TypeSupportLib) (alloc0 alloc : Alloc)
    (g : Globals) (context : Option rmw_context_t) (name namespace_ : Option String)
    (n : rmw_node_t) (tr0 : List Event) (T : Nat) (t : String) (qos options : Nat)
    (hmode : is_recording_only_mode g = true) (halloc : alloc.handle = true)
    (hnode : rmw_create_node env alloc0 g context name namespace_ =
      Run.returns ⟨some n, tr0⟩) :
    ∃ p : rmw_publisher_t,
      rmw_create_publisher env ts alloc g (some n) (some T) (some t) (some qos)
          (some options) =
        Run.returns ⟨some p,
          [Event.record_endpoint "publisher" n.name n.namespace_ t
            (ts.extract_message_type T)]⟩ ∧
      p.topic_name = t ∧
      name = some n.name ∧ namespace_ = some n.namespace_ ∧
      ∀ m : Buffer, rmw_publish env g (some p) (some m) =
        ⟨RMW_RET_OK, ⟨none, none, []⟩, []⟩ := by
  have hnot := not_intermediate_of_recording_only g hmode
  obtain ⟨hn, hs, htag, -, -, -, -⟩ :=
    create_node_recording_only env alloc0 g context name namespace_ n tr0 hmode hnode
  refine ⟨⟨rmw_introspect_cpp_identifier, none, t, false⟩, ?_, rfl, hn, hs, ?_⟩
  · simp [rmw_create_publisher, hnot, htag, halloc]
  · intro m
    simp [rmw_publish, hnot]

/-- Witness for C22: a publisher on topic `chatter` made on the node `talker`. -/
theorem C22_recording_only_publisher_witness :
    ∃ p : rmw_publisher_t,
      rmw_create_publisher goodEnv sampleTypeSupport fullAlloc Globals.initial
          (some ⟨rmw_introspect_cpp_identifier, some (NodePayload.impl 4096 4160),
            "talker", "/"⟩) (some 1) (some "chatter") (some 2) (some 3) =
        Run.returns ⟨some p,
          [Event.record_endpoint "publisher" "talker" "/" "chatter"
            "std_msgs/msg/String"]⟩ ∧
      p.topic_name = "chatter" :=
  (C22_recording_only_publisher goodEnv sampleTypeSupport fullAlloc fullAlloc Globals.initial
    (some bareContext) (some "talker") (some "/")
    ⟨rmw_introspect_cpp_identifier, some (NodePayload.impl 4096 4160), "talker", "/"⟩
    [Event.record_node "talker" "/"] 1 "chatter" 2 3 (by decide) rfl rfl).elim
    (fun p h => ⟨p, h.1, h.2.1⟩)

/-- C23: in recording-only mode, with non-null required arguments, each receive verb returns
`RMW_RET_OK` with the taken flag set to `false` and the buffers untouched, and each counting or
size query returns `RMW_RET_OK` with `0` written; none makes a backend call. -/
theorem C23_recording_only_defaults (env : Env) (g : Globals)
    (hmode : is_recording_only_mode g = true) :
    (∀ (s : rmw_subscription_t) (m : Buffer) (taken : Bool),
      rmw_take env g (some s) (some m) (some taken) =
        ⟨RMW_RET_OK, ⟨some false, none, [some m]⟩, []⟩) ∧
    (∀ (s : rmw_subscription_t) (m : Buffer) (taken : Bool) (i : Buffer),
      rmw_take_with_info env g (some s) (some m) (some taken) (some i) =
        ⟨RMW_RET_OK, ⟨some false, none, [some m, some i]⟩, []⟩) ∧
    (∀ (s : rmw_subscription_t) (m : Buffer) (taken : Bool),
      rmw_take_serialized_message env g (some s) (some m) (some taken) =
        ⟨RMW_RET_OK, ⟨some false, none, [some m]⟩, []⟩) ∧
    (∀ (s : rmw_subscription_t) (m : Buffer) (taken : Bool) (i : Buffer),
      rmw_take_serialized_message_with_info env g (some s) (some m) (some taken) (some i) =
        ⟨RMW_RET_OK, ⟨some false, none, [some m, some i]⟩, []⟩) ∧
    (∀ (s : rmw_service_t) (hd m : Buffer) (taken : Bool),
      rmw_take_request env g (some s) (some hd) (some m) (some taken) =
        ⟨RMW_RET_OK, ⟨some false, none, [some hd, some m]⟩, []⟩) ∧
    (∀ (c : rmw_client_t) (hd m : Buffer) (taken : Bool),
      rmw_take_response env g (some c) (some hd) (some m) (some taken) =
        ⟨RMW_RET_OK, ⟨some false, none, [some hd, some m]⟩, []⟩) ∧
    (∀ (e i : Buffer) (taken : Bool),
      rmw_take_event env g (some e) (some i) (some taken) =
        ⟨RMW_RET_OK, ⟨some false, none, [some i]⟩, []⟩) ∧
    (∀ (n : rmw_node_t) (topic : String) (k : Nat),
      rmw_count_publishers env g (some n) (some topic) (some k) =
        ⟨RMW_RET_OK, ⟨none, some 0, []⟩, []⟩) ∧
    (∀ (n : rmw_node_t) (topic : String) (k : Nat),
      rmw_count_subscribers env g (some n) (some topic) (some k) =
        ⟨RMW_RET_OK, ⟨none, some 0, []⟩, []⟩) ∧
    (∀ (p : rmw_publisher_t) (k : Nat),
      rmw_publisher_count_matched_subscriptions env g (some p) (some k) =
        ⟨RMW_RET_OK, ⟨none, some 0, []⟩, []⟩) ∧
    (∀ (s : rmw_subscription_t) (k : Nat),
      rmw_subscription_count_matched_publishers env g (some s) (some k) =
        ⟨RMW_RET_OK, ⟨none, some 0, []⟩, []⟩) ∧
    (∀ (m : Buffer) (T k : Nat),
      rmw_get_serialized_message_size env g (some m) (some T) (some k) =
        ⟨RMW_RET_OK, ⟨none, some 0, []⟩, []⟩) := by
  have hnot := not_intermediate_of_recording_only g hmode
  refine ⟨?_, ?_, ?_, ?_, ?_, ?_, ?_, ?_, ?_, ?_, ?_, ?_⟩
  · intro s m taken; simp [rmw_take, hnot]
  · intro s m taken i; simp [rmw_take_with_info, hnot]
  · intro s m taken; simp [rmw_take_serialized_message, hnot]
  · intro s m taken i; simp [rmw_take_serialized_message_with_info, hnot]
  · intro s hd m taken; simp [rmw_take_request, hnot]
  · intro c hd m taken; simp [rmw_take_response, hnot]
  · intro e i taken; simp [rmw_take_event, hnot]
  · intro n topic k; simp [rmw_count_publishers, hnot]
  · intro n topic k; simp [rmw_count_subscribers, hnot]
  · intro p k; simp [rmw_publisher_count_matched_subscriptions, hnot]
  · intro s k; simp [rmw_subscription_count_matched_publishers, hnot]
  · intro m T k; simp [rmw_get_serialized_message_size, hnot]

/-- Witness for C23: `rmw_take` in the initial state with the taken flag holding `true`. -/
theorem C23_recording_only_defaults_witness :
    is_recording_only_mode Globals.initial = true ∧
    rmw_take goodEnv Globals.initial (some sampleSubscription) (some (Buffer.data [5]))
        (some true) =
      ⟨RMW_RET_OK, ⟨some false, none, [some (Buffer.data [5])]⟩, []⟩ :=
  ⟨by decide,
    (C23_recording_only_defaults goodEnv Globals.initial (by decide)).1 sampleSubscription
      (Buffer.data [5]) true⟩

/-- C24: the five loaned-message verbs and the two content-filter verbs return
`RMW_RET_UNSUPPORTED` for every input, null pointers included; they take no part of the
controller state, so the result is the same in both modes; the out-parameters (the taken flag
among them) are as the caller passed them and no backend call is made. -/
theorem C24_unsupported_verbs (publisher : Option rmw_publisher_t)
    (subscription : Option rmw_subscription_t) (type_support allocator : Option Nat)
    (message info options : Option Buffer) (taken : Option Bool) :
    rmw_borrow_loaned_message publisher type_support message =
      ⟨RMW_RET_UNSUPPORTED, ⟨none, none, [message]⟩, []⟩ ∧
    rmw_return_loaned_message_from_publisher publisher message =
      ⟨RMW_RET_UNSUPPORTED, ⟨none, none, [message]⟩, []⟩ ∧
    rmw_take_loaned_message subscription message taken =
      ⟨RMW_RET_UNSUPPORTED, ⟨taken, none, [message]⟩, []⟩ ∧
    rmw_take_loaned_message_with_info subscription message taken info =
      ⟨RMW_RET_UNSUPPORTED, ⟨taken, none, [message, info]⟩, []⟩ ∧
    rmw_return_loaned_message_from_subscription subscription message =
      ⟨RMW_RET_UNSUPPORTED, ⟨none, none, [message]⟩, []⟩ ∧
    rmw_subscription_set_content_filter subscription options =
      ⟨RMW_RET_UNSUPPORTED, ⟨none, none, []⟩, []⟩ ∧
    rmw_subscription_get_content_filter subscription allocator options =
      ⟨RMW_RET_UNSUPPORTED, ⟨none, none, [options]⟩, []⟩ :=
  ⟨rfl, rfl, rfl, rfl, rfl, rfl, rfl⟩


/-- C25, counterexample: `rmw_event_set_callback` returns `RMW_RET_OK`, which is not
`RMW_RET_UNSUPPORTED`. -/
theorem C25_counterexample_set_callback_ok :
    rmw_event_set_callback (some (Buffer.data [])) 1 2 =
      ⟨RMW_RET_OK, ⟨none, none, [some (Buffer.data [])]⟩, []⟩ ∧
    RMW_RET_OK ≠ RMW_RET_UNSUPPORTED := by
  decide

/-- C25, amended: `rmw_event_set_callback` is a no-op that returns `RMW_RET_OK` for every
event (null included), callback and user data, in both modes (it takes no part of the
controller state), without a backend call; `rmw_publisher_event_init` and
`rmw_subscription_event_init` return `RMW_RET_UNSUPPORTED` in recording-only mode for non-null
arguments, leaving the event untouched. -/
theorem C25_event_verbs (env : Env) (g : Globals) (hmode : is_recording_only_mode g = true) :
    (∀ (event : Option Buffer) (callback user_data : Nat),
      rmw_event_set_callback event callback user_data =
        ⟨RMW_RET_OK, ⟨none, none, [event]⟩, []⟩) ∧
    (∀ (e : Buffer) (p : rmw_publisher_t),
      rmw_publisher_event_init env g (some e) (some p) =
        ⟨RMW_RET_UNSUPPORTED, ⟨none, none, [some e]⟩, []⟩) ∧
    (∀ (e : Buffer) (s : rmw_subscription_t),
      rmw_subscription_event_init env g (some e) (some s) =
        ⟨RMW_RET_UNSUPPORTED, ⟨none, none, [some e]⟩, []⟩) := by
  have hnot := not_intermediate_of_recording_only g hmode
  refine ⟨fun _ _ _ => rfl, ?_, ?_⟩
  · intro e p; simp [rmw_publisher_event_init, hnot]
  · intro e s; simp [rmw_subscription_event_init, hnot]

/-- Witness for C25: `rmw_publisher_event_init` in the initial state. -/
theorem C25_event_verbs_witness :
    is_recording_only_mode Globals.initial = true ∧
    rmw_publisher_event_init goodEnv Globals.initial (some (Buffer.data []))
        (some samplePublisher) =
      ⟨RMW_RET_UNSUPPORTED, ⟨none, none, [some (Buffer.data [])]⟩, []⟩ :=
  ⟨by decide,
    (C25_event_verbs goodEnv Globals.initial (by decide)).2.1 (Buffer.data [])
      samplePublisher⟩

/-! ## Wait-set proxy: elements that do not unwrap, and backend failure -/

/-- C26: in delegating mode `rmw_wait` does not test the result of unwrapping the elements.
With subscriptions `[11, 12, 0]`, of which the one at `12` has no payload and the last is a
null pointer, it calls the backend wait primitive, for every backend, with the native array
`[1011, 0, 0]`: a partially translated collection with null native handles is forwarded, and
the code returned is the backend's, not an error of the interceptor. -/
theorem C26_wait_forwards_null_natives (env : Env) :
    is_intermediate_mode delegatingState = true ∧
    unwrap_subscription (holeHeap.subscription_at 12) = 0 ∧
    unwrap_subscription (holeHeap.subscription_at 0) = 0 ∧
    (rmw_wait env holeHeap delegatingState (some [11, 12, 0]) none none none none
      (some sampleWaitSet) none).trace =
      [Event.real_wait ⟨some [1011, 0, 0], none, none, none, none, 55, none⟩] ∧
    (rmw_wait env holeHeap delegatingState (some [11, 12, 0]) none none none none
      (some sampleWaitSet) none).ret =
      (env.backend.wait ⟨some [1011, 0, 0], none, none, none, none, 55, none⟩).ret ∧
    (rmw_wait goodEnv holeHeap delegatingState (some [11, 12, 0]) none none none none
      (some sampleWaitSet) none).ret = RMW_RET_OK := by
  refine ⟨by decide, by decide, by decide, ?_, ?_, by decide⟩
  · simp only [rmw_wait, delegatingState, is_intermediate_mode, sampleWaitSet,
      unwrap_wait_set]
    simp
    split_ifs <;> rfl
  · simp only [rmw_wait, delegatingState, is_intermediate_mode, sampleWaitSet,
      unwrap_wait_set]
    simp
    split_ifs <;> rfl


/-- C27, counterexample: the backend times out and nulls the slots of the events collection,
which `rmw_wait` handed to it as it is: the caller's events `[7, 8]` come back as `[0, 0]`,
while the subscription slot is as on entry. -/
theorem C27_counterexample_events_written_by_backend :
    is_intermediate_mode delegatingState = true ∧
    rmw_wait timeoutWaitEnv sampleHeap delegatingState (some [11]) none none none
        (some [7, 8]) (some sampleWaitSet) (some (1, 0)) =
      ⟨RMW_RET_TIMEOUT, some [11], none, none, none, some [0, 0],
        [Event.real_wait ⟨some [1011], none, none, none, some [7, 8], 55, some (1, 0)⟩]⟩ := by
  decide

/-- C27, amended: in delegating mode, when the backend wait primitive returns a code other
than `RMW_RET_OK`, `rmw_wait` returns that code and the subscriptions, guard conditions,
services and clients collections are exactly as on entry, whatever the backend wrote into the
native arrays; the events collection, which was handed to the backend itself, holds what the
backend left in it. -/
theorem C27_wait_failure_keeps_wrapped_collections (env : Env) (heap : Heap) (g : Globals)
    (subscriptions guard_conditions services clients events : Option (List Nat))
    (ws : rmw_wait_set_t) (wait_timeout : Option (Nat × Nat))
    (hmode : is_intermediate_mode g = true)
    (hws : unwrap_wait_set (some ws) ≠ 0)
    (hret : (rmw_wait env heap g subscriptions guard_conditions services clients events
      (some ws) wait_timeout).ret ≠ RMW_RET_OK) :
    ∃ args : WaitArgs,
      (rmw_wait env heap g subscriptions guard_conditions services clients events
        (some ws) wait_timeout).trace = [Event.real_wait args] ∧
      (env.backend.wait args).ret ≠ RMW_RET_OK ∧
      (rmw_wait env heap g subscriptions guard_conditions services clients events
        (some ws) wait_timeout).ret = (env.backend.wait args).ret ∧
      (rmw_wait env heap g subscriptions guard_conditions services clients events
        (some ws) wait_timeout).subscriptions = subscriptions ∧
      (rmw_wait env heap g subscriptions guard_conditions services clients events
        (some ws) wait_timeout).guard_conditions = guard_conditions ∧
      (rmw_wait env heap g subscriptions guard_conditions services clients events
        (some ws) wait_timeout).services = services ∧
      (rmw_wait env heap g subscriptions guard_conditions services clients events
        (some ws) wait_timeout).clients = clients ∧
      args.events = events ∧
      (rmw_wait env heap g subscriptions guard_conditions services clients events
        (some ws) wait_timeout).events =
        events.map (fun es => (List.range es.length).map (env.backend.wait args).events) := by
  simp only [rmw_wait, hmode, if_true, hws, if_false] at hret ⊢
  split_ifs at hret ⊢ with hr
  · exact absurd hr hret
  · exact ⟨_, rfl, hr, rfl, rfl, rfl, rfl, rfl, rfl, rfl⟩

/-- Witness for C27: a timeout of the backend leaves the subscription slot as on entry. -/
theorem C27_wait_failure_keeps_wrapped_collections_witness :
    ∃ args : WaitArgs,
      (rmw_wait timeoutWaitEnv sampleHeap delegatingState (some [11]) none none none
        (some [7, 8]) (some sampleWaitSet) (some (1, 0))).trace = [Event.real_wait args] ∧
      (rmw_wait timeoutWaitEnv sampleHeap delegatingState (some [11]) none none none
        (some [7, 8]) (some sampleWaitSet) (some (1, 0))).subscriptions = some [11] :=
  (C27_wait_failure_keeps_wrapped_collections timeoutWaitEnv sampleHeap delegatingState
    (some [11]) none none none (some [7, 8]) sampleWaitSet (some (1, 0)) (by decide)
    (by decide) (by decide)).elim
    (fun args h => ⟨args, h.1, h.2.2.2.1⟩)


/-! ## Failure paths that miss a check -/

/-- C28: in delegating mode, when the backend `rmw_context_fini` fails, `rmw_context_fini`
returns the backend code with counter, backend and caller context unchanged, but it has
already freed the native context (`delete wrapper->real_context` comes before the test of the
code): the wrapper is left pointing at a freed object, and the same call made again hands
that object to the backend and frees it a second time. -/
theorem C28_context_fini_frees_native_context_on_failure :
    is_intermediate_mode delegatingState = true ∧
    unwrap_context (some sampleContext) = some ⟨0, some "rmw_fastrtps_cpp", 0, 0⟩ ∧
    rmw_context_fini failingFiniEnv (some sampleContext) delegatingState =
      ⟨RMW_RET_ERROR, some sampleContext, delegatingState,
        [Event.real_context_fini ⟨0, some "rmw_fastrtps_cpp", 0, 0⟩,
          Event.delete_real_context]⟩ ∧
    rmw_context_fini failingFiniEnv
        (rmw_context_fini failingFiniEnv (some sampleContext) delegatingState).context
        (rmw_context_fini failingFiniEnv (some sampleContext) delegatingState).g =
      ⟨RMW_RET_ERROR, some sampleContext, delegatingState,
        [Event.real_context_fini ⟨0, some "rmw_fastrtps_cpp", 0, 0⟩,
          Event.delete_real_context]⟩ := by
  decide

/-- C29: in delegating mode `rmw_create_node` on a context with the interceptor's tag and a
null `impl` reads `real_context` through the null payload, for every backend, allocation
outcome, name and namespace: it does not return. `rmw_create_guard_condition` and
`rmw_create_wait_set` return null for the same context without a backend call. -/
theorem C29_create_node_dereferences_null_payload (env : Env) (alloc : Alloc) (real : RealRMW)
    (count : Nat) (name namespace_ : String) :
    bareContext.implementation_identifier = rmw_introspect_cpp_identifier ∧
    bareContext.impl = none ∧
    is_intermediate_mode ⟨some real, count⟩ = true ∧
    rmw_create_node env alloc ⟨some real, count⟩ (some bareContext) (some name)
      (some namespace_) = Run.crashes ∧
    rmw_create_guard_condition env alloc ⟨some real, count⟩ (some bareContext) = ⟨none, []⟩ ∧
    rmw_create_wait_set env alloc ⟨some real, count⟩ (some bareContext) 0 = ⟨none, []⟩ := by
  refine ⟨rfl, rfl, rfl, ?_, ?_, ?_⟩
  · simp [rmw_create_node, bareContext, is_intermediate_mode]
  · simp [rmw_create_guard_condition, bareContext, is_intermediate_mode, unwrap_context]
  · simp [rmw_create_wait_set, bareContext, is_intermediate_mode, unwrap_context]

/-- C30: the four node-scoped destroy verbs do not test the node argument for null: with a
null node they return `RMW_RET_ERROR` in delegating mode (from the unwrap test, for a handle
with a native handle) and `RMW_RET_OK` in recording-only mode, where the handle is freed;
never `RMW_RET_INVALID_ARGUMENT`. `rmw_create_publisher` and `rmw_create_subscription` read
through a null options pointer in both modes and do not return. -/
theorem C30_null_node_and_null_options_not_checked (env : Env) (ts : TypeSupportLib) :
    (rmw_destroy_publisher env delegatingState none (some samplePublisher) =
        ⟨RMW_RET_ERROR, ⟨none, none, []⟩, []⟩ ∧
      rmw_destroy_subscription env delegatingState none (some sampleSubscription) =
        ⟨RMW_RET_ERROR, ⟨none, none, []⟩, []⟩ ∧
      rmw_destroy_service env delegatingState none (some sampleService) =
        ⟨RMW_RET_ERROR, ⟨none, none, []⟩, []⟩ ∧
      rmw_destroy_client env delegatingState none (some sampleClient) =
        ⟨RMW_RET_ERROR, ⟨none, none, []⟩, []⟩) ∧
    (rmw_destroy_publisher env Globals.initial none
          (some ⟨rmw_introspect_cpp_identifier, none, "chatter", false⟩) =
        ⟨RMW_RET_OK, ⟨none, none, []⟩, [Event.delete_handle]⟩ ∧
      rmw_destroy_subscription env Globals.initial none
          (some ⟨rmw_introspect_cpp_identifier, none⟩) =
        ⟨RMW_RET_OK, ⟨none, none, []⟩, [Event.delete_handle]⟩ ∧
      rmw_destroy_service env Globals.initial none
          (some ⟨rmw_introspect_cpp_identifier, none⟩) =
        ⟨RMW_RET_OK, ⟨none, none, []⟩, [Event.delete_handle]⟩ ∧
      rmw_destroy_client env Globals.initial none
          (some ⟨rmw_introspect_cpp_identifier, none⟩) =
        ⟨RMW_RET_OK, ⟨none, none, []⟩, [Event.delete_handle]⟩) ∧
    (rmw_create_publisher env ts fullAlloc Globals.initial (some sampleNode) (some 1)
        (some "chatter") (some 2) none = Run.crashes ∧
      rmw_create_subscription env ts fullAlloc Globals.initial (some sampleNode) (some 1)
        (some "chatter") (some 2) none = Run.crashes ∧
      rmw_create_publisher goodEnv ts fullAlloc delegatingState (some sampleNode) (some 1)
        (some "chatter") (some 2) none = Run.crashes ∧
      rmw_create_subscription goodEnv ts fullAlloc delegatingState (some sampleNode) (some 1)
        (some "chatter") (some 2) none = Run.crashes) := by
  refine ⟨⟨rfl, rfl, rfl, rfl⟩, ⟨rfl, rfl, rfl, rfl⟩, ⟨rfl, rfl, rfl, rfl⟩⟩

end RmwIntrospect
